import Mathlib

/-!
BigMPI: count codec, vector converter, collectives, one-sided operations
and reductions.

A shallow embedding of `src/type_contiguous_x.c`, `src/vcollectives_x.c`,
`src/new_vcollectives_x.c`, `src/rma_x.c` and `src/reductions_x.c`.

* `MPI_Count` and `MPI_Aint` are 64-bit signed integers, `int` is a 32-bit
  signed integer.  All three are carried in `Int`; every conversion the C
  code performs is written out (`to_int`, `to_int64`).
* `bigmpi_int_max` and `bigmpi_count_max` are declared in `bigmpi_impl.h`,
  which is not part of the sources at hand: they are parameters of every
  function that reads them.
* The compile-time switch `BIGMPI_AVOID_TYPE_CREATE_STRUCT` is the Boolean
  parameter `avoid_type_create_struct`.
* The datatype engine of the MPI library (constructors, envelope, contents,
  extent) is modelled after the MPI-3 standard, chapter 4.
* A run that stops without returning (failed `assert`, fatal MPI error,
  division by zero, read of an indeterminate value, read past the end of an
  array, `BigMPI_Error`, `MPI_Abort`) is an `Except.error` carrying a
  `Fault`.
* A function that calls into the MPI library is a `Run`: the list of the
  calls it made, in order, with their arguments, and the value returned or
  the fault that stopped it.  What a call answers (return code,
  commutativity flag, allocation failure) is read from a `Transport`.
* The compile-time switch `BIGMPI_CLEAVER` is the Boolean parameter
  `cleaver`.
-/

namespace BigMPI

/-! ## Machine integers -/

/-- Largest value of the C type `int`. -/
def INT_MAX : Int := 2147483647

/-- Largest value of `MPI_Aint` and of `MPI_Count`. -/
def INT64_MAX : Int := 9223372036854775807

/-- Conversion of a wide integer to the C type `int` (two's complement, 32 bits). -/
def to_int (x : Int) : Int := (x + 2147483648) % 4294967296 - 2147483648

/-- Result of 64-bit signed arithmetic (`MPI_Count`, `MPI_Aint`), two's complement. -/
def to_int64 (x : Int) : Int :=
  (x + 9223372036854775808) % 18446744073709551616 - 9223372036854775808

/-! ## Runs that do not return -/

/-- Reasons for which a call stops instead of returning. -/
inductive Fault where
  /-- The `assert` on the given line of the source file is false. -/
  | assertion (line : Nat)
  /-- The MPI library rejects an argument; errors are fatal by default. -/
  | mpi
  /-- An integer division whose divisor is zero. -/
  | divide_by_zero
  /-- A local variable is read before anything was stored in it. -/
  | indeterminate
  /-- An array is read at an index it does not have. -/
  | out_of_range
  /-- `BigMPI_Error` is called on the given line of the source file. -/
  | bigmpi_error (line : Nat)
  /-- `MPI_Abort` is called on the given line of the source file. -/
  | mpi_abort (line : Nat)
  deriving DecidableEq

/-- The C `assert` on source line `line`. -/
def c_assert (line : Nat) (cond : Bool) : Except Fault Unit :=
  if cond then .ok () else .error (.assertion line)

/-- The element `a[i]` of a C array held in a list. -/
def c_index {α : Type} (a : List α) (i : Nat) : Except Fault α :=
  match a.get? i with
  | some x => .ok x
  | none => .error .out_of_range

/-! ## MPI datatypes -/

/-- The values `MPI_Type_get_envelope` reports as combiner. -/
inductive Combiner where
  | NAMED
  | CONTIGUOUS
  | VECTOR
  | STRUCT
  deriving DecidableEq

/-- A datatype handle, identified with the construction it stands for.
`named` is a type that no constructor call produced (a predefined type, or
the caller's element type seen as a black box with its lower bound and
extent); the other constructors record the arguments of
`MPI_Type_contiguous`, `MPI_Type_vector` and `MPI_Type_create_struct`. -/
inductive MPI_Datatype where
  | null : MPI_Datatype
  | named (id : Nat) (lb extent : Int) : MPI_Datatype
  | contiguous (count : Int) (oldtype : MPI_Datatype) : MPI_Datatype
  | vector (count blocklength stride : Int) (oldtype : MPI_Datatype) : MPI_Datatype
  | struct (blocklengths : List Int) (displacements : List Int)
      (types : List MPI_Datatype) : MPI_Datatype

namespace MPI_Datatype

mutual
/-- Comparison of two handles (`==` on `MPI_Datatype` in C). -/
def sameType : MPI_Datatype → MPI_Datatype → Bool
  | null, null => true
  | named i l e, named i2 l2 e2 => i == i2 && l == l2 && e == e2
  | contiguous n t, contiguous n2 t2 => n == n2 && sameType t t2
  | vector c b s t, vector c2 b2 s2 t2 => c == c2 && b == b2 && s == s2 && sameType t t2
  | struct bl d ts, struct bl2 d2 ts2 => bl == bl2 && d == d2 && sameTypes ts ts2
  | _, _ => false
/-- Comparison of two arrays of handles, entry by entry. -/
def sameTypes : List MPI_Datatype → List MPI_Datatype → Bool
  | [], [] => true
  | t :: ts, t2 :: ts2 => sameType t t2 && sameTypes ts ts2
  | _, _ => false
end

/-- Test for `MPI_DATATYPE_NULL`. -/
def isNull : MPI_Datatype → Bool
  | null => true
  | _ => false

end MPI_Datatype

open MPI_Datatype

/-- Union of two optional byte ranges `(lb, ub)`. -/
def joinBounds : Option (Int × Int) → Option (Int × Int) → Option (Int × Int)
  | none, b => b
  | some a, none => some a
  | some a, some b => some (min a.1 b.1, max a.2 b.2)

/-- Byte range covered by `blocklength` consecutive copies of a type whose own
range is `inner`, the first copy placed at byte `disp`. -/
def blockBounds (blocklength disp : Int) (inner : Option (Int × Int)) : Option (Int × Int) :=
  match inner with
  | none => none
  | some (lb, ub) =>
    if blocklength ≤ 0 then none
    else some (disp + lb + min 0 ((blocklength - 1) * (ub - lb)),
               disp + ub + max 0 ((blocklength - 1) * (ub - lb)))

mutual
/-- Lower and upper bound `(lb, ub)` of the type map of a datatype (MPI-3,
section 4.1.7), `none` when the type map is empty.  Alignment padding of
structures is not modelled. -/
def typeBounds : MPI_Datatype → Option (Int × Int)
  | .null => none
  | .named _ lb extent => some (lb, lb + extent)
  | .contiguous count oldtype => blockBounds count 0 (typeBounds oldtype)
  | .vector count blocklength stride oldtype =>
    match typeBounds oldtype with
    | none => none
    | some (lb, ub) =>
      if count ≤ 0 ∨ blocklength ≤ 0 then none
      else
        let first := min 0 ((count - 1) * stride)
        let last := max 0 ((count - 1) * stride) + (blocklength - 1)
        some (lb + min (first * (ub - lb)) (last * (ub - lb)),
              ub + max (first * (ub - lb)) (last * (ub - lb)))
  | .struct blocklengths displacements types => structBounds blocklengths displacements types
/-- Bounds of the members of a structure, member by member. -/
def structBounds : List Int → List Int → List MPI_Datatype → Option (Int × Int)
  | b :: bs, d :: ds, t :: ts =>
    joinBounds (blockBounds b d (typeBounds t)) (structBounds bs ds ts)
  | _, _, _ => none
end

/-- Model of `MPI_Type_get_extent`: the pair `(lb, extent)`. -/
def MPI_Type_get_extent (datatype : MPI_Datatype) : Except Fault (Int × Int) :=
  if datatype.isNull then .error .mpi
  else
    match typeBounds datatype with
    | none => .ok (0, 0)
    | some (lb, ub) => .ok (lb, ub - lb)

/-- Model of `MPI_Type_contiguous`. -/
def MPI_Type_contiguous (count : Int) (oldtype : MPI_Datatype) : Except Fault MPI_Datatype :=
  if oldtype.isNull || decide (count < 0) then .error .mpi
  else .ok (.contiguous count oldtype)

/-- Model of `MPI_Type_vector`. -/
def MPI_Type_vector (count blocklength stride : Int) (oldtype : MPI_Datatype) :
    Except Fault MPI_Datatype :=
  if oldtype.isNull || decide (count < 0) || decide (blocklength < 0) then .error .mpi
  else .ok (.vector count blocklength stride oldtype)

/-- Model of `MPI_Type_create_struct`: the first `count` entries of the three arrays. -/
def MPI_Type_create_struct (count : Int) (blocklengths : List Int) (displacements : List Int)
    (types : List MPI_Datatype) : Except Fault MPI_Datatype :=
  if decide (count < 0) || decide (blocklengths.length < count.toNat)
      || decide (displacements.length < count.toNat) || decide (types.length < count.toNat)
      || (blocklengths.take count.toNat).any (fun b => decide (b < 0))
      || (types.take count.toNat).any isNull then .error .mpi
  else .ok (.struct (blocklengths.take count.toNat) (displacements.take count.toNat)
              (types.take count.toNat))

/-- Model of `MPI_Type_get_envelope`: `(num_integers, num_addresses,
num_datatypes, combiner)` (MPI-3, table 4.1). -/
def MPI_Type_get_envelope : MPI_Datatype → Except Fault (Int × Int × Int × Combiner)
  | .null => .error .mpi
  | .named _ _ _ => .ok (0, 0, 0, .NAMED)
  | .contiguous _ _ => .ok (1, 0, 1, .CONTIGUOUS)
  | .vector _ _ _ _ => .ok (3, 0, 1, .VECTOR)
  | .struct blocklengths displacements types =>
    .ok (blocklengths.length + 1, displacements.length, types.length, .STRUCT)

/-- Model of `MPI_Type_get_contents`: the integers, addresses and datatypes of
the constructor call.  It is an error to ask for the contents of a named type
or to pass arrays that are too short. -/
def MPI_Type_get_contents (datatype : MPI_Datatype)
    (max_integers max_addresses max_datatypes : Int) :
    Except Fault (List Int × List Int × List MPI_Datatype) :=
  match datatype with
  | .null => .error .mpi
  | .named _ _ _ => .error .mpi
  | .contiguous count oldtype =>
    if decide (max_integers < 1) || decide (max_addresses < 0) || decide (max_datatypes < 1)
    then .error .mpi else .ok ([count], [], [oldtype])
  | .vector count blocklength stride oldtype =>
    if decide (max_integers < 3) || decide (max_addresses < 0) || decide (max_datatypes < 1)
    then .error .mpi else .ok ([count, blocklength, stride], [], [oldtype])
  | .struct blocklengths displacements types =>
    if decide (max_integers < blocklengths.length + 1)
        || decide (max_addresses < displacements.length)
        || decide (max_datatypes < types.length)
    then .error .mpi
    else .ok ((blocklengths.length : Int) :: blocklengths, displacements, types)

/-! ## `type_contiguous_x.c` -/

/-- The search loop of `BigMPI_Factorize_count`,
`for (g = lo; g < hi; g++)`: `n` is the number of iterations left and `g` the
current candidate.  The result is the return code and what was stored in
`*a` and `*b`, if anything. -/
def factorize_loop (input : Int) : Nat → Int → Int × Option (Int × Int)
  | 0, _ => (1, none)
  | n + 1, g =>
    if Int.tmod input g = 0 then (0, some (to_int g, to_int (Int.tdiv input g)))
    else factorize_loop input n (g + 1)

/-- Binary search for the integer square root: `r` is the root found so far,
the bits below position `k` are still to be decided. -/
def isqrt_bits (n : Nat) : Nat → Nat → Nat
  | 0, r => r
  | k + 1, r => if (r + 2 ^ k) * (r + 2 ^ k) ≤ n then isqrt_bits n k (r + 2 ^ k)
                else isqrt_bits n k r

/-- Integer square root of a number below `2^64`, the value taken for
`floor(sqrt((double)in))`. -/
def isqrt (n : Nat) : Nat := isqrt_bits n 32 0

/-- `BigMPI_Factorize_count` (lines 22-50).  The bound
`hi = (MPI_Count)floor(sqrt((double)in))` is taken to be the integer square
root of `in`. -/
def BigMPI_Factorize_count (bigmpi_int_max : Int) (input : Int) : Int × Option (Int × Int) :=
  let lo := Int.tdiv input bigmpi_int_max + 1
  let hi : Int := (isqrt input.toNat : Nat)
  factorize_loop input (hi - lo).toNat lo

/-- `MPIX_Type_contiguous_x` (lines 70-105).  `MPI_Type_free` of the two
members leaves the structure built from them unchanged. -/
def MPIX_Type_contiguous_x (avoid_type_create_struct : Bool)
    (bigmpi_int_max bigmpi_count_max : Int) (count : Int) (oldtype : MPI_Datatype) :
    Except Fault MPI_Datatype := do
  c_assert 73 (decide (count < bigmpi_count_max))
  if avoid_type_create_struct && (BigMPI_Factorize_count bigmpi_int_max count).1 != 0 then
    -- `if (notprime) { MPI_Type_vector(a, b, b, oldtype, newtype); return MPI_SUCCESS; }`
    match (BigMPI_Factorize_count bigmpi_int_max count).2 with
    | some (a, b) => MPI_Type_vector a b b oldtype
    | none => .error .indeterminate
  else
    let c := Int.tdiv count bigmpi_int_max
    let r := Int.tmod count bigmpi_int_max
    let chunks ← MPI_Type_vector (to_int c) (to_int bigmpi_int_max) (to_int bigmpi_int_max) oldtype
    let remainder ← MPI_Type_contiguous (to_int r) oldtype
    let (_, extent) ← MPI_Type_get_extent oldtype
    let remdisp := to_int64 (c * bigmpi_int_max * extent)
    MPI_Type_create_struct 2 [1, 1] [0, remdisp] [chunks, remainder]

/-- `BigMPI_Decode_contiguous_x` (lines 132-213). -/
def BigMPI_Decode_contiguous_x (avoid_type_create_struct : Bool) (bigmpi_int_max : Int)
    (intype : MPI_Datatype) : Except Fault (Int × MPI_Datatype) := do
  let (nint, nadd, ndts, combiner) ← MPI_Type_get_envelope intype
  c_assert 139 (combiner == .CONTIGUOUS || combiner == .VECTOR)
  if avoid_type_create_struct && combiner == .VECTOR then
    c_assert 142 (nint == 3)
    c_assert 143 (nadd == 0)
    c_assert 144 (ndts == 1)
    let (cbs, _, vbasetype) ← MPI_Type_get_contents intype 3 0 1
    let a ← c_index cbs 0
    let b ← c_index cbs 1
    let stride ← c_index cbs 2
    c_assert 151 (b == stride)
    let basetype ← c_index vbasetype 0
    .ok (to_int64 (a * b), basetype)
  else
    -- line 158 is compiled in the default build only
    if avoid_type_create_struct then .ok () else c_assert 158 (combiner == .STRUCT)
    c_assert 160 (nint == 3)
    c_assert 161 (nadd == 2)
    c_assert 162 (ndts == 2)
    let (cnbls, displacements, types) ← MPI_Type_get_contents intype 3 2 2
    let n ← c_index cnbls 0
    let bl0 ← c_index cnbls 1
    let bl1 ← c_index cnbls 2
    let d0 ← c_index displacements 0
    c_assert 168 (n == 2)
    c_assert 169 (bl0 == 1)
    c_assert 170 (bl1 == 1)
    c_assert 171 (d0 == 0)
    let chunks ← c_index types 0
    let (nint, nadd, ndts, combiner) ← MPI_Type_get_envelope chunks
    c_assert 176 (combiner == .VECTOR)
    c_assert 177 (nint == 3)
    c_assert 178 (nadd == 0)
    c_assert 179 (ndts == 1)
    let (cbs, _, vbasetype) ← MPI_Type_get_contents chunks 3 0 1
    let c ← c_index cbs 0
    let blocklength ← c_index cbs 1
    let stride ← c_index cbs 2
    c_assert 184 (blocklength == bigmpi_int_max)
    c_assert 185 (stride == bigmpi_int_max)
    let remainder ← c_index types 1
    let (nint, nadd, ndts, combiner) ← MPI_Type_get_envelope remainder
    c_assert 193 (combiner == .CONTIGUOUS)
    c_assert 194 (nint == 1)
    c_assert 195 (nadd == 0)
    c_assert 196 (ndts == 1)
    let (ccc, _, cbasetype) ← MPI_Type_get_contents remainder 1 0 1
    let r ← c_index ccc 0
    let cbase ← c_index cbasetype 0
    let vbase ← c_index vbasetype 0
    c_assert 206 (sameType cbase vbase)
    .ok (to_int64 (c * bigmpi_int_max + r), cbase)


mutual
/-- Number of copies of `base` that a datatype is made of, following the
constructor calls down to `base`; `none` when something other than `base`
is reached. -/
def elementCount (base : MPI_Datatype) : MPI_Datatype → Option Int
  | .null => none
  | .named i l e => if sameType (.named i l e) base then some 1 else none
  | .contiguous n t =>
    if sameType (.contiguous n t) base then some 1
    else (elementCount base t).map (fun k => n * k)
  | .vector c b s t =>
    if sameType (.vector c b s t) base then some 1
    else (elementCount base t).map (fun k => c * b * k)
  | .struct bl d ts =>
    if sameType (.struct bl d ts) base then some 1 else elementCountMembers base bl ts
/-- Sum over the members of a structure of block length times element count. -/
def elementCountMembers (base : MPI_Datatype) : List Int → List MPI_Datatype → Option Int
  | [], [] => some 0
  | b :: bs, t :: ts =>
    match elementCount base t, elementCountMembers base bs ts with
    | some k, some rest => some (b * k + rest)
    | _, _ => none
  | _, _ => none
end

/-- A handle the decoder is meant to accept: the two-member structure of the
quotient/remainder format and, in the factoring build, the single strided
vector whose stride equals its block length. -/
def WellFormedComposed (avoid_type_create_struct : Bool) (bigmpi_int_max : Int)
    (t : MPI_Datatype) : Prop :=
  (∃ c r d b, t = .struct [1, 1] [0, d]
      [.vector c bigmpi_int_max bigmpi_int_max b, .contiguous r b])
  ∨ (avoid_type_create_struct = true ∧ ∃ a b oldtype, t = .vector a b b oldtype)

/-! ## `vcollectives_x.c` -/

/-- The expression `splat_old_type ? oldtype : oldtypes[i]` (lines 41 and 46). -/
def effective_oldtype (splat_old_type : Int) (oldtype : MPI_Datatype)
    (oldtypes : List MPI_Datatype) (i : Nat) : Except Fault MPI_Datatype :=
  if splat_old_type != 0 then .ok oldtype else c_index oldtypes i

/-- Body of the loop of `BigMPI_Convert_vectors` (lines 37-48) for index `i`:
what is stored in `newcounts[i]`, `newtypes[i]` and `newdispls[i]`.
`MPI_Type_commit` does not change the type. -/
def convert_vectors_entry (avoid_type_create_struct : Bool)
    (bigmpi_int_max bigmpi_count_max : Int) (splat_old_type zero_new_displs : Int)
    (oldcounts : List Int) (oldtype : MPI_Datatype) (oldtypes : List MPI_Datatype)
    (olddispls : List Int) (i : Nat) : Except Fault (Int × MPI_Datatype × Int) := do
  let oldcount ← c_index oldcounts i
  let t ← effective_oldtype splat_old_type oldtype oldtypes i
  let newtype ← MPIX_Type_contiguous_x avoid_type_create_struct bigmpi_int_max bigmpi_count_max
    oldcount t
  let (_, oldextent) ← MPI_Type_get_extent t
  let (_, newextent) ← MPI_Type_get_extent newtype
  if zero_new_displs != 0 then .ok (1, newtype, 0)
  else
    let olddispl ← c_index olddispls i
    if newextent = 0 then .error .divide_by_zero
    else .ok (1, newtype, Int.tdiv (to_int64 (olddispl * oldextent)) newextent)

/-- The three arrays `BigMPI_Convert_vectors` fills, entries `0 .. num-1`. -/
structure ConvertedVectors where
  newcounts : List Int
  newtypes : List MPI_Datatype
  newdispls : List Int

/-- The loop `for (int i=0; i<num; i++)` from index `i` on, `n` iterations
left; the result lists hold the entries `i, i+1, ...`. -/
def convert_vectors_loop (avoid_type_create_struct : Bool)
    (bigmpi_int_max bigmpi_count_max : Int) (splat_old_type zero_new_displs : Int)
    (oldcounts : List Int) (oldtype : MPI_Datatype) (oldtypes : List MPI_Datatype)
    (olddispls : List Int) : Nat → Nat → Except Fault ConvertedVectors
  | 0, _ => .ok ⟨[], [], []⟩
  | n + 1, i => do
    let (newcount, newtype, newdispl) ← convert_vectors_entry avoid_type_create_struct
      bigmpi_int_max bigmpi_count_max splat_old_type zero_new_displs oldcounts oldtype oldtypes
      olddispls i
    let rest ← convert_vectors_loop avoid_type_create_struct bigmpi_int_max bigmpi_count_max
      splat_old_type zero_new_displs oldcounts oldtype oldtypes olddispls n (i + 1)
    .ok ⟨newcount :: rest.newcounts, newtype :: rest.newtypes, newdispl :: rest.newdispls⟩

/-- `BigMPI_Convert_vectors` (lines 25-51). -/
def BigMPI_Convert_vectors (avoid_type_create_struct : Bool)
    (bigmpi_int_max bigmpi_count_max : Int) (num : Int) (splat_old_type zero_new_displs : Int)
    (oldcounts : List Int) (oldtype : MPI_Datatype) (oldtypes : List MPI_Datatype)
    (olddispls : List Int) : Except Fault ConvertedVectors :=
  convert_vectors_loop avoid_type_create_struct bigmpi_int_max bigmpi_count_max splat_old_type
    zero_new_displs oldcounts oldtype oldtypes olddispls num.toNat 0

/-! ## Calls into the transport -/

/-- A buffer argument: `MPI_IN_PLACE`, the byte `offset` bytes past the start
of the caller's buffer number `base` (`void *` arithmetic counts bytes), the
table of `size` pointers that `MPIX_Gatherv_x` and `MPIX_Scatterv_x`
allocate, a byte of the memory `MPI_Alloc_mem` returned (the value of the
local variable `tempbuf` of `MPIX_Reduce_scatter_block_x`, plus `offset`), or
the address `&tempbuf` of that variable. -/
inductive Buffer where
  | in_place
  | addr (base : Nat) (offset : Int)
  | pointer_table
  | temp (offset : Int)
  | address_of_tempbuf
  deriving DecidableEq

/-- The expression `buf + k` or `&buf[k]` on a `void *`. -/
def Buffer.plus : Buffer → Int → Buffer
  | .addr base offset, k => .addr base (offset + k)
  | .temp offset, k => .temp (offset + k)
  | b, _ => b

/-- What the code reads from a communicator: `MPI_Comm_test_inter`,
`MPI_Comm_size` and `MPI_Comm_rank`. -/
structure MPI_Comm where
  is_inter : Bool
  size : Int
  rank : Int

/-- The predefined reduction operators. -/
inductive Builtin_Op where
  | MAX | MIN | SUM | PROD | LAND | BAND | LOR | BOR | LXOR | BXOR
  | MAXLOC | MINLOC | REPLACE | NO_OP
  deriving DecidableEq

/-- An operator handle: a predefined operator, or the operator that
`MPI_Op_create` made from the user function `BigMPI_<fn>_x` and a
commutativity flag, or any other user operator. -/
inductive MPI_Op where
  | builtin (op : Builtin_Op)
  | created (fn : Builtin_Op) (commute : Int)
  | user (id : Nat)
  deriving DecidableEq

/-- The native one-sided primitives. -/
inductive RmaPrimitive where
  | MPI_Put | MPI_Get | MPI_Accumulate | MPI_Get_accumulate
  | MPI_Rput | MPI_Rget | MPI_Raccumulate | MPI_Rget_accumulate
  deriving DecidableEq

/-- The arguments of one call of a native one-sided primitive; `result` and
`op` are present for the primitives that have them. -/
structure RmaCall where
  primitive : RmaPrimitive
  origin_addr : Buffer
  origin_count : Int
  origin_datatype : MPI_Datatype
  result : Option (Buffer × Int × MPI_Datatype)
  target_rank : Int
  target_disp : Int
  target_count : Int
  target_datatype : MPI_Datatype
  op : Option MPI_Op
  win : Nat

/-- An argument passed where the callee expects an `int` count: a count, or a
datatype handle put in that position. -/
inductive CountArg where
  | count (n : Int)
  | handle (datatype : MPI_Datatype)

/-- One call that leaves the modelled code, with its arguments. -/
inductive Event where
  /-- `MPIX_Type_contiguous_x(count, oldtype, &newtype)` is entered. -/
  | type_contiguous_x (count : Int) (oldtype : MPI_Datatype)
  | type_commit (datatype : MPI_Datatype)
  | type_free (datatype : MPI_Datatype)
  /-- `BigMPI_Create_graph_comm(comm, root, &comm_dist_graph)`. -/
  | create_graph_comm (root : Int)
  | neighbor_alltoallw (sendbuf : Buffer) (sendcounts sdispls : List Int)
      (sendtypes : List MPI_Datatype) (recvbuf : Buffer) (recvcounts rdispls : List Int)
      (recvtypes : List MPI_Datatype)
  | comm_free
  /-- `MPIX_Irecv_x(buf, count, datatype, source, tag, comm, &reqs[request])`. -/
  | irecv_x (buf : Buffer) (count : Int) (datatype : MPI_Datatype) (source tag : Int)
      (request : Int)
  /-- `MPIX_Isend_x(buf, count, datatype, dest, tag, comm, &reqs[request])`. -/
  | isend_x (buf : Buffer) (count : Int) (datatype : MPI_Datatype) (dest tag : Int)
      (request : Int)
  | waitall (count : Int)
  | win_create (base : Buffer) (size : Int) (disp_unit : Int)
  | win_fence
  /-- The `MPI_Put` of `BigMPI_Collective`. -/
  | put (origin_addr : Buffer) (origin_count : Int) (origin_datatype : MPI_Datatype)
      (target_rank : Int) (target_disp : Int) (target_count : CountArg)
      (target_datatype : MPI_Datatype)
  | win_free
  /-- A native one-sided primitive called from `rma_x.c`. -/
  | rma (call : RmaCall)
  /-- `MPI_Op_create(BigMPI_<fn>_x, commute, bigop)`. -/
  | op_create (fn : Builtin_Op) (commute : Int)
  | op_free (op : MPI_Op)
  | reduce (sendbuf recvbuf : Buffer) (count : Int) (datatype : MPI_Datatype) (op : MPI_Op)
      (root : Int)
  | allreduce (sendbuf recvbuf : Buffer) (count : Int) (datatype : MPI_Datatype) (op : MPI_Op)
  | reduce_scatter_block (sendbuf recvbuf : Buffer) (recvcount : Int) (datatype : MPI_Datatype)
      (op : MPI_Op)
  | reduce_local (inbuf inoutbuf : Buffer) (count : Int) (datatype : MPI_Datatype)
      (op : Builtin_Op)
  | alloc_mem (size : Int)
  /-- `MPI_Free_mem(base)`. -/
  | free_mem (base : Buffer)
  /-- `MPIX_Scatter_x(sendbuf, sendcount, sendtype, recvbuf, recvcount, recvtype, root, comm)`. -/
  | scatter_x (sendbuf : Buffer) (sendcount : Int) (sendtype : MPI_Datatype) (recvbuf : Buffer)
      (recvcount : Int) (recvtype : MPI_Datatype) (root : Int)

/-- What the code cannot compute itself: the return code of each transport
call, the flag `MPI_Op_commutative` reports, and whether `MPI_Alloc_mem`
leaves the pointer `NULL`. -/
structure Transport where
  rc : Event → Int
  commutative : MPI_Op → Int
  alloc_fails : Int → Bool

/-- A run of a function: the calls it made, in order, and either the value
it returned or the fault that stopped it. -/
structure Run (α : Type) where
  trace : List Event
  result : Except Fault α

/-- A run that returns at once. -/
def Run.pure {α : Type} (a : α) : Run α := ⟨[], .ok a⟩

/-- Sequencing: the second part runs only if the first one returned. -/
def Run.bind {α β : Type} (x : Run α) (f : α → Run β) : Run β :=
  match x.result with
  | .error e => ⟨x.trace, .error e⟩
  | .ok a => ⟨x.trace ++ (f a).trace, (f a).result⟩

instance : Monad Run where
  pure := Run.pure
  bind := Run.bind

/-- One call into the transport. -/
def emit (e : Event) : Run Unit := ⟨[e], .ok ()⟩

/-- A run stopped by a fault before any call. -/
def Run.fail {α : Type} (f : Fault) : Run α := ⟨[], .error f⟩

/-- A computation that makes no call. -/
def Run.lift {α : Type} (x : Except Fault α) : Run α := ⟨[], x⟩

/-- Modelled from the spec: `BigMPI_Error` is not among the sources; a usage
error is reported immediately and terminates the call (spec, section 7). -/
def BigMPI_Error (line : Nat) : Run Unit := Run.fail (.bigmpi_error line)

/-- The loop `for (int i = i0; i < i0 + n; i++) body(i)`, collecting what
each iteration produced. -/
def for_loop {α : Type} (body : Nat → Run α) : Nat → Nat → Run (List α)
  | 0, _ => Run.pure []
  | n + 1, i => Run.bind (body i) (fun x =>
      Run.bind (for_loop body n (i + 1)) (fun xs => Run.pure (x :: xs)))

/-- A call of `MPIX_Type_contiguous_x` followed by `MPI_Type_commit` of its result. -/
def type_contiguous_x_commit (avoid_type_create_struct : Bool)
    (bigmpi_int_max bigmpi_count_max : Int) (count : Int) (oldtype : MPI_Datatype) :
    Run MPI_Datatype := do
  emit (.type_contiguous_x count oldtype)
  let newtype ← Run.lift (MPIX_Type_contiguous_x avoid_type_create_struct bigmpi_int_max
    bigmpi_count_max count oldtype)
  emit (.type_commit newtype)
  pure newtype

/-- `MPI_Type_free(&datatype)`; the null handle is not a valid argument. -/
def type_free (datatype : MPI_Datatype) : Run Unit := do
  emit (.type_free datatype)
  if datatype.isNull then Run.fail .mpi else pure ()

/-! ## `vcollectives_x.c`, the entry points

The entry points are modelled as compiled without `BIGMPI_VCOLLS_P2P`; the
branches under that switch use names that are not declared (`adispls`,
`recvtypes`, `reqs` outside its block). -/

/-- The value of `MPI_SUCCESS`. -/
def MPI_SUCCESS : Int := 0

/-- One slot of the vectors handed to `MPI_Neighbor_alltoallw`. -/
structure PeerEntry where
  count : Int
  datatype : MPI_Datatype
  displ : Int

/-- The rescaling `displ*oldextent/newextent` after the two calls of
`MPI_Type_get_extent` (lines 101-104, 186-189, 334-336, 341-343). -/
def rescale_displ (oldtype newtype : MPI_Datatype) (displ : Int) : Except Fault Int := do
  let (_, oldextent) ← MPI_Type_get_extent oldtype
  let (_, newextent) ← MPI_Type_get_extent newtype
  if newextent = 0 then .error .divide_by_zero
  else .ok (Int.tdiv (to_int64 (displ * oldextent)) newextent)

/-- The loops `MPI_Type_free(&newsendtypes[i]); MPI_Type_free(&newrecvtypes[i]);`. -/
def free_types : List PeerEntry → List PeerEntry → Run Unit
  | s :: ss, r :: rs =>
    Run.bind (type_free s.datatype) (fun _ =>
      Run.bind (type_free r.datatype) (fun _ => free_types ss rs))
  | _, _ => Run.pure ()

/-- The common end of the entry points (lines 108-117, 198-207, 346-355):
graph communicator, one `MPI_Neighbor_alltoallw`, release of the graph and of
the converted types; the value is the return code of the exchange. -/
def neighbor_exchange (tr : Transport) (root : Int) (sendbuf : Buffer) (sends : List PeerEntry)
    (recvbuf : Buffer) (recvs : List PeerEntry) : Run Int := do
  emit (.create_graph_comm root)
  emit (.neighbor_alltoallw sendbuf (sends.map PeerEntry.count) (sends.map PeerEntry.displ)
    (sends.map PeerEntry.datatype) recvbuf (recvs.map PeerEntry.count)
    (recvs.map PeerEntry.displ) (recvs.map PeerEntry.datatype))
  emit .comm_free
  free_types sends recvs
  pure (tr.rc (.neighbor_alltoallw sendbuf (sends.map PeerEntry.count)
    (sends.map PeerEntry.displ) (sends.map PeerEntry.datatype) recvbuf
    (recvs.map PeerEntry.count) (recvs.map PeerEntry.displ) (recvs.map PeerEntry.datatype)))

/-- Body of the loop of `MPIX_Gatherv_x` (lines 85-106): the send slot and the
receive slot of peer `i`. -/
def gatherv_body (avoid_type_create_struct : Bool) (bigmpi_int_max bigmpi_count_max : Int)
    (sendcount : Int) (sendtype : MPI_Datatype) (recvcounts rdispls : List Int)
    (recvtype : MPI_Datatype) (root rank : Int) (i : Nat) : Run (PeerEntry × PeerEntry) := do
  let newsendtype ← type_contiguous_x_commit avoid_type_create_struct bigmpi_int_max
    bigmpi_count_max sendcount sendtype
  if rank != root then
    pure (⟨1, newsendtype, 0⟩, ⟨0, .null, 0⟩)
  else
    let recvcount ← Run.lift (c_index recvcounts i)
    let newrecvtype ← type_contiguous_x_commit avoid_type_create_struct bigmpi_int_max
      bigmpi_count_max recvcount recvtype
    let rdispl ← Run.lift (c_index rdispls i)
    let newrdispl ← Run.lift (rescale_displ recvtype newrecvtype rdispl)
    pure (⟨1, newsendtype, 0⟩, ⟨1, newrecvtype, newrdispl⟩)

/-- `MPIX_Gatherv_x` (lines 56-145).  The send buffer argument of the
exchange is the pointer table `newsendbufs`. -/
def MPIX_Gatherv_x (avoid_type_create_struct : Bool) (bigmpi_int_max bigmpi_count_max : Int)
    (tr : Transport) (sendbuf : Buffer) (sendcount : Int) (sendtype : MPI_Datatype)
    (recvbuf : Buffer) (recvcounts rdispls : List Int) (recvtype : MPI_Datatype) (root : Int)
    (comm : MPI_Comm) : Run Int := do
  if comm.is_inter then BigMPI_Error 65 else pure ()
  if sendbuf = .in_place then BigMPI_Error 68 else pure ()
  let entries ← for_loop (gatherv_body avoid_type_create_struct bigmpi_int_max bigmpi_count_max
    sendcount sendtype recvcounts rdispls recvtype root comm.rank) comm.size.toNat 0
  neighbor_exchange tr root .pointer_table (entries.map Prod.fst) recvbuf
    (entries.map Prod.snd)

/-- Body of the loop of `MPIX_Scatterv_x` (lines 177-196). -/
def scatterv_body (avoid_type_create_struct : Bool) (bigmpi_int_max bigmpi_count_max : Int)
    (sendcounts sdispls : List Int) (sendtype : MPI_Datatype) (recvcount : Int)
    (recvtype : MPI_Datatype) (root rank : Int) (i : Nat) : Run (PeerEntry × PeerEntry) := do
  let send ← (if rank != root then (pure ⟨0, .null, 0⟩ : Run PeerEntry)
    else do
      let sendcount ← Run.lift (c_index sendcounts i)
      let newsendtype ← type_contiguous_x_commit avoid_type_create_struct bigmpi_int_max
        bigmpi_count_max sendcount sendtype
      let sdispl ← Run.lift (c_index sdispls i)
      let newsdispl ← Run.lift (rescale_displ sendtype newsendtype sdispl)
      pure ⟨1, newsendtype, newsdispl⟩)
  let newrecvtype ← type_contiguous_x_commit avoid_type_create_struct bigmpi_int_max
    bigmpi_count_max recvcount recvtype
  pure (send, ⟨1, newrecvtype, 0⟩)

/-- `MPIX_Scatterv_x` (lines 147-235).  The receive buffer argument of the
exchange is the pointer table `newrecvbufs`. -/
def MPIX_Scatterv_x (avoid_type_create_struct : Bool) (bigmpi_int_max bigmpi_count_max : Int)
    (tr : Transport) (sendbuf : Buffer) (sendcounts sdispls : List Int) (sendtype : MPI_Datatype)
    (recvbuf : Buffer) (recvcount : Int) (recvtype : MPI_Datatype) (root : Int)
    (comm : MPI_Comm) : Run Int := do
  if comm.is_inter then BigMPI_Error 155 else pure ()
  if sendbuf = .in_place then BigMPI_Error 158 else pure ()
  let _ := recvbuf
  let entries ← for_loop (scatterv_body avoid_type_create_struct bigmpi_int_max bigmpi_count_max
    sendcounts sdispls sendtype recvcount recvtype root comm.rank) comm.size.toNat 0
  neighbor_exchange tr root sendbuf (entries.map Prod.fst) .pointer_table
    (entries.map Prod.snd)

/-- `MPIX_Allgatherv_x` (lines 237-262): nothing but a comment stands between
`MPI_Comm_size` and `return rc`. -/
def MPIX_Allgatherv_x (sendbuf : Buffer) (sendcount : Int) (sendtype : MPI_Datatype)
    (recvbuf : Buffer) (recvcounts adispls : List Int) (recvtype : MPI_Datatype)
    (comm : MPI_Comm) : Run Int :=
  let _ := (sendbuf, sendcount, sendtype, recvbuf, recvcounts, adispls, recvtype, comm.size)
  pure MPI_SUCCESS

/-- `MPIX_Alltoallv_x` (lines 264-298): the two checks, then nothing but a
comment before `return rc`. -/
def MPIX_Alltoallv_x (sendbuf : Buffer) (sendcounts sdispls : List Int) (sendtype : MPI_Datatype)
    (recvbuf : Buffer) (recvcounts rdispls : List Int) (recvtype : MPI_Datatype)
    (comm : MPI_Comm) : Run Int := do
  if comm.is_inter then BigMPI_Error 273 else pure ()
  if sendbuf = .in_place then BigMPI_Error 276 else pure ()
  let _ := (sendcounts, sdispls, sendtype, recvbuf, recvcounts, rdispls, recvtype)
  pure MPI_SUCCESS

/-- Body of the loop of `MPIX_Alltoallw_x` (lines 327-344). -/
def alltoallw_body (avoid_type_create_struct : Bool) (bigmpi_int_max bigmpi_count_max : Int)
    (sendcounts sdispls : List Int) (sendtypes : List MPI_Datatype)
    (recvcounts rdispls : List Int) (recvtypes : List MPI_Datatype) (i : Nat) :
    Run (PeerEntry × PeerEntry) := do
  let sendcount ← Run.lift (c_index sendcounts i)
  let sendtype ← Run.lift (c_index sendtypes i)
  let newsendtype ← type_contiguous_x_commit avoid_type_create_struct bigmpi_int_max
    bigmpi_count_max sendcount sendtype
  let sdispl ← Run.lift (c_index sdispls i)
  let newsdispl ← Run.lift (rescale_displ sendtype newsendtype sdispl)
  let recvcount ← Run.lift (c_index recvcounts i)
  let recvtype ← Run.lift (c_index recvtypes i)
  let newrecvtype ← type_contiguous_x_commit avoid_type_create_struct bigmpi_int_max
    bigmpi_count_max recvcount recvtype
  let rdispl ← Run.lift (c_index rdispls i)
  let newrdispl ← Run.lift (rescale_displ recvtype newrecvtype rdispl)
  pure (⟨1, newsendtype, newsdispl⟩, ⟨1, newrecvtype, newrdispl⟩)

/-- `MPIX_Alltoallw_x` (lines 300-377). -/
def MPIX_Alltoallw_x (avoid_type_create_struct : Bool) (bigmpi_int_max bigmpi_count_max : Int)
    (tr : Transport) (sendbuf : Buffer) (sendcounts sdispls : List Int)
    (sendtypes : List MPI_Datatype) (recvbuf : Buffer) (recvcounts rdispls : List Int)
    (recvtypes : List MPI_Datatype) (comm : MPI_Comm) : Run Int := do
  if comm.is_inter then BigMPI_Error 309 else pure ()
  if sendbuf = .in_place then BigMPI_Error 312 else pure ()
  let entries ← for_loop (alltoallw_body avoid_type_create_struct bigmpi_int_max
    bigmpi_count_max sendcounts sdispls sendtypes recvcounts rdispls recvtypes)
    comm.size.toNat 0
  neighbor_exchange tr (-1) sendbuf (entries.map Prod.fst) recvbuf (entries.map Prod.snd)

/-! ## `new_vcollectives_x.c` -/

/-- The type `collective_t`. -/
inductive collective_t where
  | GATHERV | SCATTERV | ALLGATHERV | ALLTOALLV | ALLTOALLW
  deriving DecidableEq

/-- The type `method_t`. -/
inductive method_t where
  | NEIGHBORHOOD_ALLTOALLW | NONBLOCKING_BCAST | P2P | RMA
  deriving DecidableEq

/-- Body of the loop of the point-to-point method (lines 149-153): one
`MPIX_Irecv_x` and one `MPIX_Isend_x` for peer `i`. -/
def p2p_body (size : Int) (sendbuf : Buffer) (sendcounts senddispls : List Int)
    (sendtypes : List MPI_Datatype) (recvbuf : Buffer) (recvcounts recvdispls : List Int)
    (recvtypes : List MPI_Datatype) (i : Nat) : Run Unit := do
  let recvdispl ← Run.lift (c_index recvdispls i)
  let recvcount ← Run.lift (c_index recvcounts i)
  let recvtype ← Run.lift (c_index recvtypes i)
  emit (.irecv_x (recvbuf.plus recvdispl) recvcount recvtype i i i)
  let senddispl ← Run.lift (c_index senddispls i)
  let sendcount ← Run.lift (c_index sendcounts i)
  let sendtype ← Run.lift (c_index sendtypes i)
  emit (.isend_x (sendbuf.plus senddispl) sendcount sendtype i i (size + i))

/-- The value `offset` of iteration `i` of the window-size loop (lines 165-167). -/
def rma_offset (recvcounts recvdispls : List Int) (recvtypes : List MPI_Datatype) (i : Nat) :
    Except Fault Int := do
  let recvtype ← c_index recvtypes i
  let (_, extent) ← MPI_Type_get_extent recvtype
  let recvdispl ← c_index recvdispls i
  let recvcount ← c_index recvcounts i
  .ok (to_int64 (recvdispl + recvcount * extent))

/-- The window-size loop (lines 163-169) from index `i` on, `n` iterations
left, `max_size` the maximum so far. -/
def rma_max_size (recvcounts recvdispls : List Int) (recvtypes : List MPI_Datatype) :
    Nat → Nat → Int → Except Fault Int
  | 0, _, max_size => .ok max_size
  | n + 1, i, max_size => do
    let offset ← rma_offset recvcounts recvdispls recvtypes i
    rma_max_size recvcounts recvdispls recvtypes n (i + 1)
      (if offset > max_size then offset else max_size)

/-- Body of the loop of puts (lines 172-175).  The sixth argument of
`MPI_Put`, the target count, is `recvtypes[i]` in the source; the origin
count is converted to `int`. -/
def rma_put_body (sendbuf : Buffer) (sendcounts senddispls : List Int)
    (sendtypes : List MPI_Datatype) (recvdispls : List Int) (recvtypes : List MPI_Datatype)
    (i : Nat) : Run Unit := do
  let senddispl ← Run.lift (c_index senddispls i)
  let sendcount ← Run.lift (c_index sendcounts i)
  let sendtype ← Run.lift (c_index sendtypes i)
  let recvdispl ← Run.lift (c_index recvdispls i)
  let recvtype ← Run.lift (c_index recvtypes i)
  emit (.put (sendbuf.plus senddispl) (to_int sendcount) sendtype i recvdispl
    (.handle recvtype) recvtype)

/-- `BigMPI_Collective` (lines 9-184).  The method `NEIGHBORHOOD_ALLTOALLW`
(lines 35-143) calls a converter with eleven arguments that is not among the
sources; its run is the parameter `neighborhood`.  Communicator sizes are
far below `2^30`, so `2*size` is exact. -/
def BigMPI_Collective (neighborhood : Run Int) (coll : collective_t) (method : method_t)
    (sendbuf : Buffer) (sendcount : Int) (sendcounts senddispls : List Int)
    (sendtype : MPI_Datatype) (sendtypes : List MPI_Datatype) (recvbuf : Buffer)
    (recvcount : Int) (recvcounts recvdispls : List Int) (recvtype : MPI_Datatype)
    (recvtypes : List MPI_Datatype) (root : Int) (comm : MPI_Comm) : Run Int := do
  let _ := (coll, sendcount, sendtype, recvcount, recvtype, root)
  if comm.is_inter then BigMPI_Error 26 else pure ()
  if sendbuf = .in_place then BigMPI_Error 29 else pure ()
  match method with
  | .NEIGHBORHOOD_ALLTOALLW => neighborhood
  | .P2P =>
    let _ ← for_loop (p2p_body comm.size sendbuf sendcounts senddispls sendtypes recvbuf
      recvcounts recvdispls recvtypes) comm.size.toNat 0
    emit (.waitall (2 * comm.size))
    pure MPI_SUCCESS
  | .RMA =>
    let max_size ← Run.lift (rma_max_size recvcounts recvdispls recvtypes comm.size.toNat 0 0)
    emit (.win_create recvbuf max_size 1)
    emit .win_fence
    let _ ← for_loop (rma_put_body sendbuf sendcounts senddispls sendtypes recvdispls recvtypes)
      comm.size.toNat 0
    emit .win_fence
    emit .win_free
    pure MPI_SUCCESS
  | .NONBLOCKING_BCAST => do
    BigMPI_Error 181
    pure MPI_SUCCESS

/-! ## `rma_x.c` -/

/-- The common text of `MPIX_Put_x`, `MPIX_Get_x`, `MPIX_Accumulate_x`,
`MPIX_Rput_x`, `MPIX_Rget_x` and `MPIX_Raccumulate_x`, which differ in the
native primitive they call and in whether they pass `op`: direct call when
both counts are at most `bigmpi_int_max`, otherwise both sides encoded and
the call made with count 1. -/
def rma_two_sided (avoid_type_create_struct : Bool) (bigmpi_int_max bigmpi_count_max : Int)
    (tr : Transport) (primitive : RmaPrimitive) (op : Option MPI_Op) (origin_addr : Buffer)
    (origin_count : Int) (origin_datatype : MPI_Datatype) (target_rank : Int)
    (target_disp : Int) (target_count : Int) (target_datatype : MPI_Datatype) (win : Nat) :
    Run Int :=
  if origin_count ≤ bigmpi_int_max ∧ target_count ≤ bigmpi_int_max then do
    emit (.rma ⟨primitive, origin_addr, to_int origin_count, origin_datatype, none,
      target_rank, target_disp, to_int target_count, target_datatype, op, win⟩)
    pure (tr.rc (.rma ⟨primitive, origin_addr, to_int origin_count, origin_datatype, none,
      target_rank, target_disp, to_int target_count, target_datatype, op, win⟩))
  else do
    emit (.type_contiguous_x origin_count origin_datatype)
    let neworigin_datatype ← Run.lift (MPIX_Type_contiguous_x avoid_type_create_struct
      bigmpi_int_max bigmpi_count_max origin_count origin_datatype)
    emit (.type_contiguous_x target_count target_datatype)
    let newtarget_datatype ← Run.lift (MPIX_Type_contiguous_x avoid_type_create_struct
      bigmpi_int_max bigmpi_count_max target_count target_datatype)
    emit (.type_commit neworigin_datatype)
    emit (.type_commit newtarget_datatype)
    emit (.rma ⟨primitive, origin_addr, 1, neworigin_datatype, none,
      target_rank, target_disp, 1, newtarget_datatype, op, win⟩)
    type_free neworigin_datatype
    type_free newtarget_datatype
    pure (tr.rc (.rma ⟨primitive, origin_addr, 1, neworigin_datatype, none,
      target_rank, target_disp, 1, newtarget_datatype, op, win⟩))

/-- `MPIX_Put_x` (lines 3-26). -/
def MPIX_Put_x (avoid_type_create_struct : Bool) (bigmpi_int_max bigmpi_count_max : Int)
    (tr : Transport) (origin_addr : Buffer) (origin_count : Int)
    (origin_datatype : MPI_Datatype) (target_rank : Int) (target_disp : Int)
    (target_count : Int) (target_datatype : MPI_Datatype) (win : Nat) : Run Int :=
  rma_two_sided avoid_type_create_struct bigmpi_int_max bigmpi_count_max tr .MPI_Put none
    origin_addr origin_count origin_datatype target_rank target_disp target_count
    target_datatype win

/-- `MPIX_Get_x` (lines 28-51). -/
def MPIX_Get_x (avoid_type_create_struct : Bool) (bigmpi_int_max bigmpi_count_max : Int)
    (tr : Transport) (origin_addr : Buffer) (origin_count : Int)
    (origin_datatype : MPI_Datatype) (target_rank : Int) (target_disp : Int)
    (target_count : Int) (target_datatype : MPI_Datatype) (win : Nat) : Run Int :=
  rma_two_sided avoid_type_create_struct bigmpi_int_max bigmpi_count_max tr .MPI_Get none
    origin_addr origin_count origin_datatype target_rank target_disp target_count
    target_datatype win

/-- `MPIX_Accumulate_x` (lines 53-78). -/
def MPIX_Accumulate_x (avoid_type_create_struct : Bool) (bigmpi_int_max bigmpi_count_max : Int)
    (tr : Transport) (origin_addr : Buffer) (origin_count : Int)
    (origin_datatype : MPI_Datatype) (target_rank : Int) (target_disp : Int)
    (target_count : Int) (target_datatype : MPI_Datatype) (op : MPI_Op) (win : Nat) : Run Int :=
  rma_two_sided avoid_type_create_struct bigmpi_int_max bigmpi_count_max tr .MPI_Accumulate
    (some op) origin_addr origin_count origin_datatype target_rank target_disp target_count
    target_datatype win

/-- `MPIX_Rput_x` (lines 115-139); the request is the one the native call fills. -/
def MPIX_Rput_x (avoid_type_create_struct : Bool) (bigmpi_int_max bigmpi_count_max : Int)
    (tr : Transport) (origin_addr : Buffer) (origin_count : Int)
    (origin_datatype : MPI_Datatype) (target_rank : Int) (target_disp : Int)
    (target_count : Int) (target_datatype : MPI_Datatype) (win : Nat) : Run Int :=
  rma_two_sided avoid_type_create_struct bigmpi_int_max bigmpi_count_max tr .MPI_Rput none
    origin_addr origin_count origin_datatype target_rank target_disp target_count
    target_datatype win

/-- `MPIX_Rget_x` (lines 141-165). -/
def MPIX_Rget_x (avoid_type_create_struct : Bool) (bigmpi_int_max bigmpi_count_max : Int)
    (tr : Transport) (origin_addr : Buffer) (origin_count : Int)
    (origin_datatype : MPI_Datatype) (target_rank : Int) (target_disp : Int)
    (target_count : Int) (target_datatype : MPI_Datatype) (win : Nat) : Run Int :=
  rma_two_sided avoid_type_create_struct bigmpi_int_max bigmpi_count_max tr .MPI_Rget none
    origin_addr origin_count origin_datatype target_rank target_disp target_count
    target_datatype win

/-- `MPIX_Raccumulate_x` (lines 167-192). -/
def MPIX_Raccumulate_x (avoid_type_create_struct : Bool) (bigmpi_int_max bigmpi_count_max : Int)
    (tr : Transport) (origin_addr : Buffer) (origin_count : Int)
    (origin_datatype : MPI_Datatype) (target_rank : Int) (target_disp : Int)
    (target_count : Int) (target_datatype : MPI_Datatype) (op : MPI_Op) (win : Nat) : Run Int :=
  rma_two_sided avoid_type_create_struct bigmpi_int_max bigmpi_count_max tr .MPI_Raccumulate
    (some op) origin_addr origin_count origin_datatype target_rank target_disp target_count
    target_datatype win

/-- `MPIX_Get_accumulate_x` (lines 80-113). -/
def MPIX_Get_accumulate_x (avoid_type_create_struct : Bool)
    (bigmpi_int_max bigmpi_count_max : Int) (tr : Transport) (origin_addr : Buffer)
    (origin_count : Int) (origin_datatype : MPI_Datatype) (result_addr : Buffer)
    (result_count : Int) (result_datatype : MPI_Datatype) (target_rank : Int)
    (target_disp : Int) (target_count : Int) (target_datatype : MPI_Datatype) (op : MPI_Op)
    (win : Nat) : Run Int :=
  if origin_count ≤ bigmpi_int_max ∧ result_count ≤ bigmpi_int_max
      ∧ target_count ≤ bigmpi_int_max then do
    emit (.rma ⟨.MPI_Get_accumulate, origin_addr, to_int origin_count, origin_datatype,
      some (result_addr, to_int result_count, result_datatype),
      target_rank, target_disp, to_int target_count, target_datatype, some op, win⟩)
    pure (tr.rc (.rma ⟨.MPI_Get_accumulate, origin_addr, to_int origin_count, origin_datatype,
      some (result_addr, to_int result_count, result_datatype),
      target_rank, target_disp, to_int target_count, target_datatype, some op, win⟩))
  else do
    emit (.type_contiguous_x origin_count origin_datatype)
    let neworigin_datatype ← Run.lift (MPIX_Type_contiguous_x avoid_type_create_struct
      bigmpi_int_max bigmpi_count_max origin_count origin_datatype)
    emit (.type_contiguous_x result_count result_datatype)
    let newresult_datatype ← Run.lift (MPIX_Type_contiguous_x avoid_type_create_struct
      bigmpi_int_max bigmpi_count_max result_count result_datatype)
    emit (.type_contiguous_x target_count target_datatype)
    let newtarget_datatype ← Run.lift (MPIX_Type_contiguous_x avoid_type_create_struct
      bigmpi_int_max bigmpi_count_max target_count target_datatype)
    emit (.type_commit neworigin_datatype)
    emit (.type_commit newresult_datatype)
    emit (.type_commit newtarget_datatype)
    emit (.rma ⟨.MPI_Get_accumulate, origin_addr, 1, neworigin_datatype,
      some (result_addr, 1, newresult_datatype),
      target_rank, target_disp, 1, newtarget_datatype, some op, win⟩)
    type_free neworigin_datatype
    type_free newresult_datatype
    type_free newtarget_datatype
    pure (tr.rc (.rma ⟨.MPI_Get_accumulate, origin_addr, 1, neworigin_datatype,
      some (result_addr, 1, newresult_datatype),
      target_rank, target_disp, 1, newtarget_datatype, some op, win⟩))

/-- `MPIX_Rget_accumulate_x` (lines 194-227).  In both branches the function
called is `MPIX_Rget_accumulate_x` itself; `depth` bounds the number of nested
calls followed, and the value `none` says that the innermost of them has not
returned. -/
def MPIX_Rget_accumulate_x (avoid_type_create_struct : Bool)
    (bigmpi_int_max bigmpi_count_max : Int) :
    Nat → Buffer → Int → MPI_Datatype → Buffer → Int → MPI_Datatype → Int → Int → Int →
      MPI_Datatype → MPI_Op → Nat → Run (Option Int)
  | 0, _, _, _, _, _, _, _, _, _, _, _, _ => Run.pure none
  | depth + 1, origin_addr, origin_count, origin_datatype, result_addr, result_count,
      result_datatype, target_rank, target_disp, target_count, target_datatype, op, win =>
    if origin_count ≤ bigmpi_int_max ∧ result_count ≤ bigmpi_int_max
        ∧ target_count ≤ bigmpi_int_max then
      MPIX_Rget_accumulate_x avoid_type_create_struct bigmpi_int_max bigmpi_count_max depth
        origin_addr origin_count origin_datatype result_addr result_count result_datatype
        target_rank target_disp target_count target_datatype op win
    else
      Run.bind (emit (.type_contiguous_x origin_count origin_datatype)) (fun _ =>
      Run.bind (Run.lift (MPIX_Type_contiguous_x avoid_type_create_struct bigmpi_int_max
        bigmpi_count_max origin_count origin_datatype)) (fun neworigin_datatype =>
      Run.bind (emit (.type_contiguous_x result_count result_datatype)) (fun _ =>
      Run.bind (Run.lift (MPIX_Type_contiguous_x avoid_type_create_struct bigmpi_int_max
        bigmpi_count_max result_count result_datatype)) (fun newresult_datatype =>
      Run.bind (emit (.type_contiguous_x target_count target_datatype)) (fun _ =>
      Run.bind (Run.lift (MPIX_Type_contiguous_x avoid_type_create_struct bigmpi_int_max
        bigmpi_count_max target_count target_datatype)) (fun newtarget_datatype =>
      Run.bind (emit (.type_commit neworigin_datatype)) (fun _ =>
      Run.bind (emit (.type_commit newresult_datatype)) (fun _ =>
      Run.bind (emit (.type_commit newtarget_datatype)) (fun _ =>
      Run.bind (MPIX_Rget_accumulate_x avoid_type_create_struct bigmpi_int_max
        bigmpi_count_max depth origin_addr 1 neworigin_datatype result_addr 1
        newresult_datatype target_rank target_disp 1 newtarget_datatype op win) (fun rc =>
      match rc with
      | none => Run.pure none
      | some rc =>
        Run.bind (type_free neworigin_datatype) (fun _ =>
        Run.bind (type_free newresult_datatype) (fun _ =>
        Run.bind (type_free newtarget_datatype) (fun _ => Run.pure (some rc))))))))))))))

/-! ## `reductions_x.c` -/

/-- The function `BigMPI_<OP>_x` that the macro `PASTE_BIGMPI_REDUCE_OP(OP)`
defines (lines 15-35).  `invec` and `inoutvec` are `void *`, so
`&invec[i*bigmpi_int_max]` is `i*bigmpi_int_max` bytes past `invec`. -/
def PASTE_BIGMPI_REDUCE_OP (avoid_type_create_struct : Bool) (bigmpi_int_max : Int)
    (OP : Builtin_Op) (invec inoutvec : Buffer) (len : Int) (bigtype : MPI_Datatype) :
    Run Unit := do
  Run.lift (c_assert 19 (len == 1))
  let (count, basetype) ← Run.lift (BigMPI_Decode_contiguous_x avoid_type_create_struct
    bigmpi_int_max bigtype)
  let c := to_int (Int.tdiv count bigmpi_int_max)
  let r := to_int (Int.tmod count bigmpi_int_max)
  let _ ← for_loop (fun i => emit (.reduce_local (invec.plus (i * bigmpi_int_max))
    (inoutvec.plus (i * bigmpi_int_max)) (to_int bigmpi_int_max) basetype OP)) c.toNat 0
  emit (.reduce_local (invec.plus (c * bigmpi_int_max)) (inoutvec.plus (c * bigmpi_int_max))
    r basetype OP)

/-- `BigMPI_SUM_x`, that is `PASTE_BIGMPI_REDUCE_OP(SUM)` (line 40). -/
def BigMPI_SUM_x (avoid_type_create_struct : Bool) (bigmpi_int_max : Int)
    (invec inoutvec : Buffer) (len : Int) (bigtype : MPI_Datatype) : Run Unit :=
  PASTE_BIGMPI_REDUCE_OP avoid_type_create_struct bigmpi_int_max .SUM invec inoutvec len bigtype

/-- The chain `if (op==MPI_MAX) bigfn = BigMPI_MAX_x; else if ...` (lines
58-67): the wrapper chosen, `none` in the final `else`. -/
def select_bigfn (op : MPI_Op) : Option Builtin_Op :=
  if op = .builtin .MAX then some .MAX
  else if op = .builtin .MIN then some .MIN
  else if op = .builtin .SUM then some .SUM
  else if op = .builtin .PROD then some .PROD
  else if op = .builtin .LAND then some .LAND
  else if op = .builtin .BAND then some .BAND
  else if op = .builtin .LOR then some .LOR
  else if op = .builtin .BOR then some .BOR
  else if op = .builtin .LXOR then some .LXOR
  else if op = .builtin .BXOR then some .BXOR
  else none

/-- `BigMPI_Op_create` (lines 51-79): the return code of `MPI_Op_create` and
the operator stored in `*bigop`.  `MPI_Abort` does not return. -/
def BigMPI_Op_create (tr : Transport) (op : MPI_Op) : Run (Int × MPI_Op) := do
  let commute := tr.commutative op
  match select_bigfn op with
  | none => Run.fail (.mpi_abort 76)
  | some bigfn =>
    emit (.op_create bigfn commute)
    pure (tr.rc (.op_create bigfn commute), .created bigfn commute)

/-- The loop `for (int i=0; i<c; i++) MPI_Reduce(...)` and the call after it
in the branch of `MPIX_Reduce_x` compiled under `BIGMPI_CLEAVER` (lines
88-110). -/
def reduce_cleaver (bigmpi_int_max : Int) (sendbuf recvbuf : Buffer) (count : Int)
    (datatype : MPI_Datatype) (op : MPI_Op) (root : Int) (comm : MPI_Comm) : Run Int := do
  let c := to_int (Int.tdiv count bigmpi_int_max)
  let r := to_int (Int.tmod count bigmpi_int_max)
  if sendbuf = .in_place then
    let commrank := comm.rank
    let _ ← for_loop (fun i => emit (.reduce
      (if commrank = root then .in_place else recvbuf.plus (i * bigmpi_int_max))
      (recvbuf.plus (i * bigmpi_int_max)) (to_int bigmpi_int_max) datatype op root)) c.toNat 0
    emit (.reduce (if commrank = root then .in_place else recvbuf.plus (c * bigmpi_int_max))
      (recvbuf.plus (c * bigmpi_int_max)) r datatype op root)
    pure MPI_SUCCESS
  else
    let _ ← for_loop (fun i => emit (.reduce (sendbuf.plus (i * bigmpi_int_max))
      (recvbuf.plus (i * bigmpi_int_max)) (to_int bigmpi_int_max) datatype op root)) c.toNat 0
    emit (.reduce (sendbuf.plus (c * bigmpi_int_max)) (recvbuf.plus (c * bigmpi_int_max))
      r datatype op root)
    pure MPI_SUCCESS

/-- `MPIX_Reduce_x` (lines 81-134); `cleaver` says whether `BIGMPI_CLEAVER`
is defined, and `likely(x)` is `x`. -/
def MPIX_Reduce_x (avoid_type_create_struct cleaver : Bool)
    (bigmpi_int_max bigmpi_count_max : Int) (tr : Transport) (sendbuf recvbuf : Buffer)
    (count : Int) (datatype : MPI_Datatype) (op : MPI_Op) (root : Int) (comm : MPI_Comm) :
    Run Int :=
  if count ≤ bigmpi_int_max then do
    emit (.reduce sendbuf recvbuf (to_int count) datatype op root)
    pure (tr.rc (.reduce sendbuf recvbuf (to_int count) datatype op root))
  else if cleaver then
    reduce_cleaver bigmpi_int_max sendbuf recvbuf count datatype op root comm
  else do
    emit (.type_contiguous_x count datatype)
    let bigtype ← Run.lift (MPIX_Type_contiguous_x avoid_type_create_struct bigmpi_int_max
      bigmpi_count_max count datatype)
    emit (.type_commit bigtype)
    let (_, bigop) ← BigMPI_Op_create tr op
    if sendbuf = .in_place then Run.fail (.mpi_abort 123) else pure ()
    emit (.reduce sendbuf recvbuf 1 bigtype bigop root)
    type_free bigtype
    emit (.op_free bigop)
    pure (tr.rc (.reduce sendbuf recvbuf 1 bigtype bigop root))

/-- The branch of `MPIX_Allreduce_x` compiled under `BIGMPI_CLEAVER` (lines
143-160); inside the second loop the send buffer is `&sendbuf[c*bigmpi_int_max]`. -/
def allreduce_cleaver (bigmpi_int_max : Int) (sendbuf recvbuf : Buffer) (count : Int)
    (datatype : MPI_Datatype) (op : MPI_Op) : Run Int := do
  let c := to_int (Int.tdiv count bigmpi_int_max)
  let r := to_int (Int.tmod count bigmpi_int_max)
  if sendbuf = .in_place then
    let _ ← for_loop (fun i => emit (.allreduce .in_place
      (recvbuf.plus (i * bigmpi_int_max)) (to_int bigmpi_int_max) datatype op)) c.toNat 0
    emit (.allreduce .in_place (recvbuf.plus (c * bigmpi_int_max)) r datatype op)
    pure MPI_SUCCESS
  else
    let _ ← for_loop (fun i => emit (.allreduce (sendbuf.plus (c * bigmpi_int_max))
      (recvbuf.plus (i * bigmpi_int_max)) (to_int bigmpi_int_max) datatype op)) c.toNat 0
    emit (.allreduce (sendbuf.plus (c * bigmpi_int_max)) (recvbuf.plus (c * bigmpi_int_max))
      r datatype op)
    pure MPI_SUCCESS

/-- `MPIX_Allreduce_x` (lines 136-184). -/
def MPIX_Allreduce_x (avoid_type_create_struct cleaver : Bool)
    (bigmpi_int_max bigmpi_count_max : Int) (tr : Transport) (sendbuf recvbuf : Buffer)
    (count : Int) (datatype : MPI_Datatype) (op : MPI_Op) : Run Int :=
  if count ≤ bigmpi_int_max then do
    emit (.allreduce sendbuf recvbuf (to_int count) datatype op)
    pure (tr.rc (.allreduce sendbuf recvbuf (to_int count) datatype op))
  else if cleaver then
    allreduce_cleaver bigmpi_int_max sendbuf recvbuf count datatype op
  else do
    emit (.type_contiguous_x count datatype)
    let bigtype ← Run.lift (MPIX_Type_contiguous_x avoid_type_create_struct bigmpi_int_max
      bigmpi_count_max count datatype)
    emit (.type_commit bigtype)
    let (_, bigop) ← BigMPI_Op_create tr op
    if sendbuf = .in_place then Run.fail (.mpi_abort 173) else pure ()
    emit (.allreduce sendbuf recvbuf 1 bigtype bigop)
    type_free bigtype
    emit (.op_free bigop)
    pure (tr.rc (.allreduce sendbuf recvbuf 1 bigtype bigop))

/-- `MPIX_Reduce_scatter_block_x` (lines 195-222).  `MPIX_Scatter_x` is not
among the sources and is recorded as a call. -/
def MPIX_Reduce_scatter_block_x (avoid_type_create_struct cleaver : Bool)
    (bigmpi_int_max bigmpi_count_max : Int) (tr : Transport) (sendbuf recvbuf : Buffer)
    (recvcount : Int) (datatype : MPI_Datatype) (op : MPI_Op) (comm : MPI_Comm) : Run Int :=
  if recvcount ≤ bigmpi_int_max then do
    emit (.reduce_scatter_block sendbuf recvbuf (to_int recvcount) datatype op)
    pure (tr.rc (.reduce_scatter_block sendbuf recvbuf (to_int recvcount) datatype op))
  else do
    let root : Int := 0
    let commsize := comm.size
    let sendcount := to_int64 (recvcount * commsize)
    let (_, extent) ← Run.lift (MPI_Type_get_extent datatype)
    let buf_size := to_int64 (sendcount * extent)
    emit (.alloc_mem buf_size)
    if tr.alloc_fails buf_size then Run.fail (.mpi_abort 213) else pure ()
    let _ ← MPIX_Reduce_x avoid_type_create_struct cleaver bigmpi_int_max bigmpi_count_max tr
      (if sendbuf = .in_place then recvbuf else sendbuf) (.temp 0) sendcount datatype op root
      comm
    emit (.scatter_x (.temp 0) recvcount datatype recvbuf recvcount datatype root)
    -- `MPI_Free_mem(&tempbuf);`
    emit (.free_mem .address_of_tempbuf)
    pure MPI_SUCCESS

/-! ## Reading a run -/

/-- Test for a call of `MPI_Neighbor_alltoallw`. -/
def Event.isNeighbor : Event → Bool
  | .neighbor_alltoallw _ _ _ _ _ _ _ _ => true
  | _ => false

/-- Test for a call of a native one-sided primitive from `rma_x.c`. -/
def Event.isRma : Event → Bool
  | .rma _ => true
  | _ => false

/-- Test for a call that builds a composed type or a wrapped operator. -/
def Event.isConstruction : Event → Bool
  | .type_contiguous_x _ _ => true
  | .type_commit _ => true
  | .op_create _ _ => true
  | _ => false

/-- Test for a call of `MPIX_Irecv_x`. -/
def Event.isRecv : Event → Bool
  | .irecv_x _ _ _ _ _ _ => true
  | _ => false

/-- Test for a call of `MPIX_Isend_x`. -/
def Event.isSend : Event → Bool
  | .isend_x _ _ _ _ _ _ => true
  | _ => false

/-- Test for a call of `MPI_Put`. -/
def Event.isPut : Event → Bool
  | .put _ _ _ _ _ _ _ => true
  | _ => false

/-- The quantity `recvdispls[i] + recvcounts[i] * extent(recvtypes[i])` of
peer `i`, as an integer; `none` when an array has no entry `i` or the type
has no extent. -/
def peer_end (recvcounts recvdispls : List Int) (recvtypes : List MPI_Datatype) (i : Nat) :
    Option Int :=
  match recvdispls.get? i, recvcounts.get? i, recvtypes.get? i with
  | some d, some c, some t =>
    match MPI_Type_get_extent t with
    | .ok (_, e) => some (d + c * e)
    | .error _ => none
  | _, _, _ => none

/-- The operators for which `BigMPI_Op_create` has a wrapper. -/
def wrapped_ops : List Builtin_Op :=
  [.MAX, .MIN, .SUM, .PROD, .LAND, .BAND, .LOR, .BOR, .LXOR, .BXOR]


/-! ## Properties -/

namespace MPI_Datatype

mutual
theorem sameType_iff : ∀ (a b : MPI_Datatype), sameType a b = true ↔ a = b
  | null, null => by simp [sameType]
  | null, named .. | null, contiguous .. | null, vector .. | null, struct .. => by
    simp [sameType]
  | named .., null | named .., contiguous .. | named .., vector .. | named .., struct .. => by
    simp [sameType]
  | contiguous .., null | contiguous .., named .. | contiguous .., vector ..
  | contiguous .., struct .. => by simp [sameType]
  | vector .., null | vector .., named .. | vector .., contiguous .. | vector .., struct .. => by
    simp [sameType]
  | struct .., null | struct .., named .. | struct .., contiguous .. | struct .., vector .. => by
    simp [sameType]
  | named i l e, named i2 l2 e2 => by simp [sameType, and_assoc]
  | contiguous n t, contiguous n2 t2 => by simp [sameType, sameType_iff t t2]
  | vector c b s t, vector c2 b2 s2 t2 => by simp [sameType, sameType_iff t t2, and_assoc]
  | struct bl d ts, struct bl2 d2 ts2 => by simp [sameType, sameTypes_iff ts ts2, and_assoc]
theorem sameTypes_iff : ∀ (a b : List MPI_Datatype), sameTypes a b = true ↔ a = b
  | [], [] => by simp [sameTypes]
  | [], _ :: _ => by simp [sameTypes]
  | _ :: _, [] => by simp [sameTypes]
  | t :: ts, t2 :: ts2 => by simp [sameTypes, sameType_iff t t2, sameTypes_iff ts ts2]
end

instance : DecidableEq MPI_Datatype := fun a b => decidable_of_iff _ (sameType_iff a b)

theorem sameType_self (t : MPI_Datatype) : sameType t t = true := (sameType_iff t t).mpr rfl

theorem vector_ne_oldtype (c b s : Int) (t : MPI_Datatype) : vector c b s t ≠ t := by
  intro h
  have := congrArg sizeOf h
  simp at this

theorem contiguous_ne_oldtype (n : Int) (t : MPI_Datatype) : contiguous n t ≠ t := by
  intro h
  have := congrArg sizeOf h
  simp at this

theorem struct_ne_member (bl d : List Int) (c b s n : Int) (t : MPI_Datatype) :
    struct bl d [vector c b s t, contiguous n t] ≠ t := by
  intro h
  have := congrArg sizeOf h
  simp at this
  omega

end MPI_Datatype

theorem to_int_of_range {x : Int} (h1 : -2147483648 ≤ x) (h2 : x ≤ 2147483647) :
    to_int x = x := by
  unfold to_int; omega

theorem to_int64_of_range {x : Int} (h1 : -9223372036854775808 ≤ x)
    (h2 : x ≤ 9223372036854775807) : to_int64 x = x := by
  unfold to_int64; omega

theorem isNull_of_get_extent {t : MPI_Datatype} {p : Int × Int}
    (h : MPI_Type_get_extent t = .ok p) : t.isNull = false := by
  unfold MPI_Type_get_extent at h
  cases hn : t.isNull with
  | false => rfl
  | true => simp [hn] at h

/-- Shape of the type the quotient/remainder path builds, the displacement
still as the 64-bit product the code computes. -/
theorem encode_struct_form (N cm count : Int) (base : MPI_Datatype) (lb e : Int)
    (hN : 0 < N) (hN' : N ≤ INT_MAX) (hcm : cm ≤ N * 2147483648)
    (h0 : 0 ≤ count) (hlt : count < cm)
    (hext : MPI_Type_get_extent base = .ok (lb, e)) :
    MPIX_Type_contiguous_x false N cm count base
      = .ok (.struct [1, 1] [0, to_int64 (count / N * N * e)]
              [.vector (count / N) N N base, .contiguous (count % N) base]) := by
  have hnull := isNull_of_get_extent hext
  have hN2 : N ≤ 2147483647 := hN'
  have hc0 : 0 ≤ count / N := Int.ediv_nonneg h0 (le_of_lt hN)
  have hc1 : count / N < 2147483648 := Int.ediv_lt_of_lt_mul hN (by linarith)
  have hr0 : 0 ≤ count % N := Int.emod_nonneg _ (ne_of_gt hN)
  have hr1 : count % N < N := Int.emod_lt_of_pos _ hN
  have hd : Int.tdiv count N = count / N := Int.tdiv_eq_ediv h0 (le_of_lt hN)
  have hm : Int.tmod count N = count % N := Int.tmod_eq_emod h0 (le_of_lt hN)
  have e1 : to_int (count / N) = count / N := to_int_of_range (by omega) (by omega)
  have e2 : to_int N = N := to_int_of_range (by omega) (by omega)
  have e3 : to_int (count % N) = count % N := to_int_of_range (by omega) (by omega)
  simp [MPIX_Type_contiguous_x, c_assert, hlt, hd, hm, e1, e2, e3, MPI_Type_vector,
    MPI_Type_contiguous, hnull, hext, MPI_Type_create_struct, bind, Except.bind,
    not_lt.mpr hc0, not_lt.mpr hr0, not_lt.mpr (le_of_lt hN)]
  simp [isNull]

/-- In the default build the decoder stops at line 139 on every structure. -/
theorem decode_default_struct (N : Int) (bl d : List Int) (ts : List MPI_Datatype) :
    BigMPI_Decode_contiguous_x false N (.struct bl d ts) = .error (.assertion 139) := by
  simp [BigMPI_Decode_contiguous_x, MPI_Type_get_envelope, c_assert, bind, Except.bind]

/-- In the default build the encoder returns nothing but structures. -/
theorem encode_default_is_struct (N cm count : Int) (base t : MPI_Datatype)
    (h : MPIX_Type_contiguous_x false N cm count base = .ok t) :
    ∃ bl d ts, t = .struct bl d ts := by
  simp only [MPIX_Type_contiguous_x, bind, Except.bind, MPI_Type_create_struct,
    Bool.false_and, Bool.false_eq_true, if_false] at h
  repeat' split at h
  all_goals first
    | (simp at h; done)
    | (injection h with h; exact ⟨_, _, _, h.symm⟩)

/-- C1 (fails on the code): in the default build, whatever type
`MPIX_Type_contiguous_x` returns, `BigMPI_Decode_contiguous_x` applied to it
does not return `(count, basetype)`: the assertion on line 139 admits only the
combiners CONTIGUOUS and VECTOR, and the type is a structure. -/
theorem decode_of_encode_default_fails (N cm count : Int) (base t : MPI_Datatype)
    (h : MPIX_Type_contiguous_x false N cm count base = .ok t) :
    BigMPI_Decode_contiguous_x false N t = .error (.assertion 139) := by
  obtain ⟨bl, d, ts, rfl⟩ := encode_default_is_struct N cm count base t h
  exact decode_default_struct N bl d ts

theorem decode_of_encode_default_fails_witness :
    MPIX_Type_contiguous_x false 2147483647 4611686014132420609 5 (.named 0 0 4)
        = .ok (.struct [1, 1] [0, 0]
                [.vector 0 2147483647 2147483647 (.named 0 0 4), .contiguous 5 (.named 0 0 4)])
      ∧ BigMPI_Decode_contiguous_x false 2147483647
          (.struct [1, 1] [0, 0]
            [.vector 0 2147483647 2147483647 (.named 0 0 4), .contiguous 5 (.named 0 0 4)])
        = .error (.assertion 139) :=
  ⟨rfl, decode_of_encode_default_fails 2147483647 4611686014132420609 5 (.named 0 0 4) _ rfl⟩

/-- C2 (fails as stated): with `bigmpi_int_max = INT_MAX`,
`bigmpi_count_max = INT_MAX * INT_MAX`, `count = bigmpi_count_max - 1` and a
base type of extent 4, the second displacement of the structure
`MPIX_Type_contiguous_x` builds is `-25769803768`, the 64-bit wrap of
`c * int_max * extent = 18446744047939747848`, and not that product. -/
theorem encoder_displacement_wraps :
    MPIX_Type_contiguous_x false 2147483647 4611686014132420609 4611686014132420608
        (.named 0 0 4)
      = .ok (.struct [1, 1] [0, -25769803768]
          [.vector 2147483646 2147483647 2147483647 (.named 0 0 4),
           .contiguous 2147483646 (.named 0 0 4)])
    ∧ (4611686014132420608 : Int) / 2147483647 * 2147483647 * 4 = 18446744047939747848
    ∧ (4611686014132420608 : Int) / 2147483647 = 2147483646
    ∧ (4611686014132420608 : Int) % 2147483647 = 2147483646 :=
  ⟨rfl, by decide, by decide, by decide⟩

/-- C2 (amended): in the default build, for `0 ≤ count < bigmpi_count_max`
such that `c*int_max*extent` is representable in `MPI_Aint`,
`MPIX_Type_contiguous_x` returns the structure of two members with block
lengths `{1,1}`, displacements `{0, c*int_max*extent}` and member types
`{vector(c, int_max, int_max, basetype), contiguous(r, basetype)}`, where
`c = count / int_max` and `r = count % int_max`; no count is special-cased.
The constants of `bigmpi_impl.h` are assumed to satisfy
`0 < int_max ≤ INT_MAX` and `count_max ≤ int_max * 2^31`. -/
theorem type_contiguous_x_builds_struct (N cm count : Int) (base : MPI_Datatype) (lb e : Int)
    (hN : 0 < N) (hN' : N ≤ INT_MAX) (hcm : cm ≤ N * 2147483648)
    (h0 : 0 ≤ count) (hlt : count < cm)
    (hext : MPI_Type_get_extent base = .ok (lb, e))
    (hfit : -INT64_MAX - 1 ≤ count / N * N * e ∧ count / N * N * e ≤ INT64_MAX) :
    MPIX_Type_contiguous_x false N cm count base
      = .ok (.struct [1, 1] [0, count / N * N * e]
              [.vector (count / N) N N base, .contiguous (count % N) base]) := by
  rw [encode_struct_form N cm count base lb e hN hN' hcm h0 hlt hext]
  have h1 : -9223372036854775808 ≤ count / N * N * e := by
    have := hfit.1; simp only [INT64_MAX] at this; linarith
  have h2 : count / N * N * e ≤ 9223372036854775807 := hfit.2
  rw [to_int64_of_range h1 h2]

theorem type_contiguous_x_builds_struct_witness :
    MPIX_Type_contiguous_x false 2147483647 4611686014132420609 4294967301 (.named 0 0 8)
      = .ok (.struct [1, 1] [0, 4294967301 / 2147483647 * 2147483647 * 8]
              [.vector (4294967301 / 2147483647) 2147483647 2147483647 (.named 0 0 8),
               .contiguous (4294967301 % 2147483647) (.named 0 0 8)]) :=
  type_contiguous_x_builds_struct 2147483647 4611686014132420609 4294967301 (.named 0 0 8) 0 8
    (by decide) (by decide) (by decide) (by decide) (by decide) rfl (by decide)

theorem sameType_eq_false {a b : MPI_Datatype} (h : a ≠ b) : sameType a b = false :=
  Bool.eq_false_iff.mpr (fun h2 => h ((sameType_iff a b).mp h2))

theorem elementCount_self (base : MPI_Datatype) (h : base.isNull = false) :
    elementCount base base = some 1 := by
  cases base <;> simp [elementCount, sameType_self] at h ⊢
  simp [isNull] at h

/-- C3: for `0 ≤ count < bigmpi_count_max` the returned type is made of exactly
`count` copies of `basetype` and of nothing else: the chunk block holds
`c * int_max` of them and the remainder block `r`, with
`c * int_max + r = count` and `0 ≤ r < int_max`.  The constants of
`bigmpi_impl.h` are assumed to satisfy `0 < int_max ≤ INT_MAX` and
`count_max ≤ int_max * 2^31`. -/
theorem type_contiguous_x_element_count (N cm count : Int) (base : MPI_Datatype) (lb e : Int)
    (hN : 0 < N) (hN' : N ≤ INT_MAX) (hcm : cm ≤ N * 2147483648)
    (h0 : 0 ≤ count) (hlt : count < cm)
    (hext : MPI_Type_get_extent base = .ok (lb, e)) :
    ∃ t, MPIX_Type_contiguous_x false N cm count base = .ok t
      ∧ elementCount base t = some count
      ∧ elementCount base (.vector (count / N) N N base) = some (count / N * N)
      ∧ elementCount base (.contiguous (count % N) base) = some (count % N)
      ∧ count / N * N + count % N = count
      ∧ 0 ≤ count % N ∧ count % N < N := by
  have hnull := isNull_of_get_extent hext
  have hsum : count / N * N + count % N = count := by
    have := Int.ediv_add_emod count N
    linarith
  have hv : elementCount base (.vector (count / N) N N base) = some (count / N * N) := by
    simp [elementCount, sameType_eq_false (vector_ne_oldtype _ _ _ base),
      elementCount_self base hnull]
  have hc : elementCount base (.contiguous (count % N) base) = some (count % N) := by
    simp [elementCount, sameType_eq_false (contiguous_ne_oldtype _ base),
      elementCount_self base hnull]
  refine ⟨_, encode_struct_form N cm count base lb e hN hN' hcm h0 hlt hext, ?_, hv, hc, hsum,
    Int.emod_nonneg _ (ne_of_gt hN), Int.emod_lt_of_pos _ hN⟩
  rw [elementCount, sameType_eq_false (struct_ne_member _ _ _ _ _ _ base)]
  simp only [Bool.false_eq_true, if_false, elementCountMembers, hv, hc]
  simp [hsum]

theorem type_contiguous_x_element_count_witness :
    ∃ t, MPIX_Type_contiguous_x false 2147483647 4611686014132420609 4294967301 (.named 0 0 8)
        = .ok t
      ∧ elementCount (.named 0 0 8) t = some 4294967301
      ∧ elementCount (.named 0 0 8) (.vector (4294967301 / 2147483647) 2147483647 2147483647
          (.named 0 0 8)) = some (4294967301 / 2147483647 * 2147483647)
      ∧ elementCount (.named 0 0 8) (.contiguous (4294967301 % 2147483647) (.named 0 0 8))
          = some (4294967301 % 2147483647)
      ∧ (4294967301 : Int) / 2147483647 * 2147483647 + 4294967301 % 2147483647 = 4294967301
      ∧ (0 : Int) ≤ 4294967301 % 2147483647 ∧ (4294967301 : Int) % 2147483647 < 2147483647 :=
  type_contiguous_x_element_count 2147483647 4611686014132420609 4294967301 (.named 0 0 8) 0 8
    (by decide) (by decide) (by decide) (by decide) (by decide) rfl

theorem blockBounds_one (d l u : Int) : blockBounds 1 d (some (l, u)) = some (d + l, d + u) := by
  simp [blockBounds]

theorem typeBounds_of_get_extent {t : MPI_Datatype} {lb e : Int}
    (h : MPI_Type_get_extent t = .ok (lb, e)) (he : e ≠ 0) :
    typeBounds t = some (lb, lb + e) := by
  unfold MPI_Type_get_extent at h
  split at h
  · simp at h
  · split at h
    · simp only [Except.ok.injEq, Prod.mk.injEq] at h
      exact absurd h.2.symm he
    · rename_i l u hb
      simp only [Except.ok.injEq, Prod.mk.injEq] at h
      rw [hb, ← h.1, ← h.2]; simp

theorem typeBounds_struct_two (d0 d1 : Int) (t1 t2 : MPI_Datatype) :
    typeBounds (.struct [1, 1] [d0, d1] [t1, t2])
      = joinBounds (blockBounds 1 d0 (typeBounds t1))
          (joinBounds (blockBounds 1 d1 (typeBounds t2)) none) := by
  simp [typeBounds, structBounds]

theorem get_extent_struct (bl d : List Int) (ts : List MPI_Datatype) :
    MPI_Type_get_extent (.struct bl d ts)
      = match typeBounds (.struct bl d ts) with
        | none => .ok (0, 0)
        | some (lb, ub) => .ok (lb, ub - lb) := by
  simp [MPI_Type_get_extent, isNull]

theorem typeBounds_vector_tight {t : MPI_Datatype} {lb e c N : Int}
    (hb : typeBounds t = some (lb, lb + e)) (he : 0 < e) (hc : 0 < c) (hN : 0 < N) :
    typeBounds (.vector c N N t) = some (lb, lb + c * N * e) := by
  have h1 : 0 ≤ (c - 1) * N := mul_nonneg (by omega) (le_of_lt hN)
  have h2 : 0 ≤ ((c - 1) * N + (N - 1)) * e := mul_nonneg (by omega) (le_of_lt he)
  simp only [typeBounds, hb]
  rw [if_neg (by omega)]
  simp only [min_eq_left h1, max_eq_right h1, add_sub_cancel_left, zero_mul, min_eq_left h2,
    max_eq_right h2]
  congr 2
  · ring
  · ring

theorem typeBounds_vector_empty (t : MPI_Datatype) (N : Int) :
    typeBounds (.vector 0 N N t) = none := by
  simp only [typeBounds]
  split <;> simp

theorem typeBounds_contiguous_tight {t : MPI_Datatype} {lb e r : Int}
    (hb : typeBounds t = some (lb, lb + e)) (he : 0 < e) (hr : 0 < r) :
    typeBounds (.contiguous r t) = some (lb, lb + r * e) := by
  have h1 : 0 ≤ (r - 1) * e := mul_nonneg (by omega) (le_of_lt he)
  simp only [typeBounds, hb, blockBounds]
  rw [if_neg (by omega)]
  simp only [add_sub_cancel_left, min_eq_left h1, max_eq_right h1]
  congr 2
  · ring
  · ring

theorem typeBounds_contiguous_empty (t : MPI_Datatype) :
    typeBounds (.contiguous 0 t) = none := by
  simp only [typeBounds, blockBounds]
  split <;> simp

/-- Extent of the two-member structure over a base type of positive extent. -/
theorem get_extent_struct_form (N count : Int) (base : MPI_Datatype) (lb e : Int)
    (hN : 0 < N) (h0 : 0 ≤ count) (he : 0 < e)
    (hext : MPI_Type_get_extent base = .ok (lb, e)) :
    MPI_Type_get_extent (.struct [1, 1] [0, count / N * N * e]
        [.vector (count / N) N N base, .contiguous (count % N) base])
      = .ok (if count = 0 then 0 else lb, count * e) := by
  have hb := typeBounds_of_get_extent hext (ne_of_gt he)
  have hc0 : 0 ≤ count / N := Int.ediv_nonneg h0 (le_of_lt hN)
  have hr0 : 0 ≤ count % N := Int.emod_nonneg _ (ne_of_gt hN)
  have hsum : count = count / N * N + count % N := by
    have := Int.ediv_add_emod count N
    linarith
  generalize count / N = c at *
  generalize count % N = r at *
  have hcN : 0 ≤ c * N := mul_nonneg hc0 (le_of_lt hN)
  have hD : 0 ≤ c * N * e := mul_nonneg hcN (le_of_lt he)
  have hR : 0 ≤ r * e := mul_nonneg hr0 (le_of_lt he)
  have hce : count * e = c * N * e + r * e := by rw [hsum]; ring
  rw [get_extent_struct, typeBounds_struct_two]
  rcases eq_or_lt_of_le hc0 with hc | hc <;> rcases eq_or_lt_of_le hr0 with hr | hr
  · subst hc; subst hr
    have hz : count = 0 := by simpa using hsum
    rw [typeBounds_vector_empty, typeBounds_contiguous_empty]
    simp [blockBounds, joinBounds, hz]
  · subst hc
    have hz : count ≠ 0 := by
      have : count = r := by simpa using hsum
      omega
    rw [typeBounds_vector_empty, typeBounds_contiguous_tight hb he hr, blockBounds_one]
    simp [blockBounds, joinBounds, hce, hz]
  · subst hr
    have hz : count ≠ 0 := by
      have h1 : 0 < c * N := mul_pos hc hN
      have : count = c * N := by simpa using hsum
      omega
    rw [typeBounds_contiguous_empty, typeBounds_vector_tight hb he hc hN, blockBounds_one]
    simp [blockBounds, joinBounds, hce, hz]
  · have hz : count ≠ 0 := by
      have h1 : 0 < c * N := mul_pos hc hN
      omega
    rw [typeBounds_vector_tight hb he hc hN, typeBounds_contiguous_tight hb he hr,
      blockBounds_one, blockBounds_one]
    simp only [joinBounds]
    rw [min_eq_left (by linarith), max_eq_right (by linarith), hce, if_neg hz]
    congr 2
    · ring
    · ring

/-- C4 (fails as stated): with `bigmpi_int_max = INT_MAX`,
`bigmpi_count_max = INT_MAX * INT_MAX`, `count = bigmpi_count_max - 1` and a
base type of lower bound 0 and extent 4, the type `MPIX_Type_contiguous_x`
builds has its remainder block at the wrapped displacement `-25769803768`;
its type map runs from that byte to byte `18446744047939747848`, an extent of
`2^64` and not `count * 4 = 18446744056529682432`. -/
theorem encoder_extent_wraps :
    (MPIX_Type_contiguous_x false 2147483647 4611686014132420609 4611686014132420608
        (.named 0 0 4) >>= MPI_Type_get_extent)
      = .ok (-25769803768, 18446744073709551616)
    ∧ (4611686014132420608 : Int) * 4 = 18446744056529682432
    ∧ (18446744073709551616 : Int) ≠ 4611686014132420608 * 4 :=
  ⟨rfl, by decide, by decide⟩

/-- C4 (amended): for `0 ≤ count < bigmpi_count_max` and a base type of
extent `e > 0` (lower bound `lb`, in particular `lb = 0`) such that the byte
size `count * e` is representable in `MPI_Aint`, the extent of the type built
by `MPIX_Type_contiguous_x` is `count * e`.  The constants of `bigmpi_impl.h`
are assumed to satisfy `0 < int_max ≤ INT_MAX` and
`count_max ≤ int_max * 2^31`. -/
theorem type_contiguous_x_extent (N cm count : Int) (base : MPI_Datatype) (lb e : Int)
    (hN : 0 < N) (hN' : N ≤ INT_MAX) (hcm : cm ≤ N * 2147483648)
    (h0 : 0 ≤ count) (hlt : count < cm) (he : 0 < e)
    (hext : MPI_Type_get_extent base = .ok (lb, e))
    (hfit : count * e ≤ INT64_MAX) :
    ∃ t, MPIX_Type_contiguous_x false N cm count base = .ok t
      ∧ MPI_Type_get_extent t = .ok (if count = 0 then 0 else lb, count * e) := by
  have hc0 : 0 ≤ count / N := Int.ediv_nonneg h0 (le_of_lt hN)
  have hle : count / N * N ≤ count := by
    have h1 := Int.ediv_add_emod count N
    have h2 := Int.emod_nonneg count (ne_of_gt hN)
    linarith
  have hD0 : 0 ≤ count / N * N * e := mul_nonneg (mul_nonneg hc0 (le_of_lt hN)) (le_of_lt he)
  have hD1 : count / N * N * e ≤ count * e := mul_le_mul_of_nonneg_right hle (le_of_lt he)
  have hfit2 : count * e ≤ 9223372036854775807 := hfit
  refine ⟨_, encode_struct_form N cm count base lb e hN hN' hcm h0 hlt hext, ?_⟩
  rw [to_int64_of_range (by linarith) (by linarith)]
  exact get_extent_struct_form N count base lb e hN h0 he hext

theorem type_contiguous_x_extent_witness :
    ∃ t, MPIX_Type_contiguous_x false 2147483647 4611686014132420609 4294967301 (.named 0 0 8)
        = .ok t
      ∧ MPI_Type_get_extent t
        = .ok (if (4294967301 : Int) = 0 then 0 else 0, 4294967301 * 8) :=
  type_contiguous_x_extent 2147483647 4611686014132420609 4294967301 (.named 0 0 8) 0 8
    (by decide) (by decide) (by decide) (by decide) (by decide) (by decide) rfl (by decide)

/-! ### `BigMPI_Convert_vectors` -/

/-- The loop returns as soon as every iteration returns, and its result lists
are the iteration results in order. -/
theorem convert_vectors_loop_ok (av : Bool) (N cm sp z : Int) (oc : List Int)
    (ot : MPI_Datatype) (ots : List MPI_Datatype) (od : List Int) :
    ∀ (n i : Nat),
      (∀ k, k < n → ∃ p, convert_vectors_entry av N cm sp z oc ot ots od (i + k) = .ok p) →
      ∃ r, convert_vectors_loop av N cm sp z oc ot ots od n i = .ok r
        ∧ r.newcounts.length = n ∧ r.newtypes.length = n ∧ r.newdispls.length = n
  | 0, _, _ => ⟨⟨[], [], []⟩, rfl, rfl, rfl, rfl⟩
  | n + 1, i, h => by
    obtain ⟨p, hp⟩ := h 0 (Nat.succ_pos n)
    have h' : ∀ k, k < n →
        ∃ p, convert_vectors_entry av N cm sp z oc ot ots od (i + 1 + k) = .ok p := by
      intro k hk
      have := h (k + 1) (Nat.succ_lt_succ hk)
      rwa [show i + (k + 1) = i + 1 + k by omega] at this
    obtain ⟨r, hr, h1, h2, h3⟩ := convert_vectors_loop_ok av N cm sp z oc ot ots od n (i + 1) h'
    rw [Nat.add_zero] at hp
    refine ⟨⟨p.1 :: r.newcounts, p.2.1 :: r.newtypes, p.2.2 :: r.newdispls⟩, ?_, ?_, ?_, ?_⟩
    · simp [convert_vectors_loop, hp, hr, bind, Except.bind]
    · simp [h1]
    · simp [h2]
    · simp [h3]

/-- Whatever the loop returns holds, at position `k`, the result of iteration `i + k`. -/
theorem convert_vectors_loop_get (av : Bool) (N cm sp z : Int) (oc : List Int)
    (ot : MPI_Datatype) (ots : List MPI_Datatype) (od : List Int) :
    ∀ (n i : Nat) (r : ConvertedVectors),
      convert_vectors_loop av N cm sp z oc ot ots od n i = .ok r →
      ∀ k, k < n → ∃ c t d, convert_vectors_entry av N cm sp z oc ot ots od (i + k) = .ok (c, t, d)
        ∧ r.newcounts.get? k = some c ∧ r.newtypes.get? k = some t ∧ r.newdispls.get? k = some d
  | 0, _, _, _ => fun k hk => absurd hk (Nat.not_lt_zero k)
  | n + 1, i, r, h => by
    simp only [convert_vectors_loop, bind, Except.bind] at h
    split at h
    · simp at h
    · rename_i p hp
      split at h
      · simp at h
      · rename_i rest hrest
        injection h with h
        subst h
        intro k hk
        cases k with
        | zero => exact ⟨p.1, p.2.1, p.2.2, by simpa using hp, rfl, rfl, rfl⟩
        | succ k =>
          obtain ⟨c, t, d, he, hc, ht, hd⟩ :=
            convert_vectors_loop_get av N cm sp z oc ot ots od n (i + 1) rest hrest k
              (Nat.lt_of_succ_lt_succ hk)
          refine ⟨c, t, d, ?_, by simpa using hc, by simpa using ht, by simpa using hd⟩
          rwa [show i + (k + 1) = i + 1 + k by omega]

/-- Every iteration that returns stores the count 1. -/
theorem convert_vectors_entry_count (av : Bool) (N cm sp z : Int) (oc : List Int)
    (ot : MPI_Datatype) (ots : List MPI_Datatype) (od : List Int) (i : Nat)
    (c : Int) (t : MPI_Datatype) (d : Int)
    (h : convert_vectors_entry av N cm sp z oc ot ots od i = .ok (c, t, d)) : c = 1 := by
  simp only [convert_vectors_entry, bind, Except.bind] at h
  repeat' split at h
  all_goals first
    | (simp at h; done)
    | (simp only [Except.ok.injEq, Prod.mk.injEq] at h; exact h.1.symm)


theorem convert_vectors_loop_counts (av : Bool) (N cm sp z : Int) (oc : List Int)
    (ot : MPI_Datatype) (ots : List MPI_Datatype) (od : List Int) :
    ∀ (n i : Nat) (r : ConvertedVectors),
      convert_vectors_loop av N cm sp z oc ot ots od n i = .ok r →
      r.newcounts = List.replicate n 1
  | 0, _, r, h => by
    simp only [convert_vectors_loop, Except.ok.injEq] at h
    subst h; rfl
  | n + 1, i, r, h => by
    simp only [convert_vectors_loop, bind, Except.bind] at h
    split at h
    · simp at h
    · rename_i p hp
      split at h
      · simp at h
      · rename_i rest hrest
        injection h with h
        subst h
        have h1 := convert_vectors_entry_count av N cm sp z oc ot ots od i p.1 p.2.1 p.2.2
          (by simpa using hp)
        have h2 := convert_vectors_loop_counts av N cm sp z oc ot ots od n (i + 1) rest hrest
        simp [h1, h2, List.replicate_succ]

/-- A run of `BigMPI_Convert_vectors` on two peers with their own types. -/
theorem convert_vectors_two_peers :
    BigMPI_Convert_vectors false 2147483647 4611686014132420609 2 0 0
        [4294967294, 4294967301] .null [.named 0 0 1, .named 1 0 8] [0, 8589934588]
      = .ok ⟨[1, 1],
          [.struct [1, 1] [0, 4294967294]
              [.vector 2 2147483647 2147483647 (.named 0 0 1), .contiguous 0 (.named 0 0 1)],
           .struct [1, 1] [0, 34359738352]
              [.vector 2 2147483647 2147483647 (.named 1 0 8), .contiguous 7 (.named 1 0 8)]],
          [0, 1]⟩ := rfl

/-- C6: for every `num` and every input, whatever `BigMPI_Convert_vectors`
returns has `newcounts[i] = 1` at every index `i` in `[0, num)`, whatever the
old counts and the two flags are; and the call returns as soon as none of
its iterations stops on a fault. -/
theorem convert_vectors_newcounts (av : Bool) (N cm num sp z : Int) (oc : List Int)
    (ot : MPI_Datatype) (ots : List MPI_Datatype) (od : List Int) :
    (∀ r, BigMPI_Convert_vectors av N cm num sp z oc ot ots od = .ok r →
        r.newcounts = List.replicate num.toNat 1
          ∧ ∀ i, i < num.toNat → r.newcounts.get? i = some 1)
    ∧ ((∀ i, i < num.toNat → ∃ p, convert_vectors_entry av N cm sp z oc ot ots od i = .ok p) →
        ∃ r, BigMPI_Convert_vectors av N cm num sp z oc ot ots od = .ok r) := by
  constructor
  · intro r h
    have hr := convert_vectors_loop_counts av N cm sp z oc ot ots od num.toNat 0 r h
    refine ⟨hr, fun i hi => ?_⟩
    rw [hr]
    simp [List.getElem?_replicate, hi]
  · intro h
    obtain ⟨r, hr, _⟩ := convert_vectors_loop_ok av N cm sp z oc ot ots od num.toNat 0
      (fun k hk => by simpa using h k hk)
    exact ⟨r, hr⟩

theorem convert_vectors_newcounts_witness :
    ∃ r, BigMPI_Convert_vectors false 2147483647 4611686014132420609 2 0 0
          [4294967294, 4294967301] .null [.named 0 0 1, .named 1 0 8] [0, 8589934588] = .ok r
      ∧ r.newcounts = List.replicate (2 : Int).toNat 1
      ∧ ∀ i, i < (2 : Int).toNat → r.newcounts.get? i = some 1 :=
  ⟨_, convert_vectors_two_peers,
    (convert_vectors_newcounts false 2147483647 4611686014132420609 2 0 0
      [4294967294, 4294967301] .null [.named 0 0 1, .named 1 0 8] [0, 8589934588]).1 _
      convert_vectors_two_peers⟩

theorem c_index_ok {α : Type} {a : List α} {i : Nat} {x : α} (h : c_index a i = .ok x) :
    a.get? i = some x := by
  unfold c_index at h
  split at h
  · rename_i y hy
    injection h with h
    rw [hy, h]
  · simp at h

/-- What one iteration of the loop stores, read off the code. -/
theorem convert_vectors_entry_spec (av : Bool) (N cm sp z : Int) (oc : List Int)
    (ot : MPI_Datatype) (ots : List MPI_Datatype) (od : List Int) (i : Nat)
    (c : Int) (newtype : MPI_Datatype) (newdispl : Int)
    (h : convert_vectors_entry av N cm sp z oc ot ots od i = .ok (c, newtype, newdispl)) :
    ∃ oldcount T lbo oe lbn ne,
      oc.get? i = some oldcount
      ∧ (if sp ≠ 0 then some ot else ots.get? i) = some T
      ∧ MPIX_Type_contiguous_x av N cm oldcount T = .ok newtype
      ∧ MPI_Type_get_extent T = .ok (lbo, oe)
      ∧ MPI_Type_get_extent newtype = .ok (lbn, ne)
      ∧ (z ≠ 0 → newdispl = 0)
      ∧ (z = 0 → ∃ olddispl, od.get? i = some olddispl ∧ ne ≠ 0
            ∧ newdispl = Int.tdiv (to_int64 (olddispl * oe)) ne) := by
  simp only [convert_vectors_entry, bind, Except.bind] at h
  cases hoc : c_index oc i with
  | error f => rw [hoc] at h; simp at h
  | ok oldcount =>
  rw [hoc] at h
  simp only at h
  cases hT : effective_oldtype sp ot ots i with
  | error f => rw [hT] at h; simp at h
  | ok T =>
  rw [hT] at h
  simp only at h
  cases hnt : MPIX_Type_contiguous_x av N cm oldcount T with
  | error f => rw [hnt] at h; simp at h
  | ok nt =>
  rw [hnt] at h
  simp only at h
  cases hpe : MPI_Type_get_extent T with
  | error f => rw [hpe] at h; simp at h
  | ok pe =>
  rw [hpe] at h
  simp only at h
  cases hpn : MPI_Type_get_extent nt with
  | error f => rw [hpn] at h; simp at h
  | ok pn =>
  rw [hpn] at h
  simp only at h
  have hT' : (if sp ≠ 0 then some ot else ots.get? i) = some T := by
    unfold effective_oldtype at hT
    by_cases hsp : sp = 0
    · simp only [hsp, bne_self_eq_false, Bool.false_eq_true, if_false] at hT
      have := c_index_ok hT
      simpa [hsp] using this
    · have : (sp != 0) = true := by simpa using hsp
      simp only [this, if_true, Except.ok.injEq] at hT
      simp [hsp, hT]
  by_cases hz : z = 0
  · have hzb : (z != 0) = false := by simp [hz]
    simp only [hzb, Bool.false_eq_true, if_false] at h
    cases hod : c_index od i with
    | error f => rw [hod] at h; simp at h
    | ok olddispl =>
    rw [hod] at h
    simp only at h
    by_cases hne : pn.2 = 0
    · simp [hne] at h
    · simp only [hne, if_false, Except.ok.injEq, Prod.mk.injEq] at h
      obtain ⟨_, h2, h3⟩ := h
      subst h2
      exact ⟨oldcount, T, pe.1, pe.2, pn.1, pn.2, c_index_ok hoc, hT', hnt, hpe, hpn,
        fun h => absurd hz h, fun _ => ⟨olddispl, c_index_ok hod, hne, h3.symm⟩⟩
  · have hzb : (z != 0) = true := by simpa using hz
    simp only [hzb, if_true, Except.ok.injEq, Prod.mk.injEq] at h
    obtain ⟨_, h2, h3⟩ := h
    subst h2
    exact ⟨oldcount, T, pe.1, pe.2, pn.1, pn.2, c_index_ok hoc, hT', hnt, hpe, hpn,
      fun _ => h3.symm, fun h => absurd h hz⟩

theorem c_index_of_get {α : Type} {a : List α} {i : Nat} {x : α} (h : a.get? i = some x) :
    c_index a i = .ok x := by
  unfold c_index
  rw [h]

/-- Value of one iteration in the default build on a well-formed peer. -/
theorem convert_vectors_entry_value (N cm sp z : Int) (oc : List Int) (ot : MPI_Datatype)
    (ots : List MPI_Datatype) (od : List Int) (i : Nat) (count : Int) (T : MPI_Datatype)
    (lb e : Int) (hN : 0 < N) (hN' : N ≤ INT_MAX) (hcm : cm ≤ N * 2147483648)
    (hoc : oc.get? i = some count) (hT : effective_oldtype sp ot ots i = .ok T)
    (h0 : 0 ≤ count) (hlt : count < cm) (he : 0 < e)
    (hext : MPI_Type_get_extent T = .ok (lb, e)) (hfit : count * e ≤ INT64_MAX) :
    convert_vectors_entry false N cm sp z oc ot ots od i
      = if z ≠ 0 then
          .ok (1, .struct [1, 1] [0, count / N * N * e]
                [.vector (count / N) N N T, .contiguous (count % N) T], 0)
        else
          match c_index od i with
          | .error f => .error f
          | .ok olddispl =>
            if count * e = 0 then .error .divide_by_zero
            else .ok (1, .struct [1, 1] [0, count / N * N * e]
                  [.vector (count / N) N N T, .contiguous (count % N) T],
                  Int.tdiv (to_int64 (olddispl * e)) (count * e)) := by
  have hc0 : 0 ≤ count / N := Int.ediv_nonneg h0 (le_of_lt hN)
  have hle : count / N * N ≤ count := by
    have h1 := Int.ediv_add_emod count N
    have h2 := Int.emod_nonneg count (ne_of_gt hN)
    linarith
  have hD0 : 0 ≤ count / N * N * e := mul_nonneg (mul_nonneg hc0 (le_of_lt hN)) (le_of_lt he)
  have hD1 : count / N * N * e ≤ count * e := mul_le_mul_of_nonneg_right hle (le_of_lt he)
  have hfit2 : count * e ≤ 9223372036854775807 := hfit
  have henc := encode_struct_form N cm count T lb e hN hN' hcm h0 hlt hext
  rw [to_int64_of_range (by linarith) (by linarith)] at henc
  have hne := get_extent_struct_form N count T lb e hN h0 he hext
  simp only [convert_vectors_entry, bind, Except.bind, c_index_of_get hoc, hT, henc, hext, hne]
  by_cases hz : z = 0
  · simp only [hz, bne_self_eq_false, Bool.false_eq_true, if_false, ne_eq, not_true_eq_false]
    cases c_index od i <;> rfl
  · simp [hz]

/-- C7: whatever `BigMPI_Convert_vectors` returns holds, at every index `i`
in `[0, num)`, `newtypes[i] = MPIX_Type_contiguous_x(oldcounts[i], T_i)` with
`T_i` the single `oldtype` when `splat_old_type` is set and `oldtypes[i]`
otherwise, and `newdispls[i] = 0` when `zero_new_displs` is set and otherwise
`olddispls[i] * extent(T_i) / extent(newtypes[i])` in C integer division (the
product taken in `MPI_Aint`, which is the product itself when it fits).  In
the default build the call returns on every input whose counts lie in
`[0, bigmpi_count_max)`, whose types have positive extent, whose byte sizes fit
`MPI_Aint` and, when displacements are rescaled, whose counts are positive. -/
theorem convert_vectors_entries (av : Bool) (N cm num sp z : Int) (oc : List Int)
    (ot : MPI_Datatype) (ots : List MPI_Datatype) (od : List Int) :
    (∀ r, BigMPI_Convert_vectors av N cm num sp z oc ot ots od = .ok r →
      ∀ i, i < num.toNat →
        ∃ oldcount T newtype lbo oe lbn ne newdispl,
          oc.get? i = some oldcount
          ∧ (if sp ≠ 0 then some ot else ots.get? i) = some T
          ∧ MPIX_Type_contiguous_x av N cm oldcount T = .ok newtype
          ∧ r.newtypes.get? i = some newtype
          ∧ MPI_Type_get_extent T = .ok (lbo, oe)
          ∧ MPI_Type_get_extent newtype = .ok (lbn, ne)
          ∧ r.newdispls.get? i = some newdispl
          ∧ (z ≠ 0 → newdispl = 0)
          ∧ (z = 0 → ∃ olddispl, od.get? i = some olddispl ∧ ne ≠ 0
                ∧ newdispl = Int.tdiv (to_int64 (olddispl * oe)) ne
                ∧ (-INT64_MAX - 1 ≤ olddispl * oe → olddispl * oe ≤ INT64_MAX →
                    newdispl = Int.tdiv (olddispl * oe) ne)))
    ∧ (av = false → 0 < N → N ≤ INT_MAX → cm ≤ N * 2147483648 →
        (∀ i, i < num.toNat → ∃ count T lb e,
            oc.get? i = some count ∧ effective_oldtype sp ot ots i = .ok T
            ∧ 0 ≤ count ∧ count < cm ∧ MPI_Type_get_extent T = .ok (lb, e) ∧ 0 < e
            ∧ count * e ≤ INT64_MAX ∧ (z = 0 → 0 < count ∧ ∃ d, od.get? i = some d)) →
        ∃ r, BigMPI_Convert_vectors av N cm num sp z oc ot ots od = .ok r) := by
  constructor
  · intro r h i hi
    obtain ⟨c, t, d, he, _, ht, hd⟩ :=
      convert_vectors_loop_get av N cm sp z oc ot ots od num.toNat 0 r h i hi
    rw [Nat.zero_add] at he
    obtain ⟨oldcount, T, lbo, oe, lbn, ne, h1, h2, h3, h4, h5, h6, h7⟩ :=
      convert_vectors_entry_spec av N cm sp z oc ot ots od i c t d he
    refine ⟨oldcount, T, t, lbo, oe, lbn, ne, d, h1, h2, h3, ht, h4, h5, hd, h6, fun hz => ?_⟩
    obtain ⟨olddispl, g1, g2, g3⟩ := h7 hz
    refine ⟨olddispl, g1, g2, g3, fun f1 f2 => ?_⟩
    have f1' : -9223372036854775808 ≤ olddispl * oe := by
      simp only [INT64_MAX] at f1; linarith
    rw [g3, to_int64_of_range f1' f2]
  · intro hav hN hN' hcm hvalid
    subst hav
    obtain ⟨r, hr, _⟩ := convert_vectors_loop_ok false N cm sp z oc ot ots od num.toNat 0
      (fun k hk => by
        obtain ⟨count, T, lb, e, h1, h2, h3, h4, h5, h6, h7, h8⟩ := hvalid k hk
        rw [Nat.zero_add,
          convert_vectors_entry_value N cm sp z oc ot ots od k count T lb e hN hN' hcm h1 h2 h3
            h4 h6 h5 h7]
        by_cases hz : z = 0
        · obtain ⟨hpos, d, hd⟩ := h8 hz
          have hne : count * e ≠ 0 := ne_of_gt (mul_pos hpos h6)
          simp [hz, c_index_of_get hd, hne]
        · simp [hz])
    exact ⟨r, hr⟩



theorem convert_vectors_entries_witness :
    ∃ r, BigMPI_Convert_vectors false 2147483647 4611686014132420609 2 0 0
          [4294967294, 4294967301] .null [.named 0 0 1, .named 1 0 8] [0, 8589934588] = .ok r
      ∧ ∀ i, i < (2 : Int).toNat →
        ∃ oldcount T newtype lbo oe lbn ne newdispl,
          [4294967294, 4294967301].get? i = some oldcount
          ∧ (if (0 : Int) ≠ 0 then some MPI_Datatype.null
              else [MPI_Datatype.named 0 0 1, MPI_Datatype.named 1 0 8].get? i) = some T
          ∧ MPIX_Type_contiguous_x false 2147483647 4611686014132420609 oldcount T = .ok newtype
          ∧ r.newtypes.get? i = some newtype
          ∧ MPI_Type_get_extent T = .ok (lbo, oe)
          ∧ MPI_Type_get_extent newtype = .ok (lbn, ne)
          ∧ r.newdispls.get? i = some newdispl
          ∧ ((0 : Int) ≠ 0 → newdispl = 0)
          ∧ ((0 : Int) = 0 → ∃ olddispl, [0, 8589934588].get? i = some olddispl ∧ ne ≠ 0
                ∧ newdispl = Int.tdiv (to_int64 (olddispl * oe)) ne
                ∧ (-INT64_MAX - 1 ≤ olddispl * oe → olddispl * oe ≤ INT64_MAX →
                    newdispl = Int.tdiv (olddispl * oe) ne)) :=
  ⟨_, convert_vectors_two_peers,
    (convert_vectors_entries false 2147483647 4611686014132420609 2 0 0
      [4294967294, 4294967301] .null [.named 0 0 1, .named 1 0 8] [0, 8589934588]).1 _
      convert_vectors_two_peers⟩

/-- C5 (fails on the code): with `bigmpi_int_max = INT_MAX`, one peer of
count `c = INT_MAX + 1 > nativeMax`, element extent `e = 1` and old
displacement `d = 1`, the conversion stores
`newdispls[0] = 1 * 1 / 2147483648 = 0`, and `0 * extent(newtypes[0])` is `0`,
not `d * e = 1`: the byte offset of the peer is lost. -/
theorem rescale_truncates :
    BigMPI_Convert_vectors false 2147483647 4611686014132420609 1 1 0 [2147483648]
        (.named 0 0 1) [] [1]
      = .ok ⟨[1],
          [.struct [1, 1] [0, 2147483647]
            [.vector 1 2147483647 2147483647 (.named 0 0 1), .contiguous 1 (.named 0 0 1)]],
          [0]⟩
    ∧ MPI_Type_get_extent (.struct [1, 1] [0, 2147483647]
          [.vector 1 2147483647 2147483647 (.named 0 0 1), .contiguous 1 (.named 0 0 1)])
        = .ok (0, 2147483648)
    ∧ (0 : Int) * 2147483648 ≠ 1 * 1 :=
  ⟨rfl, rfl, by decide⟩

/-- Two peers of counts `INT_MAX + 1` and `INT_MAX + 2` laid out one after the
other (displacements 0 and `INT_MAX + 1` elements): both converted
displacements are 0, so the two peers overlap. -/
theorem rescale_collapses_prefix_sums :
    (BigMPI_Convert_vectors false 2147483647 4611686014132420609 2 1 0
        [2147483648, 2147483649] (.named 0 0 4) [] [0, 2147483648]).map
        ConvertedVectors.newdispls
      = .ok [0, 0] :=
  rfl

/-- When the rescale is exact: for `d ≥ 0`, `e > 0` and a count
`c > nativeMax`, the displacement the conversion stores is
`d * e / extent(newtype)` with `extent(newtype) = c * e`, and multiplying
it back by that extent gives `d * e` exactly when `c` divides `d`.  The
constants of `bigmpi_impl.h` are assumed to satisfy `0 < int_max ≤ INT_MAX`
and `count_max ≤ int_max * 2^31`, and `c * e` and `d * e` are assumed to fit
`MPI_Aint`. -/
theorem rescale_exact_iff (N cm c d e lb : Int) (base : MPI_Datatype)
    (hN : 0 < N) (hN' : N ≤ INT_MAX) (hcm : cm ≤ N * 2147483648)
    (hc : N < c) (hlt : c < cm) (hd : 0 ≤ d) (he : 0 < e)
    (hext : MPI_Type_get_extent base = .ok (lb, e))
    (hfitc : c * e ≤ INT64_MAX) (hfitd : d * e ≤ INT64_MAX) :
    ∃ newtype lbn newdispl,
      BigMPI_Convert_vectors false N cm 1 1 0 [c] base [] [d]
        = .ok ⟨[1], [newtype], [newdispl]⟩
      ∧ MPIX_Type_contiguous_x false N cm c base = .ok newtype
      ∧ MPI_Type_get_extent newtype = .ok (lbn, c * e)
      ∧ newdispl = d * e / (c * e)
      ∧ (newdispl * (c * e) = d * e ↔ c ∣ d) := by
  have hc0 : 0 < c := lt_trans hN hc
  have hce : 0 < c * e := mul_pos hc0 he
  have hde : 0 ≤ d * e := mul_nonneg hd (le_of_lt he)
  have hfitd2 : d * e ≤ 9223372036854775807 := hfitd
  have hT : effective_oldtype 1 base [] 0 = .ok base := by simp [effective_oldtype]
  have hval := convert_vectors_entry_value N cm 1 0 [c] base [] [d] 0 c base lb e hN hN' hcm
    (by simp) hT (le_of_lt hc0) hlt he hext hfitc
  have hcz : c ≠ 0 := ne_of_gt hc0
  have hez : e ≠ 0 := ne_of_gt he
  simp only [ne_eq, not_true_eq_false, if_false, c_index, List.get?_cons_zero, mul_eq_zero, hcz,
    hez, or_self, to_int64_of_range (show -9223372036854775808 ≤ d * e by linarith) hfitd2,
    Int.tdiv_eq_ediv hde (le_of_lt hce)] at hval
  refine ⟨.struct [1, 1] [0, c / N * N * e] [.vector (c / N) N N base, .contiguous (c % N) base],
    if c = 0 then 0 else lb, d * e / (c * e), ?_, ?_, ?_, rfl, ?_⟩
  · simp [BigMPI_Convert_vectors, convert_vectors_loop, hval, bind, Except.bind]
  · have henc := encode_struct_form N cm c base lb e hN hN' hcm (le_of_lt hc0) hlt hext
    have hc1 : 0 ≤ c / N := Int.ediv_nonneg (le_of_lt hc0) (le_of_lt hN)
    have hle : c / N * N ≤ c := by
      have h1 := Int.ediv_add_emod c N
      have h2 := Int.emod_nonneg c (ne_of_gt hN)
      linarith
    have hD0 : 0 ≤ c / N * N * e := mul_nonneg (mul_nonneg hc1 (le_of_lt hN)) (le_of_lt he)
    have hD1 : c / N * N * e ≤ c * e := mul_le_mul_of_nonneg_right hle (le_of_lt he)
    have hfitc2 : c * e ≤ 9223372036854775807 := hfitc
    rw [to_int64_of_range (by linarith) (by linarith)] at henc
    exact henc
  · exact get_extent_struct_form N c base lb e hN (le_of_lt hc0) he hext
  · constructor
    · intro h
      have h1 : c * e ∣ d * e := Dvd.intro_left _ h
      exact (mul_dvd_mul_iff_right hez).mp h1
    · intro h
      exact Int.ediv_mul_cancel (mul_dvd_mul_right h e)

theorem rescale_exact_iff_witness :
    ∃ newtype lbn newdispl,
      BigMPI_Convert_vectors false 2147483647 4611686014132420609 1 1 0 [2147483648]
          (.named 0 0 8) [] [4294967296]
        = .ok ⟨[1], [newtype], [newdispl]⟩
      ∧ MPIX_Type_contiguous_x false 2147483647 4611686014132420609 2147483648 (.named 0 0 8)
        = .ok newtype
      ∧ MPI_Type_get_extent newtype = .ok (lbn, 2147483648 * 8)
      ∧ newdispl = 4294967296 * 8 / (2147483648 * 8)
      ∧ (newdispl * (2147483648 * 8) = 4294967296 * 8 ↔ (2147483648 : Int) ∣ 4294967296) :=
  rescale_exact_iff 2147483647 4611686014132420609 2147483648 4294967296 8 0 (.named 0 0 8)
    (by decide) (by decide) (by decide) (by decide) (by decide) (by decide) (by decide) rfl
    (by decide) (by decide)

/-! ### The decoder on handles it should reject -/

/-- C8: on every handle that is not a well-formed composed type (a shape
other than the recognised one, a structure that does not have exactly two
members of block length 1 with the first at displacement 0, a first member
that is not a vector with block length = stride = `bigmpi_int_max`, a second
member that is not a contiguous block, or members over different base types)
`BigMPI_Decode_contiguous_x` stops on a fault and returns no count; this
holds in both builds. -/
theorem decode_rejects_malformed (av : Bool) (N : Int) (t : MPI_Datatype)
    (h : ¬ WellFormedComposed av N t) :
    ∃ f, BigMPI_Decode_contiguous_x av N t = .error f := by
  cases t with
  | null => exact ⟨_, rfl⟩
  | named i l e =>
    exact ⟨.assertion 139, by
      simp [BigMPI_Decode_contiguous_x, MPI_Type_get_envelope, c_assert, bind, Except.bind]⟩
  | contiguous n old =>
    cases av
    · exact ⟨.assertion 158, by
        simp [BigMPI_Decode_contiguous_x, MPI_Type_get_envelope, c_assert, bind, Except.bind]⟩
    · exact ⟨.assertion 160, by
        simp [BigMPI_Decode_contiguous_x, MPI_Type_get_envelope, c_assert, bind, Except.bind]⟩
  | vector a b s old =>
    cases av
    · exact ⟨.assertion 158, by
        simp [BigMPI_Decode_contiguous_x, MPI_Type_get_envelope, c_assert, bind, Except.bind]⟩
    · have hbs : b ≠ s := by
        intro hbs
        subst hbs
        exact h (Or.inr ⟨rfl, a, b, old, rfl⟩)
      exact ⟨.assertion 151, by
        simp [BigMPI_Decode_contiguous_x, MPI_Type_get_envelope, MPI_Type_get_contents, c_assert,
          c_index, bind, Except.bind, hbs]⟩
  | struct bl d ts =>
    exact ⟨.assertion 139, by
      simp [BigMPI_Decode_contiguous_x, MPI_Type_get_envelope, c_assert, bind, Except.bind]⟩

theorem decode_rejects_malformed_witness :
    ¬ WellFormedComposed true 2147483647
        (.struct [1, 1, 1] [0, 8, 16] [.named 0 0 8, .named 0 0 8, .named 0 0 8])
    ∧ ∃ f, BigMPI_Decode_contiguous_x true 2147483647
        (.struct [1, 1, 1] [0, 8, 16] [.named 0 0 8, .named 0 0 8, .named 0 0 8]) = .error f :=
  ⟨by simp [WellFormedComposed],
   decode_rejects_malformed true 2147483647 _ (by simp [WellFormedComposed])⟩

/-! ### The factoring build -/

theorem factorize_loop_rc (input : Int) :
    ∀ (n : Nat) (g : Int),
      (∃ a b, factorize_loop input n g = (0, some (a, b))) ∨ factorize_loop input n g = (1, none)
  | 0, _ => Or.inr rfl
  | n + 1, g => by
    unfold factorize_loop
    split
    · exact Or.inl ⟨_, _, rfl⟩
    · exact factorize_loop_rc input n (g + 1)

/-- In the factoring build `MPIX_Type_contiguous_x` takes the vector branch
when `BigMPI_Factorize_count` returns non-zero, that is when nothing was
stored in `a` and `b`, and the quotient/remainder path when it returns 0. -/
theorem type_contiguous_x_factoring (N cm count : Int) (base : MPI_Datatype) :
    MPIX_Type_contiguous_x true N cm count base
      = if (BigMPI_Factorize_count N count).1 = 0 then
          MPIX_Type_contiguous_x false N cm count base
        else if count < cm then .error .indeterminate else .error (.assertion 73) := by
  rcases factorize_loop_rc count ((((isqrt count.toNat : Nat) : Int)
      - (Int.tdiv count N + 1)).toNat) (Int.tdiv count N + 1) with ⟨a, b, h⟩ | h
  · have h' : BigMPI_Factorize_count N count = (0, some (a, b)) := h
    simp [MPIX_Type_contiguous_x, h']
  · have h' : BigMPI_Factorize_count N count = (1, none) := h
    by_cases hlt : count < cm
    · simp [MPIX_Type_contiguous_x, h', c_assert, hlt, bind, Except.bind]
    · simp [MPIX_Type_contiguous_x, h', c_assert, hlt, bind, Except.bind]

/-- C9 (fails on the code): with `bigmpi_int_max = INT_MAX`, the count 6 is
factorized (`a = 1`, `b = 6`, return code 0) and the factoring build still
builds the two-member structure, not `vector(1, 6, 6)`; the count 3 is not
factorized (return code 1) and the factoring build does not fall back to the
structure but takes the vector branch with `a` and `b` never written. -/
theorem factoring_build_branches_swapped :
    BigMPI_Factorize_count 2147483647 6 = (0, some (1, 6))
    ∧ MPIX_Type_contiguous_x true 2147483647 4611686014132420609 6 (.named 0 0 4)
      = .ok (.struct [1, 1] [0, 0]
          [.vector 0 2147483647 2147483647 (.named 0 0 4), .contiguous 6 (.named 0 0 4)])
    ∧ BigMPI_Factorize_count 2147483647 3 = (1, none)
    ∧ MPIX_Type_contiguous_x true 2147483647 4611686014132420609 3 (.named 0 0 4)
      = .error .indeterminate :=
  ⟨rfl, rfl, rfl, rfl⟩

theorem isqrt_bits_sq_le (n : Nat) :
    ∀ (k r : Nat), r * r ≤ n → isqrt_bits n k r * isqrt_bits n k r ≤ n
  | 0, _, h => h
  | k + 1, r, h => by
    unfold isqrt_bits
    split
    · rename_i h2
      exact isqrt_bits_sq_le n k _ h2
    · exact isqrt_bits_sq_le n k r h

theorem isqrt_bits_lt (n : Nat) :
    ∀ (k r : Nat), n < (r + 2 ^ k) * (r + 2 ^ k) →
      n < (isqrt_bits n k r + 1) * (isqrt_bits n k r + 1)
  | 0, _, h => by simpa [isqrt_bits] using h
  | k + 1, r, h => by
    unfold isqrt_bits
    split
    · apply isqrt_bits_lt n k
      have : r + 2 ^ k + 2 ^ k = r + 2 ^ (k + 1) := by rw [pow_succ]; ring
      rw [this]
      exact h
    · rename_i h2
      exact isqrt_bits_lt n k r (not_le.mp h2)

/-- The square of `isqrt n` does not exceed `n`. -/
theorem isqrt_sq_le (n : Nat) : isqrt n * isqrt n ≤ n :=
  isqrt_bits_sq_le n 32 0 (Nat.zero_le n)

/-- Below `2^64`, `isqrt` is the integer square root. -/
theorem isqrt_eq_sqrt (n : Nat) (h : n < 18446744073709551616) : isqrt n = Nat.sqrt n :=
  Nat.eq_sqrt.mpr ⟨isqrt_sq_le n, isqrt_bits_lt n 32 0 (by simpa using h)⟩

theorem factorize_loop_found (input : Int) :
    ∀ (n : Nat) (g a b : Int), factorize_loop input n g = (0, some (a, b)) →
      ∃ k : Nat, k < n ∧ Int.tmod input (g + k) = 0 ∧ a = to_int (g + k)
        ∧ b = to_int (Int.tdiv input (g + k))
  | 0, _, _, _, h => by simp [factorize_loop] at h
  | n + 1, g, a, b, h => by
    unfold factorize_loop at h
    split at h
    · rename_i hz
      simp only [Prod.mk.injEq, Option.some.injEq, true_and] at h
      exact ⟨0, Nat.succ_pos n, by simpa using hz, by simpa using h.1.symm,
        by simpa using h.2.symm⟩
    · obtain ⟨k, hk, h1, h2, h3⟩ := factorize_loop_found input n (g + 1) a b h
      refine ⟨k + 1, Nat.succ_lt_succ hk, ?_, ?_, ?_⟩
      · rw [show g + ((k + 1 : Nat) : Int) = g + 1 + (k : Int) by push_cast; ring]; exact h1
      · rw [show g + ((k + 1 : Nat) : Int) = g + 1 + (k : Int) by push_cast; ring]; exact h2
      · rw [show g + ((k + 1 : Nat) : Int) = g + 1 + (k : Int) by push_cast; ring]; exact h3

/-- C10: for `in ≥ 0`, with the upper search bound the integer square root of
`in`, whenever `BigMPI_Factorize_count` returns 0 it has stored `a` and `b`
with `a * b = in`, `1 ≤ a < bigmpi_int_max` and `1 ≤ b < bigmpi_int_max`, and
both are the wide values `g` and `in / g` unchanged by the conversion to
`int`.  `bigmpi_int_max` is assumed to satisfy `0 < int_max ≤ INT_MAX`. -/
theorem factorize_count_factors (N input : Int) (hN : 0 < N) (hN' : N ≤ INT_MAX)
    (h0 : 0 ≤ input) (hrc : (BigMPI_Factorize_count N input).1 = 0) :
    ∃ a b, (BigMPI_Factorize_count N input).2 = some (a, b)
      ∧ a * b = input ∧ 1 ≤ a ∧ a < N ∧ 1 ≤ b ∧ b < N
      ∧ ∃ g, Int.tmod input g = 0 ∧ a = g ∧ b = Int.tdiv input g
          ∧ to_int g = g ∧ to_int (Int.tdiv input g) = Int.tdiv input g := by
  have hN2 : N ≤ 2147483647 := hN'
  rcases factorize_loop_rc input ((((isqrt input.toNat : Nat) : Int)
      - (Int.tdiv input N + 1)).toNat) (Int.tdiv input N + 1) with ⟨a, b, h⟩ | h
  · have h' : BigMPI_Factorize_count N input = (0, some (a, b)) := h
    obtain ⟨k, hk, hmod, ha, hb⟩ := factorize_loop_found input _ _ a b h
    rw [Int.tdiv_eq_ediv h0 (le_of_lt hN)] at hk hmod ha hb
    have hq0 : 0 ≤ input / N := Int.ediv_nonneg h0 (le_of_lt hN)
    have hsq : ((isqrt input.toNat : Nat) : Int) * ((isqrt input.toNat : Nat) : Int) ≤ input := by
      have h1 := isqrt_sq_le input.toNat
      have h2 : ((isqrt input.toNat * isqrt input.toNat : Nat) : Int) ≤ (input.toNat : Int) :=
        Int.ofNat_le.mpr h1
      rw [Int.toNat_of_nonneg h0] at h2
      push_cast at h2
      exact h2
    generalize ((isqrt input.toNat : Nat) : Int) = hi at hk hsq
    generalize hg : input / N + 1 + (k : Int) = g at hmod ha hb
    have hglo : input / N + 1 ≤ g := by omega
    have hghi : g < hi := by omega
    have hg1 : 1 ≤ g := by omega
    have hlt : input < g * N := Int.lt_mul_of_ediv_lt hN (by omega)
    have hsq2 : (g + 1) * (g + 1) ≤ input := by nlinarith
    have hgN : g < N := by nlinarith
    have hdvd : g ∣ input := Int.dvd_of_tmod_eq_zero hmod
    have hmul : Int.tdiv input g * g = input := Int.tdiv_mul_cancel_of_tmod_eq_zero hmod
    generalize hqd : Int.tdiv input g = q at hb hmul
    have hq1 : 1 ≤ q := by
      by_contra hneg
      have : q ≤ 0 := by omega
      nlinarith
    have hqN : q < N := by
      by_contra hneg
      have : N ≤ q := by omega
      nlinarith
    have ea : to_int g = g := to_int_of_range (by omega) (by omega)
    have eb : to_int q = q := to_int_of_range (by omega) (by omega)
    rw [ea] at ha
    rw [eb] at hb
    refine ⟨a, b, by rw [h'], by rw [ha, hb]; linarith, by omega, by omega, by omega, by omega,
      g, hmod, ha, by rw [hqd]; exact hb, ea, by rw [hqd]; exact eb⟩
  · have h' : BigMPI_Factorize_count N input = (1, none) := h
    rw [h'] at hrc
    simp at hrc

theorem factorize_count_factors_witness :
    ∃ a b, (BigMPI_Factorize_count 2147483647 4611685996952551440).2 = some (a, b)
      ∧ a * b = 4611685996952551440 ∧ 1 ≤ a ∧ a < 2147483647 ∧ 1 ≤ b ∧ b < 2147483647
      ∧ ∃ g, Int.tmod 4611685996952551440 g = 0 ∧ a = g ∧ b = Int.tdiv 4611685996952551440 g
          ∧ to_int g = g
          ∧ to_int (Int.tdiv 4611685996952551440 g) = Int.tdiv 4611685996952551440 g :=
  factorize_count_factors 2147483647 4611685996952551440 (by decide) (by decide) (by decide) rfl


/-! ### The entry points of `vcollectives_x.c`, `new_vcollectives_x.c`, `rma_x.c` and `reductions_x.c` -/

/-! ### Runs and loops -/

theorem Run.bind_def {α β : Type} (x : Run α) (f : α → Run β) : (x >>= f) = Run.bind x f := rfl

theorem Run.pure_def {α : Type} (a : α) : (pure a : Run α) = Run.pure a := rfl

theorem Run.bind_of_ok {α β : Type} {x : Run α} {a : α} (h : x.result = .ok a)
    (f : α → Run β) : Run.bind x f = ⟨x.trace ++ (f a).trace, (f a).result⟩ := by
  simp [Run.bind, h]

theorem Run.bind_of_error {α β : Type} {x : Run α} {e : Fault} (h : x.result = .error e)
    (f : α → Run β) : Run.bind x f = ⟨x.trace, .error e⟩ := by
  simp [Run.bind, h]

/-- Every call of a sequence is a call of its first part or of its second part. -/
theorem Run.mem_bind_trace {α β : Type} (x : Run α) (f : α → Run β) (e : Event)
    (h : e ∈ (Run.bind x f).trace) : e ∈ x.trace ∨ ∃ a, x.result = .ok a ∧ e ∈ (f a).trace := by
  cases hx : x.result with
  | error err =>
    rw [Run.bind_of_error hx] at h
    exact Or.inl h
  | ok a =>
    rw [Run.bind_of_ok hx] at h
    rcases List.mem_append.mp h with h | h
    · exact Or.inl h
    · exact Or.inr ⟨a, rfl, h⟩

/-- A loop makes no call that its iterations do not make. -/
theorem for_loop_trace {α : Type} (body : Nat → Run α) (P : Event → Prop)
    (hP : ∀ i e, e ∈ (body i).trace → P e) :
    ∀ (n i : Nat) (e : Event), e ∈ (for_loop body n i).trace → P e
  | 0, _, e, h => by simp [for_loop, Run.pure] at h
  | n + 1, i, e, h => by
    unfold for_loop at h
    rcases Run.mem_bind_trace _ _ e h with h | ⟨a, _, h⟩
    · exact hP i e h
    · rcases Run.mem_bind_trace _ _ e h with h | ⟨b, _, h⟩
      · exact for_loop_trace body P hP n (i + 1) e h
      · simp [Run.pure] at h

/-- A loop all of whose iterations return does return, one value per index. -/
theorem for_loop_returns {α : Type} (body : Nat → Run α) :
    ∀ (n i : Nat), (∀ k, k < n → ∃ x, (body (i + k)).result = .ok x) →
      ∃ xs, (for_loop body n i).result = .ok xs
  | 0, _, _ => ⟨[], rfl⟩
  | n + 1, i, h => by
    obtain ⟨x, hx⟩ := h 0 (Nat.succ_pos n)
    rw [Nat.add_zero] at hx
    obtain ⟨xs, hxs⟩ := for_loop_returns body n (i + 1) (fun k hk => by
      have := h (k + 1) (Nat.succ_lt_succ hk)
      rwa [show i + (k + 1) = i + 1 + k by omega] at this)
    refine ⟨x :: xs, ?_⟩
    unfold for_loop
    rw [Run.bind_of_ok hx, Run.bind_of_ok hxs]
    rfl

/-- The values a loop returns are the values of its iterations, in order. -/
theorem for_loop_values {α : Type} (body : Nat → Run α) :
    ∀ (n i : Nat) (xs : List α), (for_loop body n i).result = .ok xs →
      xs.length = n ∧ ∀ k, k < n → ∃ x, (body (i + k)).result = .ok x ∧ xs.get? k = some x
  | 0, _, xs, h => by
    simp only [for_loop, Run.pure, Except.ok.injEq] at h
    subst h
    exact ⟨rfl, fun k hk => absurd hk (Nat.not_lt_zero k)⟩
  | n + 1, i, xs, h => by
    unfold for_loop at h
    cases hx : (body i).result with
    | error err => rw [Run.bind_of_error hx] at h; simp at h
    | ok x =>
      rw [Run.bind_of_ok hx] at h
      cases hr : (for_loop body n (i + 1)).result with
      | error err => rw [Run.bind_of_error hr] at h; simp at h
      | ok rest =>
        rw [Run.bind_of_ok hr] at h
        simp only [Run.pure, Except.ok.injEq] at h
        subst h
        obtain ⟨hlen, hget⟩ := for_loop_values body n (i + 1) rest hr
        refine ⟨by simp [hlen], fun k hk => ?_⟩
        cases k with
        | zero => exact ⟨x, by simpa using hx, rfl⟩
        | succ k =>
          obtain ⟨y, hy, hg⟩ := hget k (Nat.lt_of_succ_lt_succ hk)
          exact ⟨y, by rwa [show i + (k + 1) = i + 1 + k by omega], by simpa using hg⟩

/-- A loop whose iterations all return the same value after the same calls. -/
theorem for_loop_const {α : Type} (body : Nat → Run α) (t : List Event) (x : α)
    (h : ∀ i, body i = ⟨t, .ok x⟩) :
    ∀ (n i : Nat), (for_loop body n i).result = .ok (List.replicate n x)
  | 0, _ => rfl
  | n + 1, i => by
    unfold for_loop
    have hb : (body i).result = .ok x := by rw [h i]
    rw [Run.bind_of_ok hb, Run.bind_of_ok (for_loop_const body t x h n (i + 1))]
    rfl


/-! ### The irregular collectives of `vcollectives_x.c` -/

/-- The four entry points that test their arguments stop on `BigMPI_Error`
before making any call, whatever the other arguments are. -/
theorem checked_entry_points_fail_fast (av : Bool) (N cm : Int) (tr : Transport)
    (sendbuf recvbuf : Buffer) (sendcount recvcount root : Int)
    (sendcounts sdispls recvcounts rdispls : List Int) (sendtype recvtype : MPI_Datatype)
    (sendtypes recvtypes : List MPI_Datatype) (comm : MPI_Comm)
    (h : comm.is_inter = true ∨ sendbuf = .in_place) :
    (∃ line, MPIX_Gatherv_x av N cm tr sendbuf sendcount sendtype recvbuf recvcounts rdispls
        recvtype root comm = ⟨[], .error (.bigmpi_error line)⟩)
    ∧ (∃ line, MPIX_Scatterv_x av N cm tr sendbuf sendcounts sdispls sendtype recvbuf recvcount
        recvtype root comm = ⟨[], .error (.bigmpi_error line)⟩)
    ∧ (∃ line, MPIX_Alltoallv_x sendbuf sendcounts sdispls sendtype recvbuf recvcounts rdispls
        recvtype comm = ⟨[], .error (.bigmpi_error line)⟩)
    ∧ (∃ line, MPIX_Alltoallw_x av N cm tr sendbuf sendcounts sdispls sendtypes recvbuf
        recvcounts rdispls recvtypes comm = ⟨[], .error (.bigmpi_error line)⟩) := by
  by_cases hi : comm.is_inter = true
  · exact ⟨⟨65, by simp [MPIX_Gatherv_x, hi, BigMPI_Error, Run.fail, Bind.bind, Run.bind]⟩,
      ⟨155, by simp [MPIX_Scatterv_x, hi, BigMPI_Error, Run.fail, Bind.bind, Run.bind]⟩,
      ⟨273, by simp [MPIX_Alltoallv_x, hi, BigMPI_Error, Run.fail, Bind.bind, Run.bind]⟩,
      ⟨309, by simp [MPIX_Alltoallw_x, hi, BigMPI_Error, Run.fail, Bind.bind, Run.bind]⟩⟩
  · have hp : sendbuf = .in_place := h.resolve_left hi
    exact ⟨⟨68, by
        simp [MPIX_Gatherv_x, hi, hp, BigMPI_Error, Run.fail, Bind.bind, Run.bind, Pure.pure,
          Run.pure]⟩,
      ⟨158, by
        simp [MPIX_Scatterv_x, hi, hp, BigMPI_Error, Run.fail, Bind.bind, Run.bind, Pure.pure,
          Run.pure]⟩,
      ⟨276, by
        simp [MPIX_Alltoallv_x, hi, hp, BigMPI_Error, Run.fail, Bind.bind, Run.bind, Pure.pure,
          Run.pure]⟩,
      ⟨312, by
        simp [MPIX_Alltoallw_x, hi, hp, BigMPI_Error, Run.fail, Bind.bind, Run.bind, Pure.pure,
          Run.pure]⟩⟩

/-- C11 (fails on the code): `MPIX_Allgatherv_x` has neither test.  Called on
an inter-communicator, or with `MPI_IN_PLACE` as send buffer, it raises no
usage error and returns `MPI_SUCCESS`; the four other entry points stop on
`BigMPI_Error` (`checked_entry_points_fail_fast`). -/
theorem allgatherv_x_skips_checks :
    MPIX_Allgatherv_x (.addr 0 0) 2147483648 (.named 0 0 4) (.addr 1 0)
        [2147483648, 2147483648] [0, 2147483648] (.named 0 0 4) ⟨true, 2, 0⟩
      = ⟨[], .ok MPI_SUCCESS⟩
    ∧ MPIX_Allgatherv_x .in_place 2147483648 (.named 0 0 4) (.addr 1 0)
        [2147483648, 2147483648] [0, 2147483648] (.named 0 0 4) ⟨false, 2, 0⟩
      = ⟨[], .ok MPI_SUCCESS⟩ :=
  ⟨rfl, rfl⟩


theorem type_contiguous_x_commit_result (av : Bool) (N cm count : Int) (t : MPI_Datatype) :
    (type_contiguous_x_commit av N cm count t).result = MPIX_Type_contiguous_x av N cm count t := by
  cases h : MPIX_Type_contiguous_x av N cm count t <;>
    simp [type_contiguous_x_commit, h, emit, Run.lift, Bind.bind, Run.bind, Pure.pure, Run.pure]

theorem type_contiguous_x_commit_trace (av : Bool) (N cm count : Int) (t : MPI_Datatype)
    (e : Event) (h : e ∈ (type_contiguous_x_commit av N cm count t).trace) :
    e.isNeighbor = false := by
  cases h2 : MPIX_Type_contiguous_x av N cm count t <;>
    simp [type_contiguous_x_commit, h2, emit, Run.lift, Bind.bind, Run.bind, Pure.pure,
      Run.pure] at h
  · subst h; rfl
  · rcases h with h | h <;> subst h <;> rfl

theorem lift_trace {α : Type} (x : Except Fault α) : (Run.lift x).trace = [] := rfl

theorem free_types_trace :
    ∀ (s r : List PeerEntry) (e : Event), e ∈ (free_types s r).trace → e.isNeighbor = false
  | [], _, e, h => by simp [free_types, Run.pure] at h
  | _ :: _, [], e, h => by simp [free_types, Run.pure] at h
  | s :: ss, r :: rs, e, h => by
    unfold free_types at h
    rcases Run.mem_bind_trace _ _ e h with h | ⟨_, _, h⟩
    · cases hn : s.datatype.isNull <;>
        simp [type_free, emit, Run.fail, Bind.bind, Run.bind, Pure.pure, Run.pure, hn] at h <;>
        (subst h; rfl)
    · rcases Run.mem_bind_trace _ _ e h with h | ⟨_, _, h⟩
      · cases hn : r.datatype.isNull <;>
          simp [type_free, emit, Run.fail, Bind.bind, Run.bind, Pure.pure, Run.pure, hn] at h <;>
          (subst h; rfl)
      · exact free_types_trace ss rs e h

/-- The end of an entry point makes exactly one neighbor exchange, with the
vectors it was given. -/
theorem neighbor_exchange_calls (tr : Transport) (root : Int) (sb rb : Buffer)
    (sends recvs : List PeerEntry) :
    (neighbor_exchange tr root sb sends rb recvs).trace.filter Event.isNeighbor
      = [.neighbor_alltoallw sb (sends.map PeerEntry.count) (sends.map PeerEntry.displ)
          (sends.map PeerEntry.datatype) rb (recvs.map PeerEntry.count)
          (recvs.map PeerEntry.displ) (recvs.map PeerEntry.datatype)] := by
  have hf : (free_types sends recvs).trace.filter Event.isNeighbor = [] :=
    List.filter_eq_nil_iff.mpr (fun e he => by simp [free_types_trace sends recvs e he])
  cases hr : (free_types sends recvs).result <;>
    simp [neighbor_exchange, emit, Bind.bind, Run.bind, Pure.pure, Run.pure, hr, List.filter_cons,
      Event.isNeighbor, hf]

/-- A loop without neighbor exchange followed by the common end: the neighbor
exchanges of the whole run. -/
theorem loop_then_exchange_calls (tr : Transport) (root : Int) (sb rb : Buffer)
    (loop : Run (List (PeerEntry × PeerEntry)))
    (hloop : ∀ e, e ∈ loop.trace → e.isNeighbor = false)
    (entries : List (PeerEntry × PeerEntry)) (hok : loop.result = .ok entries) :
    (Run.bind loop (fun entries => neighbor_exchange tr root sb (entries.map Prod.fst) rb
        (entries.map Prod.snd))).trace.filter Event.isNeighbor
      = [.neighbor_alltoallw sb ((entries.map Prod.fst).map PeerEntry.count)
          ((entries.map Prod.fst).map PeerEntry.displ)
          ((entries.map Prod.fst).map PeerEntry.datatype) rb
          ((entries.map Prod.snd).map PeerEntry.count)
          ((entries.map Prod.snd).map PeerEntry.displ)
          ((entries.map Prod.snd).map PeerEntry.datatype)] := by
  rw [Run.bind_of_ok hok]
  simp only [List.filter_append, neighbor_exchange_calls]
  rw [List.filter_eq_nil_iff.mpr (fun e he => by simp [hloop e he])]
  rfl

theorem gatherv_x_unfold (av : Bool) (N cm : Int) (tr : Transport) (sendbuf recvbuf : Buffer)
    (sendcount : Int) (sendtype : MPI_Datatype) (recvcounts rdispls : List Int)
    (recvtype : MPI_Datatype) (root : Int) (comm : MPI_Comm)
    (hinter : comm.is_inter = false) (hplace : sendbuf ≠ .in_place) :
    MPIX_Gatherv_x av N cm tr sendbuf sendcount sendtype recvbuf recvcounts rdispls recvtype
        root comm
      = Run.bind (for_loop (gatherv_body av N cm sendcount sendtype recvcounts rdispls recvtype
          root comm.rank) comm.size.toNat 0)
        (fun entries => neighbor_exchange tr root .pointer_table (entries.map Prod.fst) recvbuf
          (entries.map Prod.snd)) := by
  simp [MPIX_Gatherv_x, hinter, hplace, Bind.bind, Run.bind, Pure.pure, Run.pure]

theorem scatterv_x_unfold (av : Bool) (N cm : Int) (tr : Transport) (sendbuf recvbuf : Buffer)
    (sendcounts sdispls : List Int) (sendtype : MPI_Datatype) (recvcount : Int)
    (recvtype : MPI_Datatype) (root : Int) (comm : MPI_Comm)
    (hinter : comm.is_inter = false) (hplace : sendbuf ≠ .in_place) :
    MPIX_Scatterv_x av N cm tr sendbuf sendcounts sdispls sendtype recvbuf recvcount recvtype
        root comm
      = Run.bind (for_loop (scatterv_body av N cm sendcounts sdispls sendtype recvcount recvtype
          root comm.rank) comm.size.toNat 0)
        (fun entries => neighbor_exchange tr root sendbuf (entries.map Prod.fst) .pointer_table
          (entries.map Prod.snd)) := by
  simp [MPIX_Scatterv_x, hinter, hplace, Bind.bind, Run.bind, Pure.pure, Run.pure]

theorem alltoallw_x_unfold (av : Bool) (N cm : Int) (tr : Transport) (sendbuf recvbuf : Buffer)
    (sendcounts sdispls : List Int) (sendtypes : List MPI_Datatype)
    (recvcounts rdispls : List Int) (recvtypes : List MPI_Datatype) (comm : MPI_Comm)
    (hinter : comm.is_inter = false) (hplace : sendbuf ≠ .in_place) :
    MPIX_Alltoallw_x av N cm tr sendbuf sendcounts sdispls sendtypes recvbuf recvcounts rdispls
        recvtypes comm
      = Run.bind (for_loop (alltoallw_body av N cm sendcounts sdispls sendtypes recvcounts
          rdispls recvtypes) comm.size.toNat 0)
        (fun entries => neighbor_exchange tr (-1) sendbuf (entries.map Prod.fst) recvbuf
          (entries.map Prod.snd)) := by
  simp [MPIX_Alltoallw_x, hinter, hplace, Bind.bind, Run.bind, Pure.pure, Run.pure]


theorem Run.bind_result_ok {α β : Type} {x : Run α} {f : α → Run β} {b : β}
    (h : (Run.bind x f).result = .ok b) : ∃ a, x.result = .ok a ∧ (f a).result = .ok b := by
  cases hx : x.result with
  | error err => rw [Run.bind_of_error hx] at h; simp at h
  | ok a => rw [Run.bind_of_ok hx] at h; exact ⟨a, rfl, h⟩

theorem Run.lift_result {α : Type} (x : Except Fault α) : (Run.lift x).result = x := rfl

theorem no_neighbor_bind {α β : Type} (x : Run α) (f : α → Run β)
    (hx : ∀ e, e ∈ x.trace → e.isNeighbor = false)
    (hf : ∀ a e, e ∈ (f a).trace → e.isNeighbor = false) :
    ∀ e, e ∈ (Run.bind x f).trace → e.isNeighbor = false := by
  intro e h
  rcases Run.mem_bind_trace x f e h with h | ⟨a, _, h⟩
  · exact hx e h
  · exact hf a e h

theorem no_neighbor_lift {α : Type} (x : Except Fault α) :
    ∀ e, e ∈ (Run.lift x).trace → e.isNeighbor = false := by
  intro e h
  simp [Run.lift] at h

theorem no_neighbor_pure {α : Type} (a : α) :
    ∀ e, e ∈ (Run.pure a).trace → e.isNeighbor = false := by
  intro e h
  simp [Run.pure] at h

theorem gatherv_body_trace (av : Bool) (N cm sendcount : Int) (sendtype : MPI_Datatype)
    (recvcounts rdispls : List Int) (recvtype : MPI_Datatype) (root rank : Int) (i : Nat) :
    ∀ e, e ∈ (gatherv_body av N cm sendcount sendtype recvcounts rdispls recvtype root rank
      i).trace → e.isNeighbor = false := by
  simp only [gatherv_body, Bind.bind, Pure.pure]
  apply no_neighbor_bind _ _ (type_contiguous_x_commit_trace av N cm _ _)
  intro st
  split
  · exact no_neighbor_pure _
  · apply no_neighbor_bind _ _ (no_neighbor_lift _)
    intro c
    apply no_neighbor_bind _ _ (type_contiguous_x_commit_trace av N cm _ _)
    intro rt
    apply no_neighbor_bind _ _ (no_neighbor_lift _)
    intro d
    apply no_neighbor_bind _ _ (no_neighbor_lift _)
    intro d2
    exact no_neighbor_pure _

theorem scatterv_body_trace (av : Bool) (N cm : Int) (sendcounts sdispls : List Int)
    (sendtype : MPI_Datatype) (recvcount : Int) (recvtype : MPI_Datatype) (root rank : Int)
    (i : Nat) :
    ∀ e, e ∈ (scatterv_body av N cm sendcounts sdispls sendtype recvcount recvtype root rank
      i).trace → e.isNeighbor = false := by
  simp only [scatterv_body, Bind.bind, Pure.pure]
  apply no_neighbor_bind
  · split
    · exact no_neighbor_pure _
    · apply no_neighbor_bind _ _ (no_neighbor_lift _)
      intro c
      apply no_neighbor_bind _ _ (type_contiguous_x_commit_trace av N cm _ _)
      intro rt
      apply no_neighbor_bind _ _ (no_neighbor_lift _)
      intro d
      apply no_neighbor_bind _ _ (no_neighbor_lift _)
      intro d2
      exact no_neighbor_pure _
  · intro s
    apply no_neighbor_bind _ _ (type_contiguous_x_commit_trace av N cm _ _)
    intro rt
    exact no_neighbor_pure _

theorem alltoallw_body_trace (av : Bool) (N cm : Int) (sendcounts sdispls : List Int)
    (sendtypes : List MPI_Datatype) (recvcounts rdispls : List Int)
    (recvtypes : List MPI_Datatype) (i : Nat) :
    ∀ e, e ∈ (alltoallw_body av N cm sendcounts sdispls sendtypes recvcounts rdispls recvtypes
      i).trace → e.isNeighbor = false := by
  simp only [alltoallw_body, Bind.bind, Pure.pure]
  apply no_neighbor_bind _ _ (no_neighbor_lift _)
  intro c
  apply no_neighbor_bind _ _ (no_neighbor_lift _)
  intro t
  apply no_neighbor_bind _ _ (type_contiguous_x_commit_trace av N cm _ _)
  intro st
  apply no_neighbor_bind _ _ (no_neighbor_lift _)
  intro d
  apply no_neighbor_bind _ _ (no_neighbor_lift _)
  intro d2
  apply no_neighbor_bind _ _ (no_neighbor_lift _)
  intro c2
  apply no_neighbor_bind _ _ (no_neighbor_lift _)
  intro t2
  apply no_neighbor_bind _ _ (type_contiguous_x_commit_trace av N cm _ _)
  intro rt
  apply no_neighbor_bind _ _ (no_neighbor_lift _)
  intro d3
  apply no_neighbor_bind _ _ (no_neighbor_lift _)
  intro d4
  exact no_neighbor_pure _

/-- Off the root, every iteration of `MPIX_Gatherv_x` yields the same two slots. -/
theorem gatherv_body_off_root (av : Bool) (N cm sendcount : Int) (sendtype : MPI_Datatype)
    (recvcounts rdispls : List Int) (recvtype : MPI_Datatype) (root rank : Int)
    (newsendtype : MPI_Datatype) (hrank : rank ≠ root)
    (hsend : MPIX_Type_contiguous_x av N cm sendcount sendtype = .ok newsendtype) (i : Nat) :
    gatherv_body av N cm sendcount sendtype recvcounts rdispls recvtype root rank i
      = ⟨[.type_contiguous_x sendcount sendtype, .type_commit newsendtype],
          .ok (⟨1, newsendtype, 0⟩, ⟨0, .null, 0⟩)⟩ := by
  simp [gatherv_body, type_contiguous_x_commit, hsend, hrank, emit, Run.lift, Bind.bind,
    Run.bind, Pure.pure, Run.pure]

/-- Off the root, every iteration of `MPIX_Scatterv_x` yields the same two slots. -/
theorem scatterv_body_off_root (av : Bool) (N cm : Int) (sendcounts sdispls : List Int)
    (sendtype : MPI_Datatype) (recvcount : Int) (recvtype : MPI_Datatype) (root rank : Int)
    (newrecvtype : MPI_Datatype) (hrank : rank ≠ root)
    (hrecv : MPIX_Type_contiguous_x av N cm recvcount recvtype = .ok newrecvtype) (i : Nat) :
    scatterv_body av N cm sendcounts sdispls sendtype recvcount recvtype root rank i
      = ⟨[.type_contiguous_x recvcount recvtype, .type_commit newrecvtype],
          .ok (⟨0, .null, 0⟩, ⟨1, newrecvtype, 0⟩)⟩ := by
  simp [scatterv_body, type_contiguous_x_commit, hrecv, hrank, emit, Run.lift, Bind.bind,
    Run.bind, Pure.pure, Run.pure]

/-- On the root, the receive slot of iteration `i` of `MPIX_Gatherv_x`. -/
theorem gatherv_body_on_root (av : Bool) (N cm sendcount : Int) (sendtype : MPI_Datatype)
    (recvcounts rdispls : List Int) (recvtype : MPI_Datatype) (root : Int) (i : Nat)
    (s r : PeerEntry)
    (h : (gatherv_body av N cm sendcount sendtype recvcounts rdispls recvtype root root
      i).result = .ok (s, r)) :
    r.count = 1 ∧ ∃ count, recvcounts.get? i = some count
      ∧ MPIX_Type_contiguous_x av N cm count recvtype = .ok r.datatype := by
  simp only [gatherv_body, Bind.bind, Pure.pure, bne_self_eq_false, Bool.false_eq_true,
    if_false] at h
  obtain ⟨st, _, h⟩ := Run.bind_result_ok h
  obtain ⟨count, h2, h⟩ := Run.bind_result_ok h
  obtain ⟨rt, h3, h⟩ := Run.bind_result_ok h
  obtain ⟨d, _, h⟩ := Run.bind_result_ok h
  obtain ⟨d2, _, h⟩ := Run.bind_result_ok h
  simp only [Run.pure, Except.ok.injEq, Prod.mk.injEq] at h
  rw [type_contiguous_x_commit_result] at h3
  rw [← h.2]
  exact ⟨rfl, count, c_index_ok h2, h3⟩

/-- On the root, the send slot of iteration `i` of `MPIX_Scatterv_x`. -/
theorem scatterv_body_on_root (av : Bool) (N cm : Int) (sendcounts sdispls : List Int)
    (sendtype : MPI_Datatype) (recvcount : Int) (recvtype : MPI_Datatype) (root : Int) (i : Nat)
    (s r : PeerEntry)
    (h : (scatterv_body av N cm sendcounts sdispls sendtype recvcount recvtype root root
      i).result = .ok (s, r)) :
    s.count = 1 ∧ ∃ count, sendcounts.get? i = some count
      ∧ MPIX_Type_contiguous_x av N cm count sendtype = .ok s.datatype := by
  simp only [scatterv_body, Bind.bind, Pure.pure, bne_self_eq_false, Bool.false_eq_true,
    if_false] at h
  obtain ⟨s2, hs, h⟩ := Run.bind_result_ok h
  obtain ⟨rt, _, h⟩ := Run.bind_result_ok h
  simp only [Run.pure, Except.ok.injEq, Prod.mk.injEq] at h
  obtain ⟨count, h2, hs⟩ := Run.bind_result_ok hs
  obtain ⟨st, h3, hs⟩ := Run.bind_result_ok hs
  obtain ⟨d, _, hs⟩ := Run.bind_result_ok hs
  obtain ⟨d2, _, hs⟩ := Run.bind_result_ok hs
  simp only [Run.pure, Except.ok.injEq] at hs
  rw [type_contiguous_x_commit_result] at h3
  rw [← h.1, ← hs]
  exact ⟨rfl, count, c_index_ok h2, h3⟩


theorem map_eq_replicate {α β : Type} (f : α → β) (b : β) :
    ∀ (l : List α), (∀ a, a ∈ l → f a = b) → l.map f = List.replicate l.length b
  | [], _ => rfl
  | a :: l, h => by
    simp only [List.map_cons, List.length_cons, List.replicate_succ]
    rw [h a (List.mem_cons_self a l),
      map_eq_replicate f b l (fun x hx => h x (List.mem_cons_of_mem a hx))]

/-- C12: in the topology-routed build, on a rank other than the root,
`MPIX_Gatherv_x` hands `MPI_Neighbor_alltoallw` receive vectors whose every
slot is count 0, `MPI_DATATYPE_NULL`, displacement 0, and `MPIX_Scatterv_x`
hands it send vectors of the same kind; on the root, slot `i` of the
receive vectors of `MPIX_Gatherv_x` (of the send vectors of
`MPIX_Scatterv_x`) has count 1 and the type
`MPIX_Type_contiguous_x(recvcounts[i], recvtype)` (`sendcounts[i]`,
`sendtype`).  The exchange is reached when the type constructions before it
return. -/
theorem rooted_collective_vectors (av : Bool) (N cm : Int) (tr : Transport)
    (sendbuf recvbuf : Buffer) (root : Int) (comm : MPI_Comm)
    (hinter : comm.is_inter = false) (hplace : sendbuf ≠ .in_place) :
    (∀ sendcount sendtype recvcounts rdispls recvtype newsendtype, comm.rank ≠ root →
      MPIX_Type_contiguous_x av N cm sendcount sendtype = .ok newsendtype →
      (MPIX_Gatherv_x av N cm tr sendbuf sendcount sendtype recvbuf recvcounts rdispls recvtype
          root comm).trace.filter Event.isNeighbor
        = [.neighbor_alltoallw .pointer_table
            (List.replicate comm.size.toNat 1) (List.replicate comm.size.toNat 0)
            (List.replicate comm.size.toNat newsendtype) recvbuf
            (List.replicate comm.size.toNat 0) (List.replicate comm.size.toNat 0)
            (List.replicate comm.size.toNat .null)])
    ∧ (∀ sendcounts sdispls sendtype recvcount recvtype newrecvtype, comm.rank ≠ root →
      MPIX_Type_contiguous_x av N cm recvcount recvtype = .ok newrecvtype →
      (MPIX_Scatterv_x av N cm tr sendbuf sendcounts sdispls sendtype recvbuf recvcount recvtype
          root comm).trace.filter Event.isNeighbor
        = [.neighbor_alltoallw sendbuf
            (List.replicate comm.size.toNat 0) (List.replicate comm.size.toNat 0)
            (List.replicate comm.size.toNat .null) .pointer_table
            (List.replicate comm.size.toNat 1) (List.replicate comm.size.toNat 0)
            (List.replicate comm.size.toNat newrecvtype)])
    ∧ (∀ sendcount sendtype recvcounts rdispls recvtype, comm.rank = root →
      (∀ i, i < comm.size.toNat → ∃ x, (gatherv_body av N cm sendcount sendtype recvcounts
        rdispls recvtype root comm.rank i).result = .ok x) →
      ∃ sc sd st rd rt,
        (MPIX_Gatherv_x av N cm tr sendbuf sendcount sendtype recvbuf recvcounts rdispls
            recvtype root comm).trace.filter Event.isNeighbor
          = [.neighbor_alltoallw .pointer_table sc sd st recvbuf
              (List.replicate comm.size.toNat 1) rd rt]
        ∧ ∀ i, i < comm.size.toNat → ∃ count newtype, recvcounts.get? i = some count
            ∧ MPIX_Type_contiguous_x av N cm count recvtype = .ok newtype
            ∧ rt.get? i = some newtype)
    ∧ (∀ sendcounts sdispls sendtype recvcount recvtype, comm.rank = root →
      (∀ i, i < comm.size.toNat → ∃ x, (scatterv_body av N cm sendcounts sdispls sendtype
        recvcount recvtype root comm.rank i).result = .ok x) →
      ∃ sd st rc rd rt,
        (MPIX_Scatterv_x av N cm tr sendbuf sendcounts sdispls sendtype recvbuf recvcount
            recvtype root comm).trace.filter Event.isNeighbor
          = [.neighbor_alltoallw sendbuf (List.replicate comm.size.toNat 1) sd st
              .pointer_table rc rd rt]
        ∧ ∀ i, i < comm.size.toNat → ∃ count newtype, sendcounts.get? i = some count
            ∧ MPIX_Type_contiguous_x av N cm count sendtype = .ok newtype
            ∧ st.get? i = some newtype) := by
  refine ⟨?_, ?_, ?_, ?_⟩
  · intro sendcount sendtype recvcounts rdispls recvtype newsendtype hrank hsend
    have hloop := for_loop_const _ _ _
      (gatherv_body_off_root av N cm sendcount sendtype recvcounts rdispls recvtype root
        comm.rank newsendtype hrank hsend) comm.size.toNat 0
    rw [gatherv_x_unfold av N cm tr sendbuf recvbuf sendcount sendtype recvcounts rdispls
        recvtype root comm hinter hplace,
      loop_then_exchange_calls tr root _ _ _
        (for_loop_trace _ _ (gatherv_body_trace av N cm sendcount sendtype recvcounts rdispls
          recvtype root comm.rank) _ _) _ hloop]
    simp
  · intro sendcounts sdispls sendtype recvcount recvtype newrecvtype hrank hrecv
    have hloop := for_loop_const _ _ _
      (scatterv_body_off_root av N cm sendcounts sdispls sendtype recvcount recvtype root
        comm.rank newrecvtype hrank hrecv) comm.size.toNat 0
    rw [scatterv_x_unfold av N cm tr sendbuf recvbuf sendcounts sdispls sendtype recvcount
        recvtype root comm hinter hplace,
      loop_then_exchange_calls tr root _ _ _
        (for_loop_trace _ _ (scatterv_body_trace av N cm sendcounts sdispls sendtype recvcount
          recvtype root comm.rank) _ _) _ hloop]
    simp
  · intro sendcount sendtype recvcounts rdispls recvtype hrank hbody
    obtain ⟨entries, hloop⟩ := for_loop_returns (gatherv_body av N cm sendcount sendtype
      recvcounts rdispls recvtype root comm.rank) comm.size.toNat 0
      (fun k hk => by rw [Nat.zero_add]; exact hbody k hk)
    obtain ⟨hlen, hget⟩ := for_loop_values _ _ _ _ hloop
    have hspec : ∀ k, k < comm.size.toNat → ∃ p, entries.get? k = some p ∧ p.2.count = 1
        ∧ ∃ count, recvcounts.get? k = some count
          ∧ MPIX_Type_contiguous_x av N cm count recvtype = .ok p.2.datatype := by
      intro k hk
      obtain ⟨x, hx, hg⟩ := hget k hk
      rw [Nat.zero_add, hrank] at hx
      exact ⟨x, hg, gatherv_body_on_root av N cm sendcount sendtype recvcounts rdispls recvtype
        root k x.1 x.2 hx⟩
    refine ⟨(entries.map Prod.fst).map PeerEntry.count, (entries.map Prod.fst).map PeerEntry.displ,
      (entries.map Prod.fst).map PeerEntry.datatype, (entries.map Prod.snd).map PeerEntry.displ,
      (entries.map Prod.snd).map PeerEntry.datatype, ?_, ?_⟩
    · rw [gatherv_x_unfold av N cm tr sendbuf recvbuf sendcount sendtype recvcounts rdispls
          recvtype root comm hinter hplace,
        loop_then_exchange_calls tr root _ _ _
          (for_loop_trace _ _ (gatherv_body_trace av N cm sendcount sendtype recvcounts rdispls
            recvtype root comm.rank) _ _) _ hloop]
      have hc : (entries.map Prod.snd).map PeerEntry.count
          = List.replicate comm.size.toNat 1 := by
        rw [List.map_map, ← hlen]
        apply map_eq_replicate
        intro p hp
        obtain ⟨k, hk, hkp⟩ := List.getElem_of_mem hp
        obtain ⟨q, hq, hq1, _⟩ := hspec k (by rw [← hlen]; exact hk)
        rw [List.get?_eq_getElem?, List.getElem?_eq_getElem hk, hkp] at hq
        injection hq with hq
        subst hq
        exact hq1
      rw [hc]
    · intro i hi
      obtain ⟨p, hp, _, count, hcount, henc⟩ := hspec i hi
      refine ⟨count, p.2.datatype, hcount, henc, ?_⟩
      simp only [List.get?_eq_getElem?, List.getElem?_map] at hp ⊢
      rw [hp]
      rfl
  · intro sendcounts sdispls sendtype recvcount recvtype hrank hbody
    obtain ⟨entries, hloop⟩ := for_loop_returns (scatterv_body av N cm sendcounts sdispls
      sendtype recvcount recvtype root comm.rank) comm.size.toNat 0
      (fun k hk => by rw [Nat.zero_add]; exact hbody k hk)
    obtain ⟨hlen, hget⟩ := for_loop_values _ _ _ _ hloop
    have hspec : ∀ k, k < comm.size.toNat → ∃ p, entries.get? k = some p ∧ p.1.count = 1
        ∧ ∃ count, sendcounts.get? k = some count
          ∧ MPIX_Type_contiguous_x av N cm count sendtype = .ok p.1.datatype := by
      intro k hk
      obtain ⟨x, hx, hg⟩ := hget k hk
      rw [Nat.zero_add, hrank] at hx
      exact ⟨x, hg, scatterv_body_on_root av N cm sendcounts sdispls sendtype recvcount recvtype
        root k x.1 x.2 hx⟩
    refine ⟨(entries.map Prod.fst).map PeerEntry.displ,
      (entries.map Prod.fst).map PeerEntry.datatype, (entries.map Prod.snd).map PeerEntry.count,
      (entries.map Prod.snd).map PeerEntry.displ, (entries.map Prod.snd).map PeerEntry.datatype,
      ?_, ?_⟩
    · rw [scatterv_x_unfold av N cm tr sendbuf recvbuf sendcounts sdispls sendtype recvcount
          recvtype root comm hinter hplace,
        loop_then_exchange_calls tr root _ _ _
          (for_loop_trace _ _ (scatterv_body_trace av N cm sendcounts sdispls sendtype recvcount
            recvtype root comm.rank) _ _) _ hloop]
      have hc : (entries.map Prod.fst).map PeerEntry.count
          = List.replicate comm.size.toNat 1 := by
        rw [List.map_map, ← hlen]
        apply map_eq_replicate
        intro p hp
        obtain ⟨k, hk, hkp⟩ := List.getElem_of_mem hp
        obtain ⟨q, hq, hq1, _⟩ := hspec k (by rw [← hlen]; exact hk)
        rw [List.get?_eq_getElem?, List.getElem?_eq_getElem hk, hkp] at hq
        injection hq with hq
        subst hq
        exact hq1
      rw [hc]
    · intro i hi
      obtain ⟨p, hp, _, count, hcount, henc⟩ := hspec i hi
      refine ⟨count, p.1.datatype, hcount, henc, ?_⟩
      simp only [List.get?_eq_getElem?, List.getElem?_map] at hp ⊢
      rw [hp]
      rfl

theorem rooted_collective_vectors_witness :
    (MPIX_Gatherv_x false 2147483647 4611686014132420609 ⟨fun _ => 0, fun _ => 1, fun _ => false⟩
        (.addr 0 0) 2147483648 (.named 0 0 4) (.addr 1 0) [2147483648, 2147483648]
        [0, 2147483648] (.named 0 0 4) 0 ⟨false, 2, 1⟩).trace.filter Event.isNeighbor
      = [.neighbor_alltoallw .pointer_table
          (List.replicate (2 : Int).toNat 1) (List.replicate (2 : Int).toNat 0)
          (List.replicate (2 : Int).toNat (.struct [1, 1] [0, 8589934588]
            [.vector 1 2147483647 2147483647 (.named 0 0 4), .contiguous 1 (.named 0 0 4)]))
          (.addr 1 0)
          (List.replicate (2 : Int).toNat 0) (List.replicate (2 : Int).toNat 0)
          (List.replicate (2 : Int).toNat .null)] :=
  (rooted_collective_vectors false 2147483647 4611686014132420609
    ⟨fun _ => 0, fun _ => 1, fun _ => false⟩ (.addr 0 0) (.addr 1 0) 0 ⟨false, 2, 1⟩ rfl
    (by decide)).1 2147483648 (.named 0 0 4) [2147483648, 2147483648] [0, 2147483648]
    (.named 0 0 4) _ (by decide) rfl

/-- On the root of `MPIX_Gatherv_x` the receive vectors are the converted ones. -/
theorem gatherv_x_on_root_run :
    (MPIX_Gatherv_x false 2147483647 4611686014132420609 ⟨fun _ => 0, fun _ => 1, fun _ => false⟩
        (.addr 0 0) 5 (.named 0 0 4) (.addr 1 0) [2147483648, 4294967294]
        [0, 4294967294] (.named 0 0 4) 0 ⟨false, 2, 0⟩).trace.filter Event.isNeighbor
      = [.neighbor_alltoallw .pointer_table [1, 1] [0, 0]
          [.struct [1, 1] [0, 0]
            [.vector 0 2147483647 2147483647 (.named 0 0 4), .contiguous 5 (.named 0 0 4)],
           .struct [1, 1] [0, 0]
            [.vector 0 2147483647 2147483647 (.named 0 0 4), .contiguous 5 (.named 0 0 4)]]
          (.addr 1 0) [1, 1] [0, 1]
          [.struct [1, 1] [0, 8589934588]
            [.vector 1 2147483647 2147483647 (.named 0 0 4), .contiguous 1 (.named 0 0 4)],
           .struct [1, 1] [0, 17179869176]
            [.vector 2 2147483647 2147483647 (.named 0 0 4), .contiguous 0 (.named 0 0 4)]]] :=
  rfl

/-- Values of one iteration of `MPIX_Alltoallw_x`. -/
theorem alltoallw_body_spec (av : Bool) (N cm : Int) (sendcounts sdispls : List Int)
    (sendtypes : List MPI_Datatype) (recvcounts rdispls : List Int)
    (recvtypes : List MPI_Datatype) (i : Nat) (s r : PeerEntry)
    (h : (alltoallw_body av N cm sendcounts sdispls sendtypes recvcounts rdispls recvtypes
      i).result = .ok (s, r)) :
    (s.count = 1 ∧ ∃ count t, sendcounts.get? i = some count ∧ sendtypes.get? i = some t
      ∧ MPIX_Type_contiguous_x av N cm count t = .ok s.datatype)
    ∧ (r.count = 1 ∧ ∃ count t, recvcounts.get? i = some count ∧ recvtypes.get? i = some t
      ∧ MPIX_Type_contiguous_x av N cm count t = .ok r.datatype) := by
  simp only [alltoallw_body, Bind.bind, Pure.pure] at h
  obtain ⟨sc, h1, h⟩ := Run.bind_result_ok h
  obtain ⟨st, h2, h⟩ := Run.bind_result_ok h
  obtain ⟨nst, h3, h⟩ := Run.bind_result_ok h
  obtain ⟨sd, _, h⟩ := Run.bind_result_ok h
  obtain ⟨sd2, _, h⟩ := Run.bind_result_ok h
  obtain ⟨rc, h4, h⟩ := Run.bind_result_ok h
  obtain ⟨rt, h5, h⟩ := Run.bind_result_ok h
  obtain ⟨nrt, h6, h⟩ := Run.bind_result_ok h
  obtain ⟨rd, _, h⟩ := Run.bind_result_ok h
  obtain ⟨rd2, _, h⟩ := Run.bind_result_ok h
  simp only [Run.pure, Except.ok.injEq, Prod.mk.injEq] at h
  rw [type_contiguous_x_commit_result] at h3 h6
  rw [← h.1, ← h.2]
  exact ⟨⟨rfl, sc, st, c_index_ok h1, c_index_ok h2, h3⟩,
    ⟨rfl, rc, rt, c_index_ok h4, c_index_ok h5, h6⟩⟩

/-- `MPIX_Alltoallw_x` does what C13 says: when its type constructions
return, it makes exactly one neighbor exchange, and slot `i` of the send and
of the receive vectors has count 1 and the type built from that peer's count
and type. -/
theorem alltoallw_x_vectors (av : Bool) (N cm : Int) (tr : Transport)
    (sendbuf recvbuf : Buffer) (sendcounts sdispls : List Int) (sendtypes : List MPI_Datatype)
    (recvcounts rdispls : List Int) (recvtypes : List MPI_Datatype) (comm : MPI_Comm)
    (hinter : comm.is_inter = false) (hplace : sendbuf ≠ .in_place)
    (hbody : ∀ i, i < comm.size.toNat → ∃ x, (alltoallw_body av N cm sendcounts sdispls
      sendtypes recvcounts rdispls recvtypes i).result = .ok x) :
    ∃ sc sd st rc rd rt,
      (MPIX_Alltoallw_x av N cm tr sendbuf sendcounts sdispls sendtypes recvbuf recvcounts
          rdispls recvtypes comm).trace.filter Event.isNeighbor
        = [.neighbor_alltoallw sendbuf sc sd st recvbuf rc rd rt]
      ∧ ∀ i, i < comm.size.toNat →
          sc.get? i = some 1 ∧ rc.get? i = some 1
          ∧ (∃ count t newtype, sendcounts.get? i = some count ∧ sendtypes.get? i = some t
              ∧ MPIX_Type_contiguous_x av N cm count t = .ok newtype ∧ st.get? i = some newtype)
          ∧ (∃ count t newtype, recvcounts.get? i = some count ∧ recvtypes.get? i = some t
              ∧ MPIX_Type_contiguous_x av N cm count t = .ok newtype
              ∧ rt.get? i = some newtype) := by
  obtain ⟨entries, hloop⟩ := for_loop_returns (alltoallw_body av N cm sendcounts sdispls
    sendtypes recvcounts rdispls recvtypes) comm.size.toNat 0
    (fun k hk => by rw [Nat.zero_add]; exact hbody k hk)
  obtain ⟨_, hget⟩ := for_loop_values _ _ _ _ hloop
  refine ⟨(entries.map Prod.fst).map PeerEntry.count, (entries.map Prod.fst).map PeerEntry.displ,
    (entries.map Prod.fst).map PeerEntry.datatype, (entries.map Prod.snd).map PeerEntry.count,
    (entries.map Prod.snd).map PeerEntry.displ, (entries.map Prod.snd).map PeerEntry.datatype,
    ?_, ?_⟩
  · rw [alltoallw_x_unfold av N cm tr sendbuf recvbuf sendcounts sdispls sendtypes recvcounts
        rdispls recvtypes comm hinter hplace,
      loop_then_exchange_calls tr (-1) _ _ _
        (for_loop_trace _ _ (alltoallw_body_trace av N cm sendcounts sdispls sendtypes
          recvcounts rdispls recvtypes) _ _) _ hloop]
  · intro i hi
    obtain ⟨x, hx, hg⟩ := hget i hi
    rw [Nat.zero_add] at hx
    obtain ⟨⟨hs1, sc, st, g1, g2, g3⟩, ⟨hr1, rc, rt, g4, g5, g6⟩⟩ :=
      alltoallw_body_spec av N cm sendcounts sdispls sendtypes recvcounts rdispls recvtypes i
        x.1 x.2 hx
    simp only [List.get?_eq_getElem?, List.getElem?_map] at hg g1 g2 g4 g5 ⊢
    rw [hg]
    exact ⟨by simp [hs1], by simp [hr1], ⟨sc, st, _, g1, g2, g3, rfl⟩,
      ⟨rc, rt, _, g4, g5, g6, rfl⟩⟩

/-- C13 (fails on the code): in the topology-routed build `MPIX_Allgatherv_x`
and `MPIX_Alltoallv_x`, called on an intra-communicator of two ranks with
counts above `INT_MAX`, build no vector, make no call at all (no neighbor
exchange) and return `MPI_SUCCESS`.  `MPIX_Alltoallw_x` does make the single
exchange (`alltoallw_x_vectors`). -/
theorem allgatherv_alltoallv_exchange_nothing :
    MPIX_Allgatherv_x (.addr 0 0) 2147483648 (.named 0 0 4) (.addr 1 0)
        [2147483648, 2147483649] [0, 2147483648] (.named 0 0 4) ⟨false, 2, 0⟩
      = ⟨[], .ok MPI_SUCCESS⟩
    ∧ MPIX_Alltoallv_x (.addr 0 0) [2147483648, 2147483649] [0, 2147483648] (.named 0 0 4)
        (.addr 1 0) [2147483648, 2147483649] [0, 2147483648] (.named 0 0 4) ⟨false, 2, 0⟩
      = ⟨[], .ok MPI_SUCCESS⟩
    ∧ (MPIX_Alltoallw_x false 2147483647 4611686014132420609
        ⟨fun _ => 0, fun _ => 1, fun _ => false⟩ (.addr 0 0) [2147483648, 2147483649]
        [0, 2147483648] [.named 0 0 4, .named 0 0 4] (.addr 1 0) [2147483648, 2147483649]
        [0, 2147483648] [.named 0 0 4, .named 0 0 4]
        ⟨false, 2, 0⟩).trace.filter Event.isNeighbor
      = [.neighbor_alltoallw (.addr 0 0) [1, 1] [0, 0]
          [.struct [1, 1] [0, 8589934588]
            [.vector 1 2147483647 2147483647 (.named 0 0 4), .contiguous 1 (.named 0 0 4)],
           .struct [1, 1] [0, 8589934588]
            [.vector 1 2147483647 2147483647 (.named 0 0 4), .contiguous 2 (.named 0 0 4)]]
          (.addr 1 0) [1, 1] [0, 0]
          [.struct [1, 1] [0, 8589934588]
            [.vector 1 2147483647 2147483647 (.named 0 0 4), .contiguous 1 (.named 0 0 4)],
           .struct [1, 1] [0, 8589934588]
            [.vector 1 2147483647 2147483647 (.named 0 0 4), .contiguous 2 (.named 0 0 4)]]] :=
  ⟨rfl, rfl, rfl⟩

/-! ### `BigMPI_Collective` -/

theorem rma_offset_of_peer_end (recvcounts recvdispls : List Int)
    (recvtypes : List MPI_Datatype) (i : Nat) (o : Int)
    (h : peer_end recvcounts recvdispls recvtypes i = some o)
    (h1 : -INT64_MAX - 1 ≤ o) (h2 : o ≤ INT64_MAX) :
    rma_offset recvcounts recvdispls recvtypes i = .ok o := by
  unfold peer_end at h
  split at h
  · rename_i d c t hd hc ht
    split at h
    · rename_i lb e he
      injection h with h
      subst h
      have h1' : -9223372036854775808 ≤ d + c * e := by
        simp only [INT64_MAX] at h1; linarith
      have h2' : d + c * e ≤ 9223372036854775807 := h2
      simp only [rma_offset, c_index_of_get hd, c_index_of_get hc, c_index_of_get ht, he, bind,
        Except.bind, to_int64_of_range h1' h2']
    · simp at h
  · simp at h

/-- The window-size loop returns the largest of its starting value and the
offsets of its iterations. -/
theorem rma_max_size_spec (recvcounts recvdispls : List Int) (recvtypes : List MPI_Datatype)
    (off : Nat → Int) :
    ∀ (n i : Nat) (m : Int),
      (∀ k, k < n → rma_offset recvcounts recvdispls recvtypes (i + k) = .ok (off (i + k))) →
      ∃ s, rma_max_size recvcounts recvdispls recvtypes n i m = .ok s
        ∧ m ≤ s ∧ (∀ k, k < n → off (i + k) ≤ s)
        ∧ (s = m ∨ ∃ k, k < n ∧ s = off (i + k))
  | 0, _, m, _ => ⟨m, rfl, le_refl m, fun k hk => absurd hk (Nat.not_lt_zero k), Or.inl rfl⟩
  | n + 1, i, m, h => by
    have h0 := h 0 (Nat.succ_pos n)
    rw [Nat.add_zero] at h0
    obtain ⟨s, hs, hm, hall, hex⟩ := rma_max_size_spec recvcounts recvdispls recvtypes off n
      (i + 1) (if off i > m then off i else m) (fun k hk => by
        have := h (k + 1) (Nat.succ_lt_succ hk)
        rwa [show i + (k + 1) = i + 1 + k by omega] at this)
    refine ⟨s, ?_, ?_, ?_, ?_⟩
    · simp only [rma_max_size, h0, bind, Except.bind]
      exact hs
    · split at hm <;> omega
    · intro k hk
      cases k with
      | zero => rw [Nat.add_zero]; split at hm <;> omega
      | succ k =>
        have := hall k (Nat.lt_of_succ_lt_succ hk)
        rwa [show i + 1 + k = i + (k + 1) by omega] at this
    · rcases hex with hex | ⟨k, hk, hex⟩
      · split at hex
        · exact Or.inr ⟨0, Nat.succ_pos n, by rw [Nat.add_zero]; exact hex⟩
        · exact Or.inl hex
      · exact Or.inr ⟨k + 1, Nat.succ_lt_succ hk, by
          rw [show i + (k + 1) = i + 1 + k by omega]; exact hex⟩

theorem collective_rma_unfold (nb : Run Int) (coll : collective_t) (sendbuf recvbuf : Buffer)
    (sendcount recvcount root : Int) (sendcounts senddispls recvcounts recvdispls : List Int)
    (sendtype recvtype : MPI_Datatype) (sendtypes recvtypes : List MPI_Datatype)
    (comm : MPI_Comm) (hinter : comm.is_inter = false) (hplace : sendbuf ≠ .in_place)
    (s : Int)
    (hs : rma_max_size recvcounts recvdispls recvtypes comm.size.toNat 0 0 = .ok s) :
    BigMPI_Collective nb coll .RMA sendbuf sendcount sendcounts senddispls sendtype sendtypes
        recvbuf recvcount recvcounts recvdispls recvtype recvtypes root comm
      = Run.bind (emit (.win_create recvbuf s 1)) (fun _ =>
        Run.bind (emit .win_fence) (fun _ =>
        Run.bind (for_loop (rma_put_body sendbuf sendcounts senddispls sendtypes recvdispls
          recvtypes) comm.size.toNat 0) (fun _ =>
        Run.bind (emit .win_fence) (fun _ =>
        Run.bind (emit .win_free) (fun _ => Run.pure MPI_SUCCESS))))) := by
  simp only [BigMPI_Collective, hinter, hplace, Bind.bind, Pure.pure, Bool.false_eq_true,
    if_false, hs]
  simp [Run.bind, Run.pure, Run.lift]

/-- C14: in the one-sided strategy of `BigMPI_Collective` the size passed to
`MPI_Win_create` is the maximum of 0 and of
`recvdispls[i] + recvcounts[i] * extent(recvtypes[i])` over the peers `i` of
the communicator: it is at least 0 and at least each of these values, and it
is 0 or one of them.  Each value is assumed to fit `MPI_Aint`. -/
theorem rma_window_size (nb : Run Int) (coll : collective_t) (sendbuf recvbuf : Buffer)
    (sendcount recvcount root : Int) (sendcounts senddispls recvcounts recvdispls : List Int)
    (sendtype recvtype : MPI_Datatype) (sendtypes recvtypes : List MPI_Datatype)
    (comm : MPI_Comm) (hinter : comm.is_inter = false) (hplace : sendbuf ≠ .in_place)
    (hfit : ∀ i, i < comm.size.toNat → ∃ o, peer_end recvcounts recvdispls recvtypes i = some o
      ∧ -INT64_MAX - 1 ≤ o ∧ o ≤ INT64_MAX) :
    ∃ size,
      (BigMPI_Collective nb coll .RMA sendbuf sendcount sendcounts senddispls sendtype sendtypes
        recvbuf recvcount recvcounts recvdispls recvtype recvtypes root comm).trace.head?
        = some (.win_create recvbuf size 1)
      ∧ 0 ≤ size
      ∧ (∀ i o, i < comm.size.toNat → peer_end recvcounts recvdispls recvtypes i = some o →
          o ≤ size)
      ∧ (size = 0 ∨ ∃ i, i < comm.size.toNat
          ∧ peer_end recvcounts recvdispls recvtypes i = some size) := by
  have hoff : ∀ k, k < comm.size.toNat →
      rma_offset recvcounts recvdispls recvtypes (0 + k)
        = .ok ((fun j => (peer_end recvcounts recvdispls recvtypes j).getD 0) (0 + k)) := by
    intro k hk
    obtain ⟨o, ho, h1, h2⟩ := hfit k hk
    rw [Nat.zero_add]
    simp only [ho, Option.getD_some]
    exact rma_offset_of_peer_end recvcounts recvdispls recvtypes k o ho h1 h2
  obtain ⟨s, hs, h0, hall, hex⟩ := rma_max_size_spec recvcounts recvdispls recvtypes
    (fun j => (peer_end recvcounts recvdispls recvtypes j).getD 0) comm.size.toNat 0 0 hoff
  refine ⟨s, ?_, h0, ?_, ?_⟩
  · rw [collective_rma_unfold nb coll sendbuf recvbuf sendcount recvcount root sendcounts
      senddispls recvcounts recvdispls sendtype recvtype sendtypes recvtypes comm hinter hplace
      s hs]
    simp only [Run.bind, emit]
    rfl
  · intro i o hi ho
    have := hall i hi
    simp only [Nat.zero_add, ho, Option.getD_some] at this
    exact this
  · rcases hex with hex | ⟨k, hk, hex⟩
    · exact Or.inl hex
    · obtain ⟨o, ho, _, _⟩ := hfit k hk
      simp only [Nat.zero_add, ho, Option.getD_some] at hex
      exact Or.inr ⟨k, hk, by rw [hex]; exact ho⟩


theorem rma_window_size_witness :
    ∃ size,
      (BigMPI_Collective (Run.pure 0) .ALLTOALLW .RMA (.addr 0 0) 0 [5, 6] [0, 20] .null
        [.named 0 0 4, .named 0 0 4] (.addr 1 0) 0 [7, 8] [0, 28] .null
        [.named 0 0 4, .named 0 0 4] (-1) ⟨false, 2, 0⟩).trace.head?
        = some (.win_create (.addr 1 0) size 1)
      ∧ 0 ≤ size
      ∧ (∀ i o, i < (2 : Int).toNat →
          peer_end [7, 8] [0, 28] [.named 0 0 4, .named 0 0 4] i = some o → o ≤ size)
      ∧ (size = 0 ∨ ∃ i, i < (2 : Int).toNat
          ∧ peer_end [7, 8] [0, 28] [.named 0 0 4, .named 0 0 4] i = some size) :=
  rma_window_size (Run.pure 0) .ALLTOALLW (.addr 0 0) (.addr 1 0) 0 0 (-1) [5, 6] [0, 20] [7, 8]
    [0, 28] .null .null [.named 0 0 4, .named 0 0 4] [.named 0 0 4, .named 0 0 4]
    ⟨false, 2, 0⟩ rfl (by decide)
    (fun i hi => by
      have hi2 : i < 2 := hi
      interval_cases i
      · exact ⟨28, rfl, by decide, by decide⟩
      · exact ⟨60, rfl, by decide, by decide⟩)

/-- A loop whose iterations return: its calls are those of the iterations, in order. -/
theorem for_loop_calls {α : Type} (body : Nat → Run α) (t : Nat → List Event) (x : Nat → α) :
    ∀ (n i : Nat), (∀ k, k < n → body (i + k) = ⟨t (i + k), .ok (x (i + k))⟩) →
      for_loop body n i = ⟨(List.range' i n).flatMap t, .ok ((List.range' i n).map x)⟩
  | 0, _, _ => rfl
  | n + 1, i, h => by
    have h0 := h 0 (Nat.succ_pos n)
    rw [Nat.add_zero] at h0
    have hrec := for_loop_calls body t x n (i + 1) (fun k hk => by
      have := h (k + 1) (Nat.succ_lt_succ hk)
      rwa [show i + (k + 1) = i + 1 + k by omega] at this)
    unfold for_loop
    rw [h0, hrec]
    simp [Run.bind, Run.pure, List.range'_succ]

theorem filter_flatMap_length (p : Event → Bool) (t : Nat → List Event)
    (h : ∀ i, ((t i).filter p).length = 1) :
    ∀ (l : List Nat), ((l.flatMap t).filter p).length = l.length
  | [] => rfl
  | a :: l => by
    rw [List.flatMap_cons, List.filter_append, List.length_append, h a,
      filter_flatMap_length p t h l, List.length_cons]
    omega

/-- The calls the point-to-point strategy makes for peer `i`. -/
theorem p2p_body_calls (size : Int) (sendbuf recvbuf : Buffer)
    (sendcounts senddispls recvcounts recvdispls : List Int)
    (sendtypes recvtypes : List MPI_Datatype) (i : Nat)
    (h : ∃ rd rc rt sd sc st, recvdispls.get? i = some rd ∧ recvcounts.get? i = some rc
      ∧ recvtypes.get? i = some rt ∧ senddispls.get? i = some sd
      ∧ sendcounts.get? i = some sc ∧ sendtypes.get? i = some st) :
    p2p_body size sendbuf sendcounts senddispls sendtypes recvbuf recvcounts recvdispls
        recvtypes i
      = ⟨[.irecv_x (recvbuf.plus (recvdispls.getD i 0)) (recvcounts.getD i 0)
            (recvtypes.getD i .null) i i i,
          .isend_x (sendbuf.plus (senddispls.getD i 0)) (sendcounts.getD i 0)
            (sendtypes.getD i .null) i i (size + i)], .ok ()⟩ := by
  obtain ⟨rd, rc, rt, sd, sc, st, h1, h2, h3, h4, h5, h6⟩ := h
  have g1 := c_index_of_get h1
  have g2 := c_index_of_get h2
  have g3 := c_index_of_get h3
  have g4 := c_index_of_get h4
  have g5 := c_index_of_get h5
  have g6 := c_index_of_get h6
  simp only [List.get?_eq_getElem?] at h1 h2 h3 h4 h5 h6
  simp [p2p_body, g1, g2, g3, g4, g5, g6, List.getD, h1, h2, h3, h4, h5, h6, emit, Run.lift,
    Bind.bind, Run.bind, Pure.pure, Run.pure]

/-- C20: in the point-to-point strategy of `BigMPI_Collective`, on a
communicator of `N` ranks, the calls are, for each peer `i` in ascending
order, one `MPIX_Irecv_x` of `(recvcounts[i], recvtypes[i])` at
`recvbuf + recvdispls[i]` from peer `i` and one `MPIX_Isend_x` of
`(sendcounts[i], sendtypes[i])` at `sendbuf + senddispls[i]` to peer `i`,
with the original counts, types and displacements, and then one
`MPI_Waitall` on `2N` requests: `N` receives, `N` sends, no conversion. -/
theorem collective_p2p_calls (nb : Run Int) (coll : collective_t) (sendbuf recvbuf : Buffer)
    (sendcount recvcount root : Int) (sendcounts senddispls recvcounts recvdispls : List Int)
    (sendtype recvtype : MPI_Datatype) (sendtypes recvtypes : List MPI_Datatype)
    (comm : MPI_Comm) (hinter : comm.is_inter = false) (hplace : sendbuf ≠ .in_place)
    (hlen : ∀ i, i < comm.size.toNat → ∃ rd rc rt sd sc st,
      recvdispls.get? i = some rd ∧ recvcounts.get? i = some rc ∧ recvtypes.get? i = some rt
      ∧ senddispls.get? i = some sd ∧ sendcounts.get? i = some sc
      ∧ sendtypes.get? i = some st) :
    BigMPI_Collective nb coll .P2P sendbuf sendcount sendcounts senddispls sendtype sendtypes
        recvbuf recvcount recvcounts recvdispls recvtype recvtypes root comm
      = ⟨(List.range' 0 comm.size.toNat).flatMap (fun i =>
            [.irecv_x (recvbuf.plus (recvdispls.getD i 0)) (recvcounts.getD i 0)
              (recvtypes.getD i .null) i i i,
             .isend_x (sendbuf.plus (senddispls.getD i 0)) (sendcounts.getD i 0)
              (sendtypes.getD i .null) i i (comm.size + i)])
          ++ [.waitall (2 * comm.size)], .ok MPI_SUCCESS⟩
    ∧ ((BigMPI_Collective nb coll .P2P sendbuf sendcount sendcounts senddispls sendtype
        sendtypes recvbuf recvcount recvcounts recvdispls recvtype recvtypes root
        comm).trace.filter Event.isRecv).length = comm.size.toNat
    ∧ ((BigMPI_Collective nb coll .P2P sendbuf sendcount sendcounts senddispls sendtype
        sendtypes recvbuf recvcount recvcounts recvdispls recvtype recvtypes root
        comm).trace.filter Event.isSend).length = comm.size.toNat
    ∧ (BigMPI_Collective nb coll .P2P sendbuf sendcount sendcounts senddispls sendtype
        sendtypes recvbuf recvcount recvcounts recvdispls recvtype recvtypes root
        comm).trace.filter Event.isConstruction = [] := by
  have hloop := for_loop_calls (p2p_body comm.size sendbuf sendcounts senddispls sendtypes
    recvbuf recvcounts recvdispls recvtypes) _ (fun _ => ()) comm.size.toNat 0
    (fun k hk => by
      rw [Nat.zero_add]
      exact p2p_body_calls comm.size sendbuf recvbuf sendcounts senddispls recvcounts
        recvdispls sendtypes recvtypes k (hlen k hk))
  have hrun : BigMPI_Collective nb coll .P2P sendbuf sendcount sendcounts senddispls sendtype
        sendtypes recvbuf recvcount recvcounts recvdispls recvtype recvtypes root comm
      = ⟨(List.range' 0 comm.size.toNat).flatMap (fun i =>
            [.irecv_x (recvbuf.plus (recvdispls.getD i 0)) (recvcounts.getD i 0)
              (recvtypes.getD i .null) i i i,
             .isend_x (sendbuf.plus (senddispls.getD i 0)) (sendcounts.getD i 0)
              (sendtypes.getD i .null) i i (comm.size + i)])
          ++ [.waitall (2 * comm.size)], .ok MPI_SUCCESS⟩ := by
    simp only [BigMPI_Collective, hinter, hplace, Bind.bind, Pure.pure, Bool.false_eq_true,
      if_false, hloop]
    simp [Run.bind, Run.pure, emit]
  refine ⟨hrun, ?_, ?_, ?_⟩
  · rw [hrun]
    simp only [List.filter_append, List.length_append]
    rw [filter_flatMap_length Event.isRecv]
    · simp [Event.isRecv]
    · intro i
      rfl
  · rw [hrun]
    simp only [List.filter_append, List.length_append]
    rw [filter_flatMap_length Event.isSend]
    · simp [Event.isSend]
    · intro i
      rfl
  · rw [hrun]
    simp only [List.filter_append]
    rw [List.filter_eq_nil_iff.mpr (fun e he => by
      obtain ⟨i, _, hi⟩ := List.mem_flatMap.mp he
      simp only [List.mem_cons, List.mem_singleton, List.not_mem_nil, or_false] at hi
      rcases hi with hi | hi <;> (subst hi; simp [Event.isConstruction]))]
    rfl

theorem collective_p2p_calls_witness :
    BigMPI_Collective (Run.pure 0) .ALLTOALLW .P2P (.addr 0 0) 0 [2147483648, 6] [0, 2147483648]
        .null [.named 0 0 1, .named 0 0 1] (.addr 1 0) 0 [7, 2147483649] [0, 7] .null
        [.named 0 0 1, .named 0 0 1] (-1) ⟨false, 2, 0⟩
      = ⟨[.irecv_x (.addr 1 0) 7 (.named 0 0 1) 0 0 0,
          .isend_x (.addr 0 0) 2147483648 (.named 0 0 1) 0 0 2,
          .irecv_x (.addr 1 7) 2147483649 (.named 0 0 1) 1 1 1,
          .isend_x (.addr 0 2147483648) 6 (.named 0 0 1) 1 1 3,
          .waitall 4], .ok MPI_SUCCESS⟩ :=
  (collective_p2p_calls (Run.pure 0) .ALLTOALLW (.addr 0 0) (.addr 1 0) 0 0 (-1)
    [2147483648, 6] [0, 2147483648] [7, 2147483649] [0, 7] .null .null
    [.named 0 0 1, .named 0 0 1] [.named 0 0 1, .named 0 0 1] ⟨false, 2, 0⟩ rfl (by decide)
    (fun i hi => by
      have hi2 : i < 2 := hi
      interval_cases i
      · exact ⟨_, _, _, _, _, _, rfl, rfl, rfl, rfl, rfl, rfl⟩
      · exact ⟨_, _, _, _, _, _, rfl, rfl, rfl, rfl, rfl, rfl⟩)).1

theorem type_contiguous_x_not_null (av : Bool) (N cm count : Int) (base t : MPI_Datatype)
    (h : MPIX_Type_contiguous_x av N cm count base = .ok t) : t.isNull = false := by
  simp only [MPIX_Type_contiguous_x, bind, Except.bind, MPI_Type_create_struct,
    MPI_Type_vector] at h
  repeat' split at h
  all_goals first
    | (simp at h; done)
    | (injection h with h; subst h; rfl)

theorem type_free_run (t : MPI_Datatype) (h : t.isNull = false) :
    type_free t = ⟨[.type_free t], .ok ()⟩ := by
  simp [type_free, h, emit, Bind.bind, Run.bind, Pure.pure, Run.pure]

/-- Both counts at most `bigmpi_int_max`: the native primitive is called once
with the arguments of the caller. -/
theorem rma_two_sided_direct (av : Bool) (N cm : Int) (tr : Transport) (primitive : RmaPrimitive)
    (op : Option MPI_Op) (origin_addr : Buffer) (origin_count : Int)
    (origin_datatype : MPI_Datatype) (target_rank target_disp target_count : Int)
    (target_datatype : MPI_Datatype) (win : Nat) (hN : N ≤ INT_MAX)
    (h : origin_count ≤ N ∧ target_count ≤ N)
    (ho : -INT_MAX - 1 ≤ origin_count) (ht : -INT_MAX - 1 ≤ target_count) :
    rma_two_sided av N cm tr primitive op origin_addr origin_count origin_datatype target_rank
        target_disp target_count target_datatype win
      = ⟨[.rma ⟨primitive, origin_addr, origin_count, origin_datatype, none, target_rank,
            target_disp, target_count, target_datatype, op, win⟩],
          .ok (tr.rc (.rma ⟨primitive, origin_addr, origin_count, origin_datatype, none,
            target_rank, target_disp, target_count, target_datatype, op, win⟩))⟩ := by
  simp only [INT_MAX] at hN ho ht
  have e1 : to_int origin_count = origin_count := to_int_of_range (by omega) (by omega)
  have e2 : to_int target_count = target_count := to_int_of_range (by omega) (by omega)
  simp [rma_two_sided, h, e1, e2, emit, Bind.bind, Run.bind, Pure.pure, Run.pure]

/-- A count above `bigmpi_int_max`: both sides are encoded and the native
primitive is called once with count 1 on each. -/
theorem rma_two_sided_encoded (av : Bool) (N cm : Int) (tr : Transport)
    (primitive : RmaPrimitive) (op : Option MPI_Op) (origin_addr : Buffer) (origin_count : Int)
    (origin_datatype : MPI_Datatype) (target_rank target_disp target_count : Int)
    (target_datatype : MPI_Datatype) (win : Nat) (no nt : MPI_Datatype)
    (h : ¬(origin_count ≤ N ∧ target_count ≤ N))
    (hno : MPIX_Type_contiguous_x av N cm origin_count origin_datatype = .ok no)
    (hnt : MPIX_Type_contiguous_x av N cm target_count target_datatype = .ok nt) :
    rma_two_sided av N cm tr primitive op origin_addr origin_count origin_datatype target_rank
        target_disp target_count target_datatype win
      = ⟨[.type_contiguous_x origin_count origin_datatype,
          .type_contiguous_x target_count target_datatype, .type_commit no, .type_commit nt,
          .rma ⟨primitive, origin_addr, 1, no, none, target_rank, target_disp, 1, nt, op, win⟩,
          .type_free no, .type_free nt],
          .ok (tr.rc (.rma ⟨primitive, origin_addr, 1, no, none, target_rank, target_disp, 1,
            nt, op, win⟩))⟩ := by
  have f1 := type_free_run no (type_contiguous_x_not_null av N cm _ _ _ hno)
  have f2 := type_free_run nt (type_contiguous_x_not_null av N cm _ _ _ hnt)
  simp [rma_two_sided, h, hno, hnt, f1, f2, emit, Run.lift, Bind.bind, Run.bind, Pure.pure,
    Run.pure]

theorem get_accumulate_x_direct (av : Bool) (N cm : Int) (tr : Transport)
    (origin_addr result_addr : Buffer) (origin_count result_count target_count : Int)
    (origin_datatype result_datatype target_datatype : MPI_Datatype)
    (target_rank target_disp : Int) (op : MPI_Op) (win : Nat) (hN : N ≤ INT_MAX)
    (h : origin_count ≤ N ∧ result_count ≤ N ∧ target_count ≤ N)
    (ho : -INT_MAX - 1 ≤ origin_count) (hr : -INT_MAX - 1 ≤ result_count)
    (ht : -INT_MAX - 1 ≤ target_count) :
      MPIX_Get_accumulate_x av N cm tr origin_addr origin_count origin_datatype result_addr
          result_count result_datatype target_rank target_disp target_count target_datatype op win
        = ⟨[.rma ⟨.MPI_Get_accumulate, origin_addr, origin_count, origin_datatype,
            some (result_addr, result_count, result_datatype), target_rank, target_disp, target_count,
            target_datatype, some op, win⟩],
          .ok (tr.rc (.rma ⟨.MPI_Get_accumulate, origin_addr, origin_count, origin_datatype,
            some (result_addr, result_count, result_datatype), target_rank, target_disp, target_count,
            target_datatype, some op, win⟩))⟩ := by
  simp only [INT_MAX] at hN ho hr ht
  have e1 : to_int origin_count = origin_count := to_int_of_range (by omega) (by omega)
  have e2 : to_int result_count = result_count := to_int_of_range (by omega) (by omega)
  have e3 : to_int target_count = target_count := to_int_of_range (by omega) (by omega)
  simp [MPIX_Get_accumulate_x, h, e1, e2, e3, emit, Bind.bind, Run.bind, Pure.pure, Run.pure]

theorem get_accumulate_x_encoded (av : Bool) (N cm : Int) (tr : Transport)
    (origin_addr result_addr : Buffer) (origin_count result_count target_count : Int)
    (origin_datatype result_datatype target_datatype : MPI_Datatype)
    (target_rank target_disp : Int) (op : MPI_Op) (win : Nat) (no nr nt : MPI_Datatype)
    (h : ¬(origin_count ≤ N ∧ result_count ≤ N ∧ target_count ≤ N))
    (hno : MPIX_Type_contiguous_x av N cm origin_count origin_datatype = .ok no)
    (hnr : MPIX_Type_contiguous_x av N cm result_count result_datatype = .ok nr)
    (hnt : MPIX_Type_contiguous_x av N cm target_count target_datatype = .ok nt) :
      MPIX_Get_accumulate_x av N cm tr origin_addr origin_count origin_datatype result_addr
          result_count result_datatype target_rank target_disp target_count target_datatype op win
        = ⟨[.type_contiguous_x origin_count origin_datatype,
            .type_contiguous_x result_count result_datatype,
            .type_contiguous_x target_count target_datatype,
            .type_commit no, .type_commit nr, .type_commit nt,
            .rma ⟨.MPI_Get_accumulate, origin_addr, 1, no,
            some (result_addr, 1, nr), target_rank, target_disp, 1,
            nt, some op, win⟩,
            .type_free no, .type_free nr, .type_free nt],
          .ok (tr.rc (.rma ⟨.MPI_Get_accumulate, origin_addr, 1, no,
            some (result_addr, 1, nr), target_rank, target_disp, 1,
            nt, some op, win⟩))⟩ := by
  have f1 := type_free_run no (type_contiguous_x_not_null av N cm _ _ _ hno)
  have f2 := type_free_run nr (type_contiguous_x_not_null av N cm _ _ _ hnr)
  have f3 := type_free_run nt (type_contiguous_x_not_null av N cm _ _ _ hnt)
  simp [MPIX_Get_accumulate_x, h, hno, hnr, hnt, f1, f2, f3, emit, Run.lift, Bind.bind,
    Run.bind, Pure.pure, Run.pure]

/-- C15: for `MPIX_Put_x`, `MPIX_Get_x`, `MPIX_Accumulate_x`, `MPIX_Rput_x`,
`MPIX_Rget_x`, `MPIX_Raccumulate_x` and `MPIX_Get_accumulate_x`: when every
count operand is at most `bigmpi_int_max` (and representable as an `int`), the
run is one call of the native primitive with the counts and types of the
caller; when some count operand is above `bigmpi_int_max` and the encoder
returns for every side, the only native call of the run has count 1 on every
side and the encoded type of every side, small sides included.  Target rank,
target displacement, operator and window are the caller's in both cases, and
the value returned is the return code of that call.  The constant of
`bigmpi_impl.h` is assumed to satisfy `int_max ≤ INT_MAX`. -/
theorem rma_x_delegates (av : Bool) (N cm : Int) (tr : Transport)
    (origin_addr result_addr : Buffer) (origin_count result_count target_count : Int)
    (origin_datatype result_datatype target_datatype : MPI_Datatype)
    (target_rank target_disp : Int) (op : MPI_Op) (win : Nat) (hN : N ≤ INT_MAX) :
    (origin_count ≤ N ∧ target_count ≤ N →
      -INT_MAX - 1 ≤ origin_count → -INT_MAX - 1 ≤ target_count →
      MPIX_Put_x av N cm tr origin_addr origin_count origin_datatype target_rank
          target_disp target_count target_datatype win
        = ⟨[.rma ⟨.MPI_Put, origin_addr, origin_count, origin_datatype, none, target_rank,
            target_disp, target_count, target_datatype, none, win⟩],
          .ok (tr.rc (.rma ⟨.MPI_Put, origin_addr, origin_count, origin_datatype, none, target_rank,
            target_disp, target_count, target_datatype, none, win⟩))⟩
      ∧ MPIX_Get_x av N cm tr origin_addr origin_count origin_datatype target_rank
          target_disp target_count target_datatype win
        = ⟨[.rma ⟨.MPI_Get, origin_addr, origin_count, origin_datatype, none, target_rank,
            target_disp, target_count, target_datatype, none, win⟩],
          .ok (tr.rc (.rma ⟨.MPI_Get, origin_addr, origin_count, origin_datatype, none, target_rank,
            target_disp, target_count, target_datatype, none, win⟩))⟩
      ∧ MPIX_Accumulate_x av N cm tr origin_addr origin_count origin_datatype target_rank
          target_disp target_count target_datatype op win
        = ⟨[.rma ⟨.MPI_Accumulate, origin_addr, origin_count, origin_datatype, none, target_rank,
            target_disp, target_count, target_datatype, some op, win⟩],
          .ok (tr.rc (.rma ⟨.MPI_Accumulate, origin_addr, origin_count, origin_datatype, none, target_rank,
            target_disp, target_count, target_datatype, some op, win⟩))⟩
      ∧ MPIX_Rput_x av N cm tr origin_addr origin_count origin_datatype target_rank
          target_disp target_count target_datatype win
        = ⟨[.rma ⟨.MPI_Rput, origin_addr, origin_count, origin_datatype, none, target_rank,
            target_disp, target_count, target_datatype, none, win⟩],
          .ok (tr.rc (.rma ⟨.MPI_Rput, origin_addr, origin_count, origin_datatype, none, target_rank,
            target_disp, target_count, target_datatype, none, win⟩))⟩
      ∧ MPIX_Rget_x av N cm tr origin_addr origin_count origin_datatype target_rank
          target_disp target_count target_datatype win
        = ⟨[.rma ⟨.MPI_Rget, origin_addr, origin_count, origin_datatype, none, target_rank,
            target_disp, target_count, target_datatype, none, win⟩],
          .ok (tr.rc (.rma ⟨.MPI_Rget, origin_addr, origin_count, origin_datatype, none, target_rank,
            target_disp, target_count, target_datatype, none, win⟩))⟩
      ∧ MPIX_Raccumulate_x av N cm tr origin_addr origin_count origin_datatype target_rank
          target_disp target_count target_datatype op win
        = ⟨[.rma ⟨.MPI_Raccumulate, origin_addr, origin_count, origin_datatype, none, target_rank,
            target_disp, target_count, target_datatype, some op, win⟩],
          .ok (tr.rc (.rma ⟨.MPI_Raccumulate, origin_addr, origin_count, origin_datatype, none, target_rank,
            target_disp, target_count, target_datatype, some op, win⟩))⟩)
    ∧ (origin_count ≤ N ∧ result_count ≤ N ∧ target_count ≤ N →
      -INT_MAX - 1 ≤ origin_count → -INT_MAX - 1 ≤ result_count →
      -INT_MAX - 1 ≤ target_count →
      MPIX_Get_accumulate_x av N cm tr origin_addr origin_count origin_datatype result_addr
          result_count result_datatype target_rank target_disp target_count target_datatype op win
        = ⟨[.rma ⟨.MPI_Get_accumulate, origin_addr, origin_count, origin_datatype,
            some (result_addr, result_count, result_datatype), target_rank, target_disp, target_count,
            target_datatype, some op, win⟩],
          .ok (tr.rc (.rma ⟨.MPI_Get_accumulate, origin_addr, origin_count, origin_datatype,
            some (result_addr, result_count, result_datatype), target_rank, target_disp, target_count,
            target_datatype, some op, win⟩))⟩)
    ∧ (∀ no nt, ¬(origin_count ≤ N ∧ target_count ≤ N) →
      MPIX_Type_contiguous_x av N cm origin_count origin_datatype = .ok no →
      MPIX_Type_contiguous_x av N cm target_count target_datatype = .ok nt →
      (MPIX_Put_x av N cm tr origin_addr origin_count origin_datatype target_rank
          target_disp target_count target_datatype win).trace.filter Event.isRma
        = [.rma ⟨.MPI_Put, origin_addr, 1, no, none, target_rank,
            target_disp, 1, nt, none, win⟩]
      ∧ (MPIX_Put_x av N cm tr origin_addr origin_count origin_datatype target_rank
          target_disp target_count target_datatype win).result
        = .ok (tr.rc (.rma ⟨.MPI_Put, origin_addr, 1, no, none, target_rank,
            target_disp, 1, nt, none, win⟩))
      ∧ (MPIX_Get_x av N cm tr origin_addr origin_count origin_datatype target_rank
          target_disp target_count target_datatype win).trace.filter Event.isRma
        = [.rma ⟨.MPI_Get, origin_addr, 1, no, none, target_rank,
            target_disp, 1, nt, none, win⟩]
      ∧ (MPIX_Get_x av N cm tr origin_addr origin_count origin_datatype target_rank
          target_disp target_count target_datatype win).result
        = .ok (tr.rc (.rma ⟨.MPI_Get, origin_addr, 1, no, none, target_rank,
            target_disp, 1, nt, none, win⟩))
      ∧ (MPIX_Accumulate_x av N cm tr origin_addr origin_count origin_datatype target_rank
          target_disp target_count target_datatype op win).trace.filter Event.isRma
        = [.rma ⟨.MPI_Accumulate, origin_addr, 1, no, none, target_rank,
            target_disp, 1, nt, some op, win⟩]
      ∧ (MPIX_Accumulate_x av N cm tr origin_addr origin_count origin_datatype target_rank
          target_disp target_count target_datatype op win).result
        = .ok (tr.rc (.rma ⟨.MPI_Accumulate, origin_addr, 1, no, none, target_rank,
            target_disp, 1, nt, some op, win⟩))
      ∧ (MPIX_Rput_x av N cm tr origin_addr origin_count origin_datatype target_rank
          target_disp target_count target_datatype win).trace.filter Event.isRma
        = [.rma ⟨.MPI_Rput, origin_addr, 1, no, none, target_rank,
            target_disp, 1, nt, none, win⟩]
      ∧ (MPIX_Rput_x av N cm tr origin_addr origin_count origin_datatype target_rank
          target_disp target_count target_datatype win).result
        = .ok (tr.rc (.rma ⟨.MPI_Rput, origin_addr, 1, no, none, target_rank,
            target_disp, 1, nt, none, win⟩))
      ∧ (MPIX_Rget_x av N cm tr origin_addr origin_count origin_datatype target_rank
          target_disp target_count target_datatype win).trace.filter Event.isRma
        = [.rma ⟨.MPI_Rget, origin_addr, 1, no, none, target_rank,
            target_disp, 1, nt, none, win⟩]
      ∧ (MPIX_Rget_x av N cm tr origin_addr origin_count origin_datatype target_rank
          target_disp target_count target_datatype win).result
        = .ok (tr.rc (.rma ⟨.MPI_Rget, origin_addr, 1, no, none, target_rank,
            target_disp, 1, nt, none, win⟩))
      ∧ (MPIX_Raccumulate_x av N cm tr origin_addr origin_count origin_datatype target_rank
          target_disp target_count target_datatype op win).trace.filter Event.isRma
        = [.rma ⟨.MPI_Raccumulate, origin_addr, 1, no, none, target_rank,
            target_disp, 1, nt, some op, win⟩]
      ∧ (MPIX_Raccumulate_x av N cm tr origin_addr origin_count origin_datatype target_rank
          target_disp target_count target_datatype op win).result
        = .ok (tr.rc (.rma ⟨.MPI_Raccumulate, origin_addr, 1, no, none, target_rank,
            target_disp, 1, nt, some op, win⟩)))
    ∧ (∀ no nr nt, ¬(origin_count ≤ N ∧ result_count ≤ N ∧ target_count ≤ N) →
      MPIX_Type_contiguous_x av N cm origin_count origin_datatype = .ok no →
      MPIX_Type_contiguous_x av N cm result_count result_datatype = .ok nr →
      MPIX_Type_contiguous_x av N cm target_count target_datatype = .ok nt →
      (MPIX_Get_accumulate_x av N cm tr origin_addr origin_count origin_datatype result_addr
          result_count result_datatype target_rank target_disp target_count target_datatype op win).trace.filter Event.isRma
        = [.rma ⟨.MPI_Get_accumulate, origin_addr, 1, no,
            some (result_addr, 1, nr), target_rank, target_disp, 1,
            nt, some op, win⟩]
      ∧ (MPIX_Get_accumulate_x av N cm tr origin_addr origin_count origin_datatype result_addr
          result_count result_datatype target_rank target_disp target_count target_datatype op win).result
        = .ok (tr.rc (.rma ⟨.MPI_Get_accumulate, origin_addr, 1, no,
            some (result_addr, 1, nr), target_rank, target_disp, 1,
            nt, some op, win⟩))) := by
  refine ⟨fun h ho ht => ?_, fun h ho hr ht => ?_, fun no nt h hno hnt => ?_,
    fun no nr nt h hno hnr hnt => ?_⟩
  · exact ⟨rma_two_sided_direct av N cm tr _ _ _ _ _ _ _ _ _ _ hN h ho ht,
      rma_two_sided_direct av N cm tr _ _ _ _ _ _ _ _ _ _ hN h ho ht,
      rma_two_sided_direct av N cm tr _ _ _ _ _ _ _ _ _ _ hN h ho ht,
      rma_two_sided_direct av N cm tr _ _ _ _ _ _ _ _ _ _ hN h ho ht,
      rma_two_sided_direct av N cm tr _ _ _ _ _ _ _ _ _ _ hN h ho ht,
      rma_two_sided_direct av N cm tr _ _ _ _ _ _ _ _ _ _ hN h ho ht⟩
  · exact get_accumulate_x_direct av N cm tr _ _ _ _ _ _ _ _ _ _ _ _ hN h ho hr ht
  · have key := fun (primitive : RmaPrimitive) (o : Option MPI_Op) =>
      rma_two_sided_encoded av N cm tr primitive o origin_addr origin_count origin_datatype
        target_rank target_disp target_count target_datatype win no nt h hno hnt
    simp only [MPIX_Put_x, MPIX_Get_x, MPIX_Accumulate_x, MPIX_Rput_x, MPIX_Rget_x,
      MPIX_Raccumulate_x, key]
    simp [Event.isRma]
  · rw [get_accumulate_x_encoded av N cm tr _ _ _ _ _ _ _ _ _ _ _ _ no nr nt h hno hnr hnt]
    simp [Event.isRma]

theorem rma_x_delegates_witness :
    MPIX_Put_x false 2147483647 4611686014132420609 ⟨fun _ => 0, fun _ => 1, fun _ => false⟩
        (.addr 0 0) 2147483647 (.named 0 0 4) 3 16 2147483647 (.named 0 0 4) 0
      = ⟨[.rma ⟨.MPI_Put, .addr 0 0, 2147483647, .named 0 0 4, none, 3, 16, 2147483647,
            .named 0 0 4, none, 0⟩], .ok 0⟩
    ∧ (MPIX_Get_accumulate_x false 2147483647 4611686014132420609
        ⟨fun _ => 0, fun _ => 1, fun _ => false⟩ (.addr 0 0) 2147483648 (.named 0 0 4)
        (.addr 1 0) 5 (.named 0 0 4) 3 16 5 (.named 0 0 4) (.builtin .SUM)
        0).trace.filter Event.isRma
      = [.rma ⟨.MPI_Get_accumulate, .addr 0 0, 1,
          .struct [1, 1] [0, 8589934588]
            [.vector 1 2147483647 2147483647 (.named 0 0 4), .contiguous 1 (.named 0 0 4)],
          some (.addr 1 0, 1, .struct [1, 1] [0, 0]
            [.vector 0 2147483647 2147483647 (.named 0 0 4), .contiguous 5 (.named 0 0 4)]),
          3, 16, 1, .struct [1, 1] [0, 0]
            [.vector 0 2147483647 2147483647 (.named 0 0 4), .contiguous 5 (.named 0 0 4)],
          some (.builtin .SUM), 0⟩] :=
  ⟨((rma_x_delegates false 2147483647 4611686014132420609
      ⟨fun _ => 0, fun _ => 1, fun _ => false⟩ (.addr 0 0) (.addr 1 0) 2147483647 5 2147483647
      (.named 0 0 4) (.named 0 0 4) (.named 0 0 4) 3 16 (.builtin .SUM) 0 (by decide)).1
      (by decide) (by decide) (by decide)).1,
   ((rma_x_delegates false 2147483647 4611686014132420609
      ⟨fun _ => 0, fun _ => 1, fun _ => false⟩ (.addr 0 0) (.addr 1 0) 2147483648 5 5
      (.named 0 0 4) (.named 0 0 4) (.named 0 0 4) 3 16 (.builtin .SUM) 0
      (by decide)).2.2.2 _ _ _ (by decide) rfl rfl rfl).1⟩

/-- C16 (fails on the code): with the three counts at most `bigmpi_int_max`,
`MPIX_Rget_accumulate_x` calls `MPIX_Rget_accumulate_x` with the same
arguments; however many nested calls are followed, no native primitive has
been called and no call has returned. -/
theorem rget_accumulate_x_never_delegates (av : Bool) (N cm : Int) (origin_addr : Buffer)
    (origin_count : Int) (origin_datatype : MPI_Datatype) (result_addr : Buffer)
    (result_count : Int) (result_datatype : MPI_Datatype)
    (target_rank target_disp target_count : Int) (target_datatype : MPI_Datatype) (op : MPI_Op)
    (win : Nat)
    (h : origin_count ≤ N ∧ result_count ≤ N ∧ target_count ≤ N) :
    ∀ depth, MPIX_Rget_accumulate_x av N cm depth origin_addr origin_count origin_datatype
      result_addr result_count result_datatype target_rank target_disp target_count
      target_datatype op win = ⟨[], .ok none⟩ := by
  intro depth
  induction depth with
  | zero => rfl
  | succ n ih =>
    unfold MPIX_Rget_accumulate_x
    rw [if_pos h]
    exact ih

theorem rget_accumulate_x_never_delegates_witness :
    MPIX_Rget_accumulate_x false 2147483647 4611686014132420609 1000000 (.addr 0 0) 5
      (.named 0 0 4) (.addr 1 0) 5 (.named 0 0 4) 3 16 5 (.named 0 0 4) (.builtin .SUM) 0
      = ⟨[], .ok none⟩ :=
  rget_accumulate_x_never_delegates false 2147483647 4611686014132420609 (.addr 0 0) 5
    (.named 0 0 4) (.addr 1 0) 5 (.named 0 0 4) 3 16 5 (.named 0 0 4) (.builtin .SUM) 0
    (by decide) 1000000

/-- The sibling `MPIX_Get_accumulate_x` on the same arguments calls the native
primitive once. -/
theorem get_accumulate_x_small_run :
    MPIX_Get_accumulate_x false 2147483647 4611686014132420609
        ⟨fun _ => 0, fun _ => 1, fun _ => false⟩ (.addr 0 0) 5 (.named 0 0 4) (.addr 1 0) 5
        (.named 0 0 4) 3 16 5 (.named 0 0 4) (.builtin .SUM) 0
      = ⟨[.rma ⟨.MPI_Get_accumulate, .addr 0 0, 5, .named 0 0 4,
            some (.addr 1 0, 5, .named 0 0 4), 3, 16, 5, .named 0 0 4, some (.builtin .SUM),
            0⟩], .ok 0⟩ :=
  rfl

/-- C17: for `0 ≤ count ≤ bigmpi_int_max`, in every build, each of
`MPIX_Reduce_x`, `MPIX_Allreduce_x` and `MPIX_Reduce_scatter_block_x` makes
one call, of the native primitive of the same name, with the same count and
every other argument unchanged, and returns its return code; no composed type
and no wrapped operator is created.  The constant of `bigmpi_impl.h` is
assumed to satisfy `int_max ≤ INT_MAX`. -/
theorem reductions_fast_path (av cleaver : Bool) (N cm : Int) (tr : Transport)
    (sendbuf recvbuf : Buffer) (count : Int) (datatype : MPI_Datatype) (op : MPI_Op)
    (root : Int) (comm : MPI_Comm) (hN : N ≤ INT_MAX) (h0 : 0 ≤ count) (h : count ≤ N) :
    (MPIX_Reduce_x av cleaver N cm tr sendbuf recvbuf count datatype op root comm
        = ⟨[.reduce sendbuf recvbuf count datatype op root],
            .ok (tr.rc (.reduce sendbuf recvbuf count datatype op root))⟩
      ∧ MPIX_Allreduce_x av cleaver N cm tr sendbuf recvbuf count datatype op
        = ⟨[.allreduce sendbuf recvbuf count datatype op],
            .ok (tr.rc (.allreduce sendbuf recvbuf count datatype op))⟩
      ∧ MPIX_Reduce_scatter_block_x av cleaver N cm tr sendbuf recvbuf count datatype op comm
        = ⟨[.reduce_scatter_block sendbuf recvbuf count datatype op],
            .ok (tr.rc (.reduce_scatter_block sendbuf recvbuf count datatype op))⟩)
    ∧ (MPIX_Reduce_x av cleaver N cm tr sendbuf recvbuf count datatype op root
        comm).trace.filter Event.isConstruction = []
    ∧ (MPIX_Allreduce_x av cleaver N cm tr sendbuf recvbuf count datatype
        op).trace.filter Event.isConstruction = []
    ∧ (MPIX_Reduce_scatter_block_x av cleaver N cm tr sendbuf recvbuf count datatype op
        comm).trace.filter Event.isConstruction = [] := by
  simp only [INT_MAX] at hN
  have e1 : to_int count = count := to_int_of_range (by omega) (by omega)
  have r1 : MPIX_Reduce_x av cleaver N cm tr sendbuf recvbuf count datatype op root comm
      = ⟨[.reduce sendbuf recvbuf count datatype op root],
          .ok (tr.rc (.reduce sendbuf recvbuf count datatype op root))⟩ := by
    simp [MPIX_Reduce_x, h, e1, emit, Bind.bind, Run.bind, Pure.pure, Run.pure]
  have r2 : MPIX_Allreduce_x av cleaver N cm tr sendbuf recvbuf count datatype op
      = ⟨[.allreduce sendbuf recvbuf count datatype op],
          .ok (tr.rc (.allreduce sendbuf recvbuf count datatype op))⟩ := by
    simp [MPIX_Allreduce_x, h, e1, emit, Bind.bind, Run.bind, Pure.pure, Run.pure]
  have r3 : MPIX_Reduce_scatter_block_x av cleaver N cm tr sendbuf recvbuf count datatype op
        comm
      = ⟨[.reduce_scatter_block sendbuf recvbuf count datatype op],
          .ok (tr.rc (.reduce_scatter_block sendbuf recvbuf count datatype op))⟩ := by
    simp [MPIX_Reduce_scatter_block_x, h, e1, emit, Bind.bind, Run.bind, Pure.pure, Run.pure]
  refine ⟨⟨r1, r2, r3⟩, ?_, ?_, ?_⟩
  · rw [r1]; rfl
  · rw [r2]; rfl
  · rw [r3]; rfl

theorem reductions_fast_path_witness :
    MPIX_Reduce_x false false 2147483647 4611686014132420609
        ⟨fun _ => 0, fun _ => 1, fun _ => false⟩ (.addr 0 0) (.addr 1 0) 2147483647
        (.named 0 0 4) (.builtin .SUM) 0 ⟨false, 2, 1⟩
      = ⟨[.reduce (.addr 0 0) (.addr 1 0) 2147483647 (.named 0 0 4) (.builtin .SUM) 0], .ok 0⟩ :=
  (reductions_fast_path false false 2147483647 4611686014132420609
    ⟨fun _ => 0, fun _ => 1, fun _ => false⟩ (.addr 0 0) (.addr 1 0) 2147483647 (.named 0 0 4)
    (.builtin .SUM) 0 ⟨false, 2, 1⟩ (by decide) (by decide) (by decide)).1.1

/-- Whatever the build, the encoder returns nothing but structures. -/
theorem encode_is_struct (av : Bool) (N cm count : Int) (base t : MPI_Datatype)
    (h : MPIX_Type_contiguous_x av N cm count base = .ok t) :
    ∃ bl d ts, t = .struct bl d ts := by
  cases av with
  | false => exact encode_default_is_struct N cm count base t h
  | true =>
    rw [type_contiguous_x_factoring] at h
    split at h
    · exact encode_default_is_struct N cm count base t h
    · split at h <;> cases h

/-- Whatever the build, the decoder stops at line 139 on every structure. -/
theorem decode_struct (av : Bool) (N : Int) (bl d : List Int) (ts : List MPI_Datatype) :
    BigMPI_Decode_contiguous_x av N (.struct bl d ts) = .error (.assertion 139) := by
  simp [BigMPI_Decode_contiguous_x, MPI_Type_get_envelope, c_assert, bind, Except.bind]

/-- C18 (fails on the code): in every build, on an operand that
`MPIX_Type_contiguous_x` returned, `BigMPI_SUM_x` invoked with `len = 1` stops
at the assertion of line 139 of `BigMPI_Decode_contiguous_x` before any call
of `MPI_Reduce_local`: no element of `inoutvec` is reduced. -/
theorem sum_x_stops_on_encoded (av : Bool) (N cm count : Int) (base t : MPI_Datatype)
    (invec inoutvec : Buffer)
    (h : MPIX_Type_contiguous_x av N cm count base = .ok t) :
    BigMPI_SUM_x av N invec inoutvec 1 t = ⟨[], .error (.assertion 139)⟩ := by
  obtain ⟨bl, d, ts, rfl⟩ := encode_is_struct av N cm count base t h
  simp [BigMPI_SUM_x, PASTE_BIGMPI_REDUCE_OP, decode_struct, c_assert, Run.lift, Bind.bind,
    Run.bind]

theorem sum_x_stops_on_encoded_witness :
    BigMPI_SUM_x false 2147483647 (.addr 0 0) (.addr 1 0) 1
        (.struct [1, 1] [0, 17179869176]
          [.vector 2 2147483647 2147483647 (.named 0 0 4), .contiguous 5 (.named 0 0 4)])
      = ⟨[], .error (.assertion 139)⟩ :=
  sum_x_stops_on_encoded false 2147483647 4611686014132420609 4294967299 (.named 0 0 4) _
    (.addr 0 0) (.addr 1 0) rfl

/-- On the vector operand `vector(65536, 65536, 65536)` of `2 * int_max + 2`
elements of extent 4, which the decoder of the factoring build accepts, the
chunks of `BigMPI_SUM_x` start `0`, `int_max` and `2 * int_max` bytes into
the two buffers: the element offsets are used as byte offsets. -/
theorem sum_x_byte_offsets :
    BigMPI_SUM_x true 2147483647 (.addr 0 0) (.addr 1 0) 1
        (.vector 65536 65536 65536 (.named 0 0 4))
      = ⟨[.reduce_local (.addr 0 0) (.addr 1 0) 2147483647 (.named 0 0 4) .SUM,
          .reduce_local (.addr 0 2147483647) (.addr 1 2147483647) 2147483647 (.named 0 0 4)
            .SUM,
          .reduce_local (.addr 0 4294967294) (.addr 1 4294967294) 2 (.named 0 0 4) .SUM],
          .ok ()⟩ :=
  rfl

/-- C19: `BigMPI_Op_create` registers a wrapper exactly for the operators
`MAX`, `MIN`, `SUM`, `PROD`, `LAND`, `BAND`, `LOR`, `BOR`, `LXOR`, `BXOR`:
for such an operator its one call is `MPI_Op_create` with the chunking
wrapper of that same operator and the flag `MPI_Op_commutative` reported for
the original operator; for every other operator, `MAXLOC` and `MINLOC`
included, it aborts on line 76 having created nothing. -/
theorem op_create_wraps (tr : Transport) (op : MPI_Op) :
    (∀ b, b ∈ wrapped_ops → op = .builtin b →
      BigMPI_Op_create tr op
        = ⟨[.op_create b (tr.commutative op)],
            .ok (tr.rc (.op_create b (tr.commutative op)), .created b (tr.commutative op))⟩)
    ∧ ((∀ b, b ∈ wrapped_ops → op ≠ .builtin b) →
      BigMPI_Op_create tr op = ⟨[], .error (.mpi_abort 76)⟩) := by
  constructor
  · intro b hb hop
    subst hop
    simp only [wrapped_ops, List.mem_cons, List.mem_singleton, List.not_mem_nil,
      or_false] at hb
    rcases hb with h | h | h | h | h | h | h | h | h | h <;> subst h <;> rfl
  · intro h
    cases op with
    | builtin b =>
      cases b
      case MAXLOC => rfl
      case MINLOC => rfl
      case REPLACE => rfl
      case NO_OP => rfl
      all_goals exact absurd rfl (h _ (by simp [wrapped_ops]))
    | created fn commute => rfl
    | user id => rfl

theorem op_create_wraps_witness :
    BigMPI_Op_create ⟨fun _ => 0, fun _ => 1, fun _ => false⟩ (.builtin .SUM)
      = ⟨[.op_create .SUM 1], .ok (0, .created .SUM 1)⟩
    ∧ BigMPI_Op_create ⟨fun _ => 0, fun _ => 1, fun _ => false⟩ (.builtin .MAXLOC)
      = ⟨[], .error (.mpi_abort 76)⟩ :=
  ⟨(op_create_wraps ⟨fun _ => 0, fun _ => 1, fun _ => false⟩ (.builtin .SUM)).1 .SUM
      (by decide) rfl,
   (op_create_wraps ⟨fun _ => 0, fun _ => 1, fun _ => false⟩ (.builtin .MAXLOC)).2
      (by decide)⟩

/-! ### The decoder, the factorizer and the converter again -/

/-- C21 (fails on the code): in the default build, on every structure of two
members with block lengths `{1,1}`, displacements `{0, d}` and members
`vector(c, int_max, int_max, b)` and `contiguous(r, b)`,
`BigMPI_Decode_contiguous_x` does not return `(c*int_max + r, b)`: it stops
at its first assertion (line 139), which admits the combiners `CONTIGUOUS` and
`VECTOR` only. -/
theorem decode_default_rejects_composed (N c r d : Int) (b : MPI_Datatype) :
    BigMPI_Decode_contiguous_x false N
        (.struct [1, 1] [0, d] [.vector c N N b, .contiguous r b])
      = .error (.assertion 139) :=
  decode_default_struct N _ _ _

/-- The search loop fails when no candidate divides the input. -/
theorem factorize_loop_none (input : Int) :
    ∀ (n : Nat) (g : Int), (∀ k : Nat, k < n → Int.tmod input (g + k) ≠ 0) →
      factorize_loop input n g = (1, none)
  | 0, _, _ => rfl
  | n + 1, g, h => by
    unfold factorize_loop
    have h0 := h 0 (Nat.succ_pos n)
    simp only [Nat.cast_zero, add_zero] at h0
    rw [if_neg h0]
    exact factorize_loop_none input n (g + 1) (fun k hk => by
      have := h (k + 1) (Nat.succ_lt_succ hk)
      push_cast at this
      rwa [show g + ((k : Int) + 1) = g + 1 + k by ring] at this)

/-- C22: for every prime `p > bigmpi_int_max` (with `bigmpi_int_max > 0` and
the upper search bound the integer square root of `p`),
`BigMPI_Factorize_count` returns 1 and stores nothing in `*a` and `*b`. -/
theorem factorize_count_prime (N : Int) (p : Nat) (hN : 0 < N) (hp : Nat.Prime p)
    (hgt : N < (p : Int)) :
    BigMPI_Factorize_count N (p : Int) = (1, none) := by
  unfold BigMPI_Factorize_count
  apply factorize_loop_none
  intro k hk hmod
  have hp0 : (0 : Int) ≤ (p : Int) := Int.natCast_nonneg p
  have hd : Int.tdiv (p : Int) N = (p : Int) / N := Int.tdiv_eq_ediv hp0 (le_of_lt hN)
  have hq : 1 ≤ (p : Int) / N := by
    rw [Int.le_ediv_iff_mul_le hN]
    linarith
  rw [hd] at hk hmod
  rw [Int.toNat_natCast] at hk
  have hsq := isqrt_sq_le p
  have hlt : (p : Int) / N + 1 + k < (isqrt p : Int) := by omega
  have hg2 : (2 : Int) ≤ (p : Int) / N + 1 + k := by omega
  obtain ⟨g, hg⟩ := Int.eq_ofNat_of_zero_le (show (0 : Int) ≤ (p : Int) / N + 1 + k by omega)
  rw [hg] at hmod hlt hg2
  have hg2' : 2 ≤ g := by exact_mod_cast hg2
  have hlt' : g < isqrt p := by exact_mod_cast hlt
  have hgp : g < p := by
    have : isqrt p ≤ isqrt p * isqrt p := Nat.le_mul_self _
    omega
  rw [Int.tmod_eq_emod (Int.natCast_nonneg p) (Int.natCast_nonneg g)] at hmod
  have hdvd : (g : Int) ∣ (p : Int) := Int.dvd_of_emod_eq_zero hmod
  have hdvd' : g ∣ p := Int.natCast_dvd_natCast.mp hdvd
  rcases (Nat.dvd_prime hp).mp hdvd' with h1 | h1 <;> omega

theorem factorize_count_prime_witness :
    BigMPI_Factorize_count 65536 ((1000003 : Nat) : Int) = (1, none) :=
  factorize_count_prime 65536 1000003 (by decide) (by norm_num) (by decide)

/-! ### Chunked reductions and the one-sided collective -/

/-- A loop whose every iteration is one call: the calls of the loop, in order. -/
theorem for_loop_single (body : Nat → Run Unit) (f : Nat → Event) :
    ∀ (n i : Nat), (∀ k, k < n → body (i + k) = ⟨[f (i + k)], .ok ()⟩) →
      for_loop body n i = ⟨(List.range' i n).map f, .ok (List.replicate n ())⟩
  | 0, _, _ => rfl
  | n + 1, i, h => by
    have h0 := h 0 (Nat.succ_pos n)
    rw [Nat.add_zero] at h0
    have hrec := for_loop_single body f n (i + 1) (fun k hk => by
      have := h (k + 1) (Nat.succ_lt_succ hk)
      rwa [show i + (k + 1) = i + 1 + k by omega] at this)
    unfold for_loop
    rw [h0, hrec]
    simp [Run.bind, Run.pure, List.range'_succ, List.replicate_succ]

/-- Quotient and remainder as the wrappers and the cleaver branches compute
them. -/
theorem chunk_counts (N count : Int) (hN : 0 < N) (hN' : N ≤ INT_MAX) (h0 : 0 ≤ count)
    (hc : count / N ≤ INT_MAX) :
    to_int (Int.tdiv count N) = count / N ∧ to_int (Int.tmod count N) = count % N
      ∧ to_int N = N ∧ 0 ≤ count / N ∧ 0 ≤ count % N ∧ count % N < N := by
  simp only [INT_MAX] at hN' hc
  have hq0 : 0 ≤ count / N := Int.ediv_nonneg h0 (le_of_lt hN)
  have hr0 : 0 ≤ count % N := Int.emod_nonneg _ (ne_of_gt hN)
  have hr1 : count % N < N := Int.emod_lt_of_pos _ hN
  rw [Int.tdiv_eq_ediv h0 (le_of_lt hN), Int.tmod_eq_emod h0 (le_of_lt hN)]
  exact ⟨to_int_of_range (by omega) (by omega), to_int_of_range (by omega) (by omega),
    to_int_of_range (by omega) (by omega), hq0, hr0, hr1⟩

/-- C23: when the decoder returns `(count, basetype)` with `count ≥ 0` and
`c = count / int_max` within the range of `int`, the wrapper
`BigMPI_<OP>_x` (any `OP`) makes exactly `c + 1` calls of `MPI_Reduce_local`:
`c` calls of `int_max` elements followed by one call of `r = count % int_max`
elements, `0 ≤ r < int_max`, and `c * int_max + r = count`.  The constant of
`bigmpi_impl.h` is assumed to satisfy `0 < int_max ≤ INT_MAX`. -/
theorem reduce_op_chunks (av : Bool) (N : Int) (OP : Builtin_Op) (invec inoutvec : Buffer)
    (bigtype basetype : MPI_Datatype) (count : Int)
    (hN : 0 < N) (hN' : N ≤ INT_MAX) (h0 : 0 ≤ count) (hc : count / N ≤ INT_MAX)
    (hdec : BigMPI_Decode_contiguous_x av N bigtype = .ok (count, basetype)) :
    PASTE_BIGMPI_REDUCE_OP av N OP invec inoutvec 1 bigtype
      = ⟨(List.range' 0 (count / N).toNat).map (fun i =>
            .reduce_local (invec.plus (i * N)) (inoutvec.plus (i * N)) N basetype OP)
          ++ [.reduce_local (invec.plus (count / N * N)) (inoutvec.plus (count / N * N))
                (count % N) basetype OP], .ok ()⟩
    ∧ (PASTE_BIGMPI_REDUCE_OP av N OP invec inoutvec 1 bigtype).trace.length
        = (count / N).toNat + 1
    ∧ 0 ≤ count % N ∧ count % N < N
    ∧ ((count / N).toNat : Int) * N + count % N = count := by
  obtain ⟨e1, e2, e3, hq0, hr0, hr1⟩ := chunk_counts N count hN hN' h0 hc
  have hloop := for_loop_single
    (fun i => emit (.reduce_local (invec.plus (i * N)) (inoutvec.plus (i * N)) N basetype OP))
    (fun i => .reduce_local (invec.plus (i * N)) (inoutvec.plus (i * N)) N basetype OP)
    (count / N).toNat 0 (fun _ _ => rfl)
  have hrun : PASTE_BIGMPI_REDUCE_OP av N OP invec inoutvec 1 bigtype
      = ⟨(List.range' 0 (count / N).toNat).map (fun i =>
            .reduce_local (invec.plus (i * N)) (inoutvec.plus (i * N)) N basetype OP)
          ++ [.reduce_local (invec.plus (count / N * N)) (inoutvec.plus (count / N * N))
                (count % N) basetype OP], .ok ()⟩ := by
    simp only [PASTE_BIGMPI_REDUCE_OP, hdec, Bind.bind, Run.bind, Run.lift, c_assert,
      beq_self_eq_true, if_true]
    simp only [e1, e2, e3, hloop]
    simp [emit]
  refine ⟨hrun, ?_, hr0, hr1, ?_⟩
  · rw [hrun]
    simp
  · rw [Int.toNat_of_nonneg hq0]
    exact Int.ediv_add_emod' count N

theorem reduce_op_chunks_witness :
    PASTE_BIGMPI_REDUCE_OP true 2147483647 .MAX (.addr 0 0) (.addr 1 0) 1
        (.vector 65536 65536 65536 (.named 0 0 4))
      = ⟨[.reduce_local (.addr 0 0) (.addr 1 0) 2147483647 (.named 0 0 4) .MAX,
          .reduce_local (.addr 0 2147483647) (.addr 1 2147483647) 2147483647 (.named 0 0 4)
            .MAX,
          .reduce_local (.addr 0 4294967294) (.addr 1 4294967294) 2 (.named 0 0 4) .MAX],
          .ok ()⟩ :=
  (reduce_op_chunks true 2147483647 .MAX (.addr 0 0) (.addr 1 0)
    (.vector 65536 65536 65536 (.named 0 0 4)) (.named 0 0 4) 4294967296 (by decide) (by decide)
    (by decide) (by decide) rfl).1

/-- The run of the branch of `MPIX_Reduce_x` compiled under `BIGMPI_CLEAVER`
when the send buffer is not `MPI_IN_PLACE`: chunk `i` reads `&sendbuf[i*int_max]`. -/
theorem reduce_x_cleaver_run (av : Bool) (N cm : Int) (tr : Transport)
    (sendbuf recvbuf : Buffer) (count : Int) (datatype : MPI_Datatype) (op : MPI_Op)
    (root : Int) (comm : MPI_Comm)
    (hN : 0 < N) (hN' : N ≤ INT_MAX) (hgt : N < count) (hc : count / N ≤ INT_MAX)
    (hplace : sendbuf ≠ .in_place) :
    MPIX_Reduce_x av true N cm tr sendbuf recvbuf count datatype op root comm
      = ⟨(List.range' 0 (count / N).toNat).map (fun i =>
            .reduce (sendbuf.plus (i * N)) (recvbuf.plus (i * N)) N datatype op root)
          ++ [.reduce (sendbuf.plus (count / N * N)) (recvbuf.plus (count / N * N))
                (count % N) datatype op root], .ok MPI_SUCCESS⟩ := by
  obtain ⟨e1, e2, e3, _, _, _⟩ := chunk_counts N count hN hN' (by linarith) hc
  have hloop := for_loop_single
    (fun i => emit (.reduce (sendbuf.plus (i * N)) (recvbuf.plus (i * N)) N datatype op root))
    (fun i => .reduce (sendbuf.plus (i * N)) (recvbuf.plus (i * N)) N datatype op root)
    (count / N).toNat 0 (fun _ _ => rfl)
  simp only [MPIX_Reduce_x, reduce_cleaver, not_le.mpr hgt, if_false, if_true, hplace, e1, e2,
    e3, Bind.bind, Pure.pure, hloop]
  simp [Run.bind, Run.pure, emit]

/-- C28 (fails on the code): in the cleaver build, for `count > int_max` and a
send buffer that is not `MPI_IN_PLACE`, every one of the `c` calls of
`MPI_Allreduce` of `int_max` elements made by `MPIX_Allreduce_x` reads the
send buffer at `&sendbuf[c*int_max]`, the place of the remainder chunk, and
not at `&sendbuf[i*int_max]`; the receive buffer is written at
`&recvbuf[i*int_max]`.  The final call of `r` elements is at `c*int_max` on
both buffers. -/
theorem allreduce_x_cleaver_send_offset (av : Bool) (N cm : Int) (tr : Transport)
    (sendbuf recvbuf : Buffer) (count : Int) (datatype : MPI_Datatype) (op : MPI_Op)
    (hN : 0 < N) (hN' : N ≤ INT_MAX) (hgt : N < count) (hc : count / N ≤ INT_MAX)
    (hplace : sendbuf ≠ .in_place) :
    MPIX_Allreduce_x av true N cm tr sendbuf recvbuf count datatype op
      = ⟨(List.range' 0 (count / N).toNat).map (fun i =>
            .allreduce (sendbuf.plus (count / N * N)) (recvbuf.plus (i * N)) N datatype op)
          ++ [.allreduce (sendbuf.plus (count / N * N)) (recvbuf.plus (count / N * N))
                (count % N) datatype op], .ok MPI_SUCCESS⟩ := by
  obtain ⟨e1, e2, e3, _, _, _⟩ := chunk_counts N count hN hN' (by linarith) hc
  have hloop := for_loop_single
    (fun i => emit (.allreduce (sendbuf.plus (count / N * N)) (recvbuf.plus (i * N)) N
      datatype op))
    (fun i => .allreduce (sendbuf.plus (count / N * N)) (recvbuf.plus (i * N)) N datatype op)
    (count / N).toNat 0 (fun _ _ => rfl)
  simp only [MPIX_Allreduce_x, allreduce_cleaver, not_le.mpr hgt, if_false, if_true, hplace,
    e1, e2, e3, Bind.bind, Pure.pure, hloop]
  simp [Run.bind, Run.pure, emit]

theorem allreduce_x_cleaver_send_offset_witness :
    MPIX_Allreduce_x false true 2147483647 4611686014132420609
        ⟨fun _ => 0, fun _ => 1, fun _ => false⟩ (.addr 0 0) (.addr 1 0) 4294967299
        (.named 0 0 1) (.builtin .SUM)
      = ⟨[.allreduce (.addr 0 4294967294) (.addr 1 0) 2147483647 (.named 0 0 1)
            (.builtin .SUM),
          .allreduce (.addr 0 4294967294) (.addr 1 2147483647) 2147483647 (.named 0 0 1)
            (.builtin .SUM),
          .allreduce (.addr 0 4294967294) (.addr 1 4294967294) 5 (.named 0 0 1)
            (.builtin .SUM)], .ok MPI_SUCCESS⟩ :=
  allreduce_x_cleaver_send_offset false 2147483647 4611686014132420609
    ⟨fun _ => 0, fun _ => 1, fun _ => false⟩ (.addr 0 0) (.addr 1 0) 4294967299 (.named 0 0 1)
    (.builtin .SUM) (by decide) (by decide) (by decide) (by decide) (by decide)

/-- On the same input `MPIX_Reduce_x` reads chunk `i` at `&sendbuf[i*int_max]`. -/
theorem reduce_x_cleaver_small_run :
    MPIX_Reduce_x false true 2147483647 4611686014132420609
        ⟨fun _ => 0, fun _ => 1, fun _ => false⟩ (.addr 0 0) (.addr 1 0) 4294967299
        (.named 0 0 1) (.builtin .SUM) 0 ⟨false, 2, 0⟩
      = ⟨[.reduce (.addr 0 0) (.addr 1 0) 2147483647 (.named 0 0 1) (.builtin .SUM) 0,
          .reduce (.addr 0 2147483647) (.addr 1 2147483647) 2147483647 (.named 0 0 1)
            (.builtin .SUM) 0,
          .reduce (.addr 0 4294967294) (.addr 1 4294967294) 5 (.named 0 0 1)
            (.builtin .SUM) 0], .ok MPI_SUCCESS⟩ :=
  rfl

/-- The value of iteration `i` of the window-size loop when the three receive
arrays have an entry `i` and the type is valid. -/
theorem rma_offset_returns (recvcounts recvdispls : List Int) (recvtypes : List MPI_Datatype)
    (i : Nat) (rd rc : Int) (rt : MPI_Datatype)
    (h1 : recvdispls.get? i = some rd) (h2 : recvcounts.get? i = some rc)
    (h3 : recvtypes.get? i = some rt) (h4 : rt.isNull = false) :
    ∃ o, rma_offset recvcounts recvdispls recvtypes i = .ok o := by
  have g1 := c_index_of_get h1
  have g2 := c_index_of_get h2
  have g3 := c_index_of_get h3
  cases hb : typeBounds rt with
  | none =>
    have h : rma_offset recvcounts recvdispls recvtypes i = .ok (to_int64 (rd + rc * 0)) := by
      simp [rma_offset, g1, g2, g3, MPI_Type_get_extent, h4, hb, bind, Except.bind]
    exact ⟨_, h⟩
  | some b =>
    have h : rma_offset recvcounts recvdispls recvtypes i
        = .ok (to_int64 (rd + rc * (b.2 - b.1))) := by
      simp [rma_offset, g1, g2, g3, MPI_Type_get_extent, h4, hb, bind, Except.bind]
    exact ⟨_, h⟩

/-- The window-size loop returns when each of its iterations does. -/
theorem rma_max_size_returns (recvcounts recvdispls : List Int) (recvtypes : List MPI_Datatype) :
    ∀ (n i : Nat) (m : Int),
      (∀ k, k < n → ∃ o, rma_offset recvcounts recvdispls recvtypes (i + k) = .ok o) →
      ∃ s, rma_max_size recvcounts recvdispls recvtypes n i m = .ok s
  | 0, _, m, _ => ⟨m, rfl⟩
  | n + 1, i, m, h => by
    obtain ⟨o, ho⟩ := h 0 (Nat.succ_pos n)
    rw [Nat.add_zero] at ho
    obtain ⟨s, hs⟩ := rma_max_size_returns recvcounts recvdispls recvtypes n (i + 1)
      (if o > m then o else m) (fun k hk => by
        have := h (k + 1) (Nat.succ_lt_succ hk)
        rwa [show i + (k + 1) = i + 1 + k by omega] at this)
    exact ⟨s, by simp [rma_max_size, ho, hs, bind, Except.bind]⟩

/-- The call of `MPI_Put` for peer `i`. -/
theorem rma_put_body_calls (sendbuf : Buffer) (sendcounts senddispls recvdispls : List Int)
    (sendtypes recvtypes : List MPI_Datatype) (i : Nat)
    (h : ∃ sd sc st rd rt, senddispls.get? i = some sd ∧ sendcounts.get? i = some sc
      ∧ sendtypes.get? i = some st ∧ recvdispls.get? i = some rd
      ∧ recvtypes.get? i = some rt) :
    rma_put_body sendbuf sendcounts senddispls sendtypes recvdispls recvtypes i
      = ⟨[.put (sendbuf.plus (senddispls.getD i 0)) (to_int (sendcounts.getD i 0))
            (sendtypes.getD i .null) i (recvdispls.getD i 0)
            (.handle (recvtypes.getD i .null)) (recvtypes.getD i .null)], .ok ()⟩ := by
  obtain ⟨sd, sc, st, rd, rt, h1, h2, h3, h4, h5⟩ := h
  have g1 := c_index_of_get h1
  have g2 := c_index_of_get h2
  have g3 := c_index_of_get h3
  have g4 := c_index_of_get h4
  have g5 := c_index_of_get h5
  simp only [List.get?_eq_getElem?] at h1 h2 h3 h4 h5
  simp [rma_put_body, g1, g2, g3, g4, g5, List.getD, h1, h2, h3, h4, h5, emit, Run.lift,
    Bind.bind, Run.bind, Pure.pure, Run.pure]

/-- The run of the one-sided strategy of `BigMPI_Collective`. -/
theorem collective_rma_run (nb : Run Int) (coll : collective_t) (sendbuf recvbuf : Buffer)
    (sendcount recvcount root : Int) (sendcounts senddispls recvcounts recvdispls : List Int)
    (sendtype recvtype : MPI_Datatype) (sendtypes recvtypes : List MPI_Datatype)
    (comm : MPI_Comm) (hinter : comm.is_inter = false) (hplace : sendbuf ≠ .in_place)
    (hlen : ∀ i, i < comm.size.toNat → ∃ sd sc st rd rc rt,
      senddispls.get? i = some sd ∧ sendcounts.get? i = some sc ∧ sendtypes.get? i = some st
      ∧ recvdispls.get? i = some rd ∧ recvcounts.get? i = some rc
      ∧ recvtypes.get? i = some rt ∧ rt.isNull = false) :
    ∃ size,
      BigMPI_Collective nb coll .RMA sendbuf sendcount sendcounts senddispls sendtype sendtypes
          recvbuf recvcount recvcounts recvdispls recvtype recvtypes root comm
        = ⟨[.win_create recvbuf size 1, .win_fence]
            ++ (List.range' 0 comm.size.toNat).map (fun i =>
                .put (sendbuf.plus (senddispls.getD i 0)) (to_int (sendcounts.getD i 0))
                  (sendtypes.getD i .null) i (recvdispls.getD i 0)
                  (.handle (recvtypes.getD i .null)) (recvtypes.getD i .null))
            ++ [.win_fence, .win_free], .ok MPI_SUCCESS⟩ := by
  obtain ⟨s, hs⟩ := rma_max_size_returns recvcounts recvdispls recvtypes comm.size.toNat 0 0
    (fun k hk => by
      rw [Nat.zero_add]
      obtain ⟨_, _, _, rd, rc, rt, _, _, _, h4, h5, h6, h7⟩ := hlen k hk
      exact rma_offset_returns recvcounts recvdispls recvtypes k rd rc rt h4 h5 h6 h7)
  have hloop := for_loop_single
    (rma_put_body sendbuf sendcounts senddispls sendtypes recvdispls recvtypes) _
    comm.size.toNat 0 (fun k hk => by
      rw [Nat.zero_add]
      obtain ⟨sd, sc, st, rd, _, rt, h1, h2, h3, h4, _, h6, _⟩ := hlen k hk
      exact rma_put_body_calls sendbuf sendcounts senddispls recvdispls sendtypes recvtypes k
        ⟨sd, sc, st, rd, rt, h1, h2, h3, h4, h6⟩)
  refine ⟨s, ?_⟩
  rw [collective_rma_unfold nb coll sendbuf recvbuf sendcount recvcount root sendcounts
    senddispls recvcounts recvdispls sendtype recvtype sendtypes recvtypes comm hinter hplace s
    hs, hloop]
  simp [Run.bind, Run.pure, emit]

/-- C24: in the one-sided strategy of `BigMPI_Collective`, on a communicator
of `N` ranks, the calls are exactly: one `MPI_Win_create` over `recvbuf`, one
`MPI_Win_fence`, `N` calls of `MPI_Put`, the `i`-th with target rank `i`, one
`MPI_Win_fence`, one `MPI_Win_free`; the first two and the last two calls
are no puts.  The arrays are assumed to have `N` entries and the receive
types to be valid. -/
theorem collective_rma_sequence (nb : Run Int) (coll : collective_t)
    (sendbuf recvbuf : Buffer) (sendcount recvcount root : Int)
    (sendcounts senddispls recvcounts recvdispls : List Int)
    (sendtype recvtype : MPI_Datatype) (sendtypes recvtypes : List MPI_Datatype)
    (comm : MPI_Comm) (hinter : comm.is_inter = false) (hplace : sendbuf ≠ .in_place)
    (hlen : ∀ i, i < comm.size.toNat → ∃ sd sc st rd rc rt,
      senddispls.get? i = some sd ∧ sendcounts.get? i = some sc ∧ sendtypes.get? i = some st
      ∧ recvdispls.get? i = some rd ∧ recvcounts.get? i = some rc
      ∧ recvtypes.get? i = some rt ∧ rt.isNull = false) :
    ∃ size puts,
      BigMPI_Collective nb coll .RMA sendbuf sendcount sendcounts senddispls sendtype sendtypes
          recvbuf recvcount recvcounts recvdispls recvtype recvtypes root comm
        = ⟨[.win_create recvbuf size 1, .win_fence] ++ puts ++ [.win_fence, .win_free],
            .ok MPI_SUCCESS⟩
      ∧ puts.length = comm.size.toNat
      ∧ ∀ i, i < comm.size.toNat → ∃ origin_addr origin_count origin_datatype target_disp
          target_count target_datatype,
          puts.get? i = some (.put origin_addr origin_count origin_datatype i target_disp
            target_count target_datatype) := by
  obtain ⟨s, hs⟩ := collective_rma_run nb coll sendbuf recvbuf sendcount recvcount root
    sendcounts senddispls recvcounts recvdispls sendtype recvtype sendtypes recvtypes comm
    hinter hplace hlen
  refine ⟨s, _, hs, by simp, ?_⟩
  intro i hi
  refine ⟨sendbuf.plus (senddispls.getD i 0), to_int (sendcounts.getD i 0),
    sendtypes.getD i .null, recvdispls.getD i 0, .handle (recvtypes.getD i .null),
    recvtypes.getD i .null, ?_⟩
  simp only [List.get?_eq_getElem?, List.getElem?_map, List.getElem?_range' _ _ hi,
    Option.map_some', Nat.zero_add, one_mul]

theorem collective_rma_sequence_witness :
    ∃ size puts,
      BigMPI_Collective (Run.pure 0) .ALLTOALLW .RMA (.addr 0 0) 0 [5, 6] [0, 20] .null
          [.named 0 0 4, .named 0 0 4] (.addr 1 0) 0 [7, 8] [0, 28] .null
          [.named 0 0 4, .named 0 0 4] (-1) ⟨false, 2, 0⟩
        = ⟨[.win_create (.addr 1 0) size 1, .win_fence] ++ puts ++ [.win_fence, .win_free],
            .ok MPI_SUCCESS⟩
      ∧ puts.length = (2 : Int).toNat
      ∧ ∀ i, i < (2 : Int).toNat → ∃ origin_addr origin_count origin_datatype target_disp
          target_count target_datatype,
          puts.get? i = some (.put origin_addr origin_count origin_datatype i target_disp
            target_count target_datatype) :=
  collective_rma_sequence (Run.pure 0) .ALLTOALLW (.addr 0 0) (.addr 1 0) 0 0 (-1) [5, 6]
    [0, 20] [7, 8] [0, 28] .null .null [.named 0 0 4, .named 0 0 4]
    [.named 0 0 4, .named 0 0 4] ⟨false, 2, 0⟩ rfl (by decide)
    (fun i hi => by
      have hi2 : i < 2 := hi
      interval_cases i
      · exact ⟨_, _, _, _, _, _, rfl, rfl, rfl, rfl, rfl, rfl, rfl⟩
      · exact ⟨_, _, _, _, _, _, rfl, rfl, rfl, rfl, rfl, rfl, rfl⟩)

/-- C26 (fails on the code): in the one-sided strategy of
`BigMPI_Collective` the `i`-th call of `MPI_Put` has origin address
`sendbuf + senddispls[i]`, origin type `sendtypes[i]`, target rank `i`,
target displacement `recvdispls[i]` and target type `recvtypes[i]`, but its
target count argument is the handle `recvtypes[i]`, not `recvcounts[i]`, and
its origin count is `sendcounts[i]` converted to `int`. -/
theorem collective_rma_put_arguments (nb : Run Int) (coll : collective_t)
    (sendbuf recvbuf : Buffer) (sendcount recvcount root : Int)
    (sendcounts senddispls recvcounts recvdispls : List Int)
    (sendtype recvtype : MPI_Datatype) (sendtypes recvtypes : List MPI_Datatype)
    (comm : MPI_Comm) (hinter : comm.is_inter = false) (hplace : sendbuf ≠ .in_place)
    (hlen : ∀ i, i < comm.size.toNat → ∃ sd sc st rd rc rt,
      senddispls.get? i = some sd ∧ sendcounts.get? i = some sc ∧ sendtypes.get? i = some st
      ∧ recvdispls.get? i = some rd ∧ recvcounts.get? i = some rc
      ∧ recvtypes.get? i = some rt ∧ rt.isNull = false) :
    (BigMPI_Collective nb coll .RMA sendbuf sendcount sendcounts senddispls sendtype sendtypes
        recvbuf recvcount recvcounts recvdispls recvtype recvtypes root
        comm).trace.filter Event.isPut
      = (List.range' 0 comm.size.toNat).map (fun i =>
          .put (sendbuf.plus (senddispls.getD i 0)) (to_int (sendcounts.getD i 0))
            (sendtypes.getD i .null) i (recvdispls.getD i 0)
            (.handle (recvtypes.getD i .null)) (recvtypes.getD i .null)) := by
  obtain ⟨s, hs⟩ := collective_rma_run nb coll sendbuf recvbuf sendcount recvcount root
    sendcounts senddispls recvcounts recvdispls sendtype recvtype sendtypes recvtypes comm
    hinter hplace hlen
  rw [hs]
  simp only [List.filter_append, List.filter_map]
  have hall : ∀ l : List Nat, l.filter (Event.isPut ∘ fun i =>
      Event.put (sendbuf.plus (senddispls.getD i 0)) (to_int (sendcounts.getD i 0))
        (sendtypes.getD i .null) i (recvdispls.getD i 0)
        (.handle (recvtypes.getD i .null)) (recvtypes.getD i .null)) = l := by
    intro l
    exact List.filter_eq_self.mpr (fun _ _ => rfl)
  rw [hall]
  simp [Event.isPut]

theorem collective_rma_put_arguments_witness :
    (BigMPI_Collective (Run.pure 0) .ALLTOALLW .RMA (.addr 0 0) 0 [4294967301, 6] [0, 20]
        .null [.named 0 0 4, .named 1 0 8] (.addr 1 0) 0 [7, 8] [0, 28] .null
        [.named 0 0 4, .named 1 0 8] (-1) ⟨false, 2, 0⟩).trace.filter Event.isPut
      = [.put (.addr 0 0) 5 (.named 0 0 4) 0 0 (.handle (.named 0 0 4)) (.named 0 0 4),
         .put (.addr 0 20) 6 (.named 1 0 8) 1 28 (.handle (.named 1 0 8)) (.named 1 0 8)] :=
  collective_rma_put_arguments (Run.pure 0) .ALLTOALLW (.addr 0 0) (.addr 1 0) 0 0 (-1)
    [4294967301, 6] [0, 20] [7, 8] [0, 28] .null .null [.named 0 0 4, .named 1 0 8]
    [.named 0 0 4, .named 1 0 8] ⟨false, 2, 0⟩ rfl (by decide)
    (fun i hi => by
      have hi2 : i < 2 := hi
      interval_cases i
      · exact ⟨_, _, _, _, _, _, rfl, rfl, rfl, rfl, rfl, rfl, rfl⟩
      · exact ⟨_, _, _, _, _, _, rfl, rfl, rfl, rfl, rfl, rfl, rfl⟩)

/-- C25 (fails on the code): for `recvcount > int_max`,
`MPIX_Reduce_scatter_block_x` allocates `recvcount * N * extent` bytes,
calls `MPIX_Reduce_x` on `recvcount * N` elements to root 0 into that memory
(reading `recvbuf` when the send buffer is `MPI_IN_PLACE`), then
`MPIX_Scatter_x` from root 0 with both counts `recvcount`; but its last call
is `MPI_Free_mem(&tempbuf)`, on the address of the local pointer variable and
not on the memory `MPI_Alloc_mem` returned, which is never released.  The
two products are assumed to fit `MPI_Count` and `MPI_Aint`, the allocation to
succeed and `MPIX_Reduce_x` to return. -/
theorem reduce_scatter_block_x_wide (av cleaver : Bool) (N cm : Int) (tr : Transport)
    (sendbuf recvbuf : Buffer) (recvcount : Int) (datatype : MPI_Datatype) (op : MPI_Op)
    (comm : MPI_Comm) (lb e rc : Int)
    (hgt : N < recvcount)
    (hext : MPI_Type_get_extent datatype = .ok (lb, e))
    (hfit1 : -INT64_MAX - 1 ≤ recvcount * comm.size ∧ recvcount * comm.size ≤ INT64_MAX)
    (hfit2 : -INT64_MAX - 1 ≤ recvcount * comm.size * e
      ∧ recvcount * comm.size * e ≤ INT64_MAX)
    (halloc : tr.alloc_fails (recvcount * comm.size * e) = false)
    (hred : (MPIX_Reduce_x av cleaver N cm tr (if sendbuf = .in_place then recvbuf else sendbuf)
      (.temp 0) (recvcount * comm.size) datatype op 0 comm).result = .ok rc) :
    MPIX_Reduce_scatter_block_x av cleaver N cm tr sendbuf recvbuf recvcount datatype op comm
      = ⟨[.alloc_mem (recvcount * comm.size * e)]
          ++ (MPIX_Reduce_x av cleaver N cm tr
                (if sendbuf = .in_place then recvbuf else sendbuf) (.temp 0)
                (recvcount * comm.size) datatype op 0 comm).trace
          ++ [.scatter_x (.temp 0) recvcount datatype recvbuf recvcount datatype 0,
              .free_mem .address_of_tempbuf], .ok MPI_SUCCESS⟩
    ∧ Buffer.address_of_tempbuf ≠ Buffer.temp 0 := by
  have e1 : to_int64 (recvcount * comm.size) = recvcount * comm.size := by
    have h1 := hfit1.1
    have h2 := hfit1.2
    simp only [INT64_MAX] at h1 h2
    exact to_int64_of_range (by linarith) h2
  have e2 : to_int64 (recvcount * comm.size * e) = recvcount * comm.size * e := by
    have h1 := hfit2.1
    have h2 := hfit2.2
    simp only [INT64_MAX] at h1 h2
    exact to_int64_of_range (by linarith) h2
  refine ⟨?_, by decide⟩
  simp only [MPIX_Reduce_scatter_block_x, not_le.mpr hgt, if_false, e1, hext, e2, halloc,
    Bind.bind, Pure.pure, Run.bind, Run.lift, emit, Run.pure, hred, Bool.false_eq_true]
  simp

theorem reduce_scatter_block_x_wide_witness :
    MPIX_Reduce_scatter_block_x false false 2147483647 4611686014132420609
        ⟨fun _ => 0, fun _ => 1, fun _ => false⟩ .in_place (.addr 1 0) 2147483648
        (.named 0 0 4) (.builtin .SUM) ⟨false, 2, 0⟩
      = ⟨[.alloc_mem 17179869184,
          .type_contiguous_x 4294967296 (.named 0 0 4),
          .type_commit (.struct [1, 1] [0, 17179869176]
            [.vector 2 2147483647 2147483647 (.named 0 0 4), .contiguous 2 (.named 0 0 4)]),
          .op_create .SUM 1,
          .reduce (.addr 1 0) (.temp 0) 1 (.struct [1, 1] [0, 17179869176]
            [.vector 2 2147483647 2147483647 (.named 0 0 4), .contiguous 2 (.named 0 0 4)])
            (.created .SUM 1) 0,
          .type_free (.struct [1, 1] [0, 17179869176]
            [.vector 2 2147483647 2147483647 (.named 0 0 4), .contiguous 2 (.named 0 0 4)]),
          .op_free (.created .SUM 1),
          .scatter_x (.temp 0) 2147483648 (.named 0 0 4) (.addr 1 0) 2147483648 (.named 0 0 4)
            0,
          .free_mem .address_of_tempbuf], .ok MPI_SUCCESS⟩ :=
  (reduce_scatter_block_x_wide false false 2147483647 4611686014132420609
    ⟨fun _ => 0, fun _ => 1, fun _ => false⟩ .in_place (.addr 1 0) 2147483648 (.named 0 0 4)
    (.builtin .SUM) ⟨false, 2, 0⟩ 0 4 0 (by decide) rfl (by decide) (by decide) rfl rfl).1

/-- The type built for count 0 has extent 0. -/
theorem get_extent_encoded_zero (N d : Int) (t : MPI_Datatype) :
    MPI_Type_get_extent (.struct [1, 1] [0, d] [.vector 0 N N t, .contiguous 0 t])
      = .ok (0, 0) := by
  rw [get_extent_struct, typeBounds_struct_two, typeBounds_vector_empty,
    typeBounds_contiguous_empty]
  rfl

/-- C27 (fails on the code): in the default build, with the zero-displacement
flag off, when the count of peer 0 is 0 the type built for it has extent 0
and `BigMPI_Convert_vectors` divides `olddispls[0]*oldextent` by 0, whatever
the (valid) base type and its extent.  The constants of `bigmpi_impl.h` are
assumed to satisfy `0 < int_max ≤ INT_MAX` and
`0 < count_max ≤ int_max * 2^31`. -/
theorem convert_vectors_zero_count_divides_by_zero (N cm num splat : Int)
    (oldcounts olddispls : List Int) (oldtype t : MPI_Datatype) (oldtypes : List MPI_Datatype)
    (lb e d : Int)
    (hN : 0 < N) (hN' : N ≤ INT_MAX) (hcm : 0 < cm) (hcm' : cm ≤ N * 2147483648)
    (hnum : 0 < num)
    (hcount : oldcounts.get? 0 = some 0)
    (ht : effective_oldtype splat oldtype oldtypes 0 = .ok t)
    (hext : MPI_Type_get_extent t = .ok (lb, e))
    (hd : olddispls.get? 0 = some d) :
    BigMPI_Convert_vectors false N cm num splat 0 oldcounts oldtype oldtypes olddispls
      = .error .divide_by_zero := by
  obtain ⟨n, hn⟩ : ∃ n, num.toNat = n + 1 := ⟨num.toNat - 1, by omega⟩
  have henc := encode_struct_form N cm 0 t lb e hN hN' hcm' (le_refl 0) hcm hext
  simp only [Int.zero_ediv, Int.zero_emod] at henc
  have hentry : convert_vectors_entry false N cm splat 0 oldcounts oldtype oldtypes olddispls 0
      = .error .divide_by_zero := by
    simp [convert_vectors_entry, c_index_of_get hcount, c_index_of_get hd, ht, henc, hext,
      get_extent_encoded_zero, bind, Except.bind]
  simp [BigMPI_Convert_vectors, hn, convert_vectors_loop, hentry, bind, Except.bind]

theorem convert_vectors_zero_count_divides_by_zero_witness :
    BigMPI_Convert_vectors false 2147483647 4611686014132420609 2 1 0 [0, 5] (.named 0 0 4) []
        [0, 0]
      = .error .divide_by_zero :=
  convert_vectors_zero_count_divides_by_zero 2147483647 4611686014132420609 2 1 [0, 5] [0, 0]
    (.named 0 0 4) (.named 0 0 4) [] 0 4 0 (by decide) (by decide) (by decide) (by decide)
    (by decide) rfl rfl rfl rfl

/-- The inlined rescales of the entry points divide by the same extent: on the
root of `MPIX_Gatherv_x` and in `MPIX_Alltoallw_x`, a peer of count 0 stops
the call on a division by zero. -/
theorem entry_points_zero_count_divide_by_zero :
    (MPIX_Gatherv_x false 2147483647 4611686014132420609 ⟨fun _ => 0, fun _ => 1, fun _ => false⟩
        (.addr 0 0) 5 (.named 0 0 4) (.addr 1 0) [0, 5] [0, 0] (.named 0 0 4) 0
        ⟨false, 2, 0⟩).result = .error .divide_by_zero
    ∧ (MPIX_Scatterv_x false 2147483647 4611686014132420609
        ⟨fun _ => 0, fun _ => 1, fun _ => false⟩ (.addr 0 0) [0, 5] [0, 0] (.named 0 0 4)
        (.addr 1 0) 5 (.named 0 0 4) 0 ⟨false, 2, 0⟩).result = .error .divide_by_zero
    ∧ (MPIX_Alltoallw_x false 2147483647 4611686014132420609
        ⟨fun _ => 0, fun _ => 1, fun _ => false⟩ (.addr 0 0) [0, 5] [0, 0]
        [.named 0 0 4, .named 0 0 4] (.addr 1 0) [5, 5] [0, 20] [.named 0 0 4, .named 0 0 4]
        ⟨false, 2, 0⟩).result = .error .divide_by_zero :=
  ⟨rfl, rfl, rfl⟩

end BigMPI
